import Mathlib

set_option maxRecDepth 20000
set_option maxHeartbeats 4000000

/-!
Shallow embedding of the superpermutation repository
(`src/base.rs`, `src/bruteforce.rs`, `src/bruteforce_optimise.rs`).

Machine integers (`usize`) are modelled as `Nat`; the repository's
arithmetic never overflows for the inputs considered, but `usize`
subtraction that can underflow (a debug-build panic) is modelled
explicitly, and fallible code returns `Option`.
-/

namespace SuperPerm

/-! ### Mixed-Radix codec (`MixedRadix` in bruteforce_optimise.rs) -/

/-- `MixedRadix::new`: the `max_value` field, the product of all bases
(computed in the source by a running product starting at 1). -/
def max_value (bases : List Nat) : Nat :=
  bases.foldl (· * ·) 1

/-- `MixedRadix::encode_value`: least-significant position first; each step
takes `carry_over % base` and divides the carry by the base. -/
def encode_value : List Nat → Nat → List Nat
  | [], _ => []
  | b :: bs, v => (v % b) :: encode_value bs (v / b)

/-- `MixedRadix::decode_representation`: `sum += repr[pos] * position_mult`
with `position_mult *= base` each step; written in Horner form
(`d₀ + b₀ * (d₁ + b₁ * (...))`), which is the same sum.  The source indexes
`repr[pos]` for every position of `bases` (a panic if `repr` is shorter);
every call site passes a representation at least as long as `bases`, and on
those inputs this total model agrees with the source. -/
def decode_representation : List Nat → List Nat → Nat
  | [], _ => 0
  | _ :: _, [] => 0
  | b :: bs, d :: ds => d + b * decode_representation bs ds

/-- Iteration over a `MixedRadix` system (`MixedRadixIter`): the encodings of
`0, 1, ..., max_value - 1` in increasing value order. -/
def radix_iterate (bases : List Nat) : List (List Nat) :=
  (List.range (max_value bases)).map (encode_value bases)

/-! ### Permutation mapper (`PermutationMapper` in bruteforce_optimise.rs) -/

/-- `PermutationMapper::new`: the mixed-radix bases `(1..len+1).rev()`,
i.e. `[len, len-1, ..., 1]`. -/
def mapper_bases (core : List Nat) : List Nat :=
  (List.range' 1 core.length).reverse

/-- Index of the `d`-th currently-free (zero) slot of a partially built
permutation.  This models the two `while output_perm[ind] != 0` scanning
loops of `value_to_perm`: skip to the first free slot, then for each of the
`d` shifts move one slot further and skip to the next free slot.  `none`
models the out-of-bounds index panic when the scan runs past the end. -/
def freeSlotIdx : List Nat → Nat → Option Nat
  | [], _ => none
  | x :: xs, d =>
    if x = 0 then
      match d with
      | 0 => some 0
      | d + 1 => (freeSlotIdx xs d).map (· + 1)
    else (freeSlotIdx xs d).map (· + 1)

/-- The loop body of `value_to_perm`, iterated over the `(token, digit)`
pairs of `core_sequence.iter().enumerate()` zipped with the mixed-radix
representation: each token is written into the `digit`-th free slot. -/
def insertTokens : List (Nat × Nat) → List Nat → Option (List Nat)
  | [], perm => some perm
  | (t, d) :: rest, perm =>
    match freeSlotIdx perm d with
    | none => none
    | some i => insertTokens rest (perm.set i t)

/-- `PermutationMapper::value_to_perm`: decode `value` into a mixed-radix
representation and insert each core token into the free slot selected by its
digit, starting from an all-zero output of `core` length. -/
def value_to_perm (core : List Nat) (v : Nat) : Option (List Nat) :=
  insertTokens (core.zip (encode_value (mapper_bases core) v))
    (List.replicate core.length 0)

/-- The token-locating scan of `perm_to_value`: among the positions of `w`
not yet filled, find the first holding `t`.  Returns `(shift, index)` where
`shift` counts the unfilled positions skipped before the match (the stored
digit) and `index` is the matched position; `none` when the index rolls off
the edge. -/
def findToken : List Nat → List Bool → Nat → Option (Nat × Nat)
  | [], _, _ => none
  | _ :: _, [], _ => none
  | x :: xs, f :: fs, t =>
    if f then (findToken xs fs t).map (fun p => (p.1, p.2 + 1))
    else if x = t then some (0, 0)
    else (findToken xs fs t).map (fun p => (p.1 + 1, p.2 + 1))

/-- The main loop of `perm_to_value`: for each core token in order, locate it
among the unfilled positions of `w`, record the shift count as a digit and
mark the matched position filled. -/
def scanTokens : List Nat → List Nat → List Bool → Option (List Nat)
  | [], _, _ => some []
  | t :: ts, w, filled =>
    match findToken w filled t with
    | none => none
    | some (shift, i) => (scanTokens ts w (filled.set i true)).map (shift :: ·)

/-- `PermutationMapper::perm_to_value`: reject a length mismatch, then scan
the permutation for each core token and decode the collected digits. -/
def perm_to_value (core : List Nat) (w : List Nat) : Option Nat :=
  if w.length = core.length then
    (scanTokens core w (List.replicate core.length false)).map
      (decode_representation (mapper_bases core))
  else none

/-- `PermutationMapper::possible_values_for`.  The empty-target branch is the
source's `(1..self.mixed_radix_sys.max_value).collect()`, which starts at 1.
Otherwise: keep the core tokens missing from the target, map
`target ++ leftover` and `target ++ leftover.reverse` to values, and decode
every representation lying digit-wise between the two encodings. -/
def possible_values_for (core : List Nat) (target : List Nat) : List Nat :=
  let bases := mapper_bases core
  if target.length = 0 then
    List.range' 1 (max_value bases - 1)
  else
    let leftover := core.filter (fun x => ¬ target.contains x)
    match perm_to_value core (target ++ leftover) with
    | none => []
    | some vmin =>
      let min_repr := encode_value bases vmin
      match perm_to_value core (target ++ leftover.reverse) with
      | none => []
      | some vmax =>
        let max_repr := encode_value bases vmax
        let bases2 := (max_repr.zip min_repr).map (fun p => p.1 + 1 - p.2)
        (List.range (max_value bases2)).map (fun i =>
          decode_representation bases
            ((min_repr.zip (encode_value bases2 i)).map (fun p => p.1 + p.2)))

/-! ### Sliding windows and checklist marking (shared loop shapes) -/

/-- The width-`k` sliding windows of a sequence (`slice::windows` /
the naive strategy's explicit `potential_super[i..i+perm_n]` slices):
`len - k + 1` windows when `len ≥ k`, none when `len < k`. -/
def windows (k : Nat) (l : List Nat) : List (List Nat) :=
  (List.range (l.length + 1 - k)).map (fun i => (l.drop i).take k)

/-- A single checklist write `perm_checklist[value] = true`.  `Vec` indexing
first checks the bound (out of range would be a panic; the marked values are
always below the checklist length at the call sites, proved below, so the
guard's second branch is never taken). -/
def setChecked (cl : List Bool) (v : Nat) : List Bool :=
  if v < cl.length then cl.set v true else cl

/-- Mark every listed index `true` in a boolean checklist
(`perm_checklist[value] = true` for each value). -/
def markAll (cl : List Bool) (vs : List Nat) : List Bool :=
  vs.foldl (fun c v => setChecked c v) cl

/-! ### Optimized strategy (`Handle` in bruteforce_optimise.rs) -/

/-- The window loop of `Handle::check_superperm`: mark, for each window in
turn, every value consistent with it. -/
def optCheckLoop (core : List Nat) : List (List Nat) → List Bool → List Bool
  | [], cl => cl
  | w :: ws, cl => optCheckLoop core ws (markAll cl (possible_values_for core w))

/-- `Handle::check_superperm`: roll a window of core length over the
sequence, mark every value consistent with the window, and succeed iff the
whole checklist is marked. -/
def opt_check_superperm (sequence : List Nat) (n_tokens : Nat) : Bool :=
  let core := List.range' 1 n_tokens
  let cl := optCheckLoop core (windows core.length sequence)
    (List.replicate (max_value (mapper_bases core)) false)
  cl.all (fun b => b)

/-- Scan of `possible_values_for`'s result inside `Handle::create_superperm`:
the first value not yet checked off. -/
def firstUncov : List Nat → List Bool → Option Nat
  | [], _ => none
  | v :: vs, cl => if cl.getD v false = false then some v else firstUncov vs cl

/-- The trailing-overlap loop of `Handle::create_superperm`: for each
overlap width `i` in the given list (`(1..core_len).rev()`), take the last
`i` tokens of the superperm and look for an unchecked consistent value. -/
def optTryTrail (core : List Nat) (cl : List Bool) (sp : List Nat) :
    List Nat → Option (Nat × Nat)
  | [] => none
  | i :: is =>
    match firstUncov (possible_values_for core (sp.drop (sp.length - i))) cl with
    | some v => some (i, v)
    | none => optTryTrail core cl sp is

/-- First index still `false` in the checklist (the fallback scan of
`Handle::create_superperm`). -/
def firstFalseIdx (cl : List Bool) : Option Nat :=
  (firstFalseIdxAux cl 0 : Option Nat)
where
  firstFalseIdxAux : List Bool → Nat → Option Nat
    | [], _ => none
    | b :: bs, i => if b = false then some i else firstFalseIdxAux bs (i + 1)

/-- One iteration of the outer loop of `Handle::create_superperm`: try the
trailing overlaps from width `core.length - 1` down to `1`; on a match,
check the value off and append the rest of its permutation; otherwise append
the first unchecked permutation in full — the source does *not* check it off
in this fallback branch. -/
def opt_step (core : List Nat) (st : List Nat × List Bool) :
    List Nat × List Bool :=
  let sp := st.1
  let cl := st.2
  match optTryTrail core cl sp (List.range' 1 (core.length - 1)).reverse with
  | some (i, v) =>
    (sp ++ ((value_to_perm core v).getD []).drop i, setChecked cl v)
  | none =>
    match firstFalseIdx cl with
    | some j => (sp ++ (value_to_perm core j).getD [], cl)
    | none => (sp, cl)

/-- The outer loop of `Handle::create_superperm`, iterated a fixed number of
times (`for _ in 1..max_value` never reads the loop variable). -/
def optLoop (core : List Nat) : Nat → List Nat × List Bool → List Nat × List Bool
  | 0, st => st
  | k + 1, st => optLoop core k (opt_step core st)

/-- The `superperm` component of a construction loop state (the local
variable returned at the end of `create_superperm`). -/
def loopSeq (st : List Nat × List Bool) : List Nat :=
  st.1

/-- `Handle::create_superperm`: start from the base sequence with value `0`
checked off, then run the outer loop `for _ in 1..max_value`, i.e.
`max_value - 1` iterations, and return the built sequence. -/
def opt_create_superperm (n_tokens : Nat) : List Nat :=
  let core := List.range' 1 n_tokens
  let mx := max_value (mapper_bases core)
  loopSeq (optLoop core (mx - 1)
    (List.range' 1 core.length, (List.replicate mx false).set 0 true))

/-! ### Naive strategy (bruteforce.rs) -/

/-- All ways of selecting one element from a list, each paired with the rest
of the list in original order: the selection structure underlying the
`itertools` permutation enumeration used by `generate_perms`. -/
def selections : List Nat → List (Nat × List Nat)
  | [] => []
  | x :: xs => (x, xs) :: (selections xs).map (fun p => (p.1, x :: p.2))

/-- Full-length permutations of a list, selection-first (lexicographic with
respect to the positions of the input); the fuel argument is instantiated
with the list's length. -/
def permsAux : Nat → List Nat → List (List Nat)
  | 0, _ => [[]]
  | fuel + 1, l =>
    (selections l).flatMap (fun p => (permsAux fuel p.2).map (fun q => p.1 :: q))

/-- Modelled from the `itertools` crate (an external dependency, not part of
this repository's sources): `(1..n+1).permutations(n)` yields every
permutation of `[1, ..., n]` exactly once, choosing the leading element from
left to right and recursing on the remaining elements in their original
order — lexicographic order for the increasing base sequence.  This is the
repository's `generate_perms`. -/
def generate_perms (n : Nat) : List (List Nat) :=
  permsAux n (List.range' 1 n)

/-- The inner marking pass of the naive `check_superperm`: compare the
current slice against every generated permutation (with its position) and
check off each one that matches. -/
def markMatches (perms : List (List Nat)) (w : List Nat) (pos : Nat)
    (cl : List Bool) : List Bool :=
  match perms with
  | [] => cl
  | p :: ps =>
    if p = w then markMatches ps w (pos + 1) (setChecked cl pos)
    else markMatches ps w (pos + 1) cl

/-- The slice loop of the naive `check_superperm`: mark, for each slice in
turn, every generated permutation equal to it. -/
def naiveCheckLoop (perms : List (List Nat)) : List (List Nat) → List Bool → List Bool
  | [], cl => cl
  | w :: ws, cl => naiveCheckLoop perms ws (markMatches perms w 0 cl)

/-- `bruteforce.rs: check_superperm`.  The slice loop bound is
`potential_super.len() - perm_n + 1` over `usize`; when the sequence is
shorter than `perm_n` the subtraction underflows, a panic (in a debug
build), modelled as `none`. -/
def naive_check_superperm (potential_super : List Nat) (perm_n : Nat) :
    Option Bool :=
  if potential_super.length < perm_n then none
  else
    let perms := generate_perms perm_n
    let cl := naiveCheckLoop perms (windows perm_n potential_super)
      (List.replicate perms.length false)
    some (cl.all (fun b => b))

/-- The permutation scan of the naive `create_superperm`: the first
`(pos, perm)` whose length-`i` leading slice equals `trailing` and whose
checklist entry is still `false`. -/
def findMatch (cl : List Bool) (trailing : List Nat) (i : Nat) :
    List (List Nat) → Nat → Option (Nat × List Nat)
  | [], _ => none
  | p :: ps, pos =>
    if p.take i = trailing ∧ cl.getD pos false = false then some (pos, p)
    else findMatch cl trailing i ps (pos + 1)

/-- The trailing loop of the naive `create_superperm`: overlap widths from
`perm_n - 1` down to `0`; width `0` compares the empty slice, which matches
any unchecked permutation. -/
def naiveTryTrail (allp : List (List Nat)) (cl : List Bool) (sp : List Nat) :
    List Nat → Option (Nat × Nat × List Nat)
  | [] => none
  | i :: is =>
    match findMatch cl (sp.drop (sp.length - i)) i allp 0 with
    | some (pos, p) => some (i, pos, p)
    | none => naiveTryTrail allp cl sp is

/-- One iteration of the outer loop of the naive `create_superperm`: on a
match at overlap width `i`, check the permutation off and append its part
beyond the overlap; otherwise (everything already checked) do nothing. -/
def naive_step (allp : List (List Nat)) (perm_n : Nat)
    (st : List Nat × List Bool) : List Nat × List Bool :=
  match naiveTryTrail allp st.2 st.1 (List.range perm_n).reverse with
  | some (i, pos, p) => (st.1 ++ p.drop i, setChecked st.2 pos)
  | none => st

/-- The outer loop of the naive `create_superperm`, iterated a fixed number
of times (`for _ in 0..all_perms.len()` never reads the loop variable). -/
def naiveLoop (allp : List (List Nat)) (perm_n : Nat) :
    Nat → List Nat × List Bool → List Nat × List Bool
  | 0, st => st
  | k + 1, st => naiveLoop allp perm_n k (naive_step allp perm_n st)

/-- `bruteforce.rs: create_superperm`: start from the first generated
permutation with its entry checked off, then iterate the outer loop once per
generated permutation. -/
def naive_create_superperm (perm_n : Nat) : List Nat :=
  let allp := generate_perms perm_n
  (naiveLoop allp perm_n allp.length
    (allp.headD [], (List.replicate allp.length false).set 0 true)).1

/-! ### Literal states for the chunked kernel verification of
the optimized construction and check at `n = 6`.  `optS6c*` and
`optP6c*` split the sequence built so far into a prefix and a
trailing suffix (the part the next iterations read), `optR6c*`
is the suffix-local result of one 40-iteration chunk, and
`optCcl6c*` is the construction checklist. -/

def optS6c0 : List Nat := [1, 2, 3, 4, 5, 6]

def optCcl6c0 : List Bool := [true, false, false, false, false, false, false, false, false, false, false, false, false, false, false, false, false, false, false, false, false, false, false, false, false, false, false, false, false, false, false, false, false, false, false, false, false, false, false, false, false, false, false, false, false, false, false, false, false, false, false, false, false, false, false, false, false, false, false, false, false, false, false, false, false, false, false, false, false, false, false, false, false, false, false, false, false, false, false, false, false, false, false, false, false, false, false, false, false, false, false, false, false, false, false, false, false, false, false, false, false, false, false, false, false, false, false, false, false, false, false, false, false, false, false, false, false, false, false, false, false, false, false, false, false, false, false, false, false, false, false, false, false, false, false, false, false, false, false, false, false, false, false, false, false, false, false, false, false, false, false, false, false, false, false, false, false, false, false, false, false, false, false, false, false, false, false, false, false, false, false, false, false, false, false, false, false, false, false, false, false, false, false, false, false, false, false, false, false, false, false, false, false, false, false, false, false, false, false, false, false, false, false, false, false, false, false, false, false, false, false, false, false, false, false, false, false, false, false, false, false, false, false, false, false, false, false, false, false, false, false, false, false, false, false, false, false, false, false, false, false, false, false, false, false, false, false, false, false, false, false, false, false, false, false, false, false, false, false, false, false, false, false, false, false, false, false, false, false, false, false, false, false, false, false, false, false, false, false, false, false, false, false, false, false, false, false, false, false, false, false, false, false, false, false, false, false, false, false, false, false, false, false, false, false, false, false, false, false, false, false, false, false, false, false, false, false, false, false, false, false, false, false, false, false, false, false, false, false, false, false, false, false, false, false, false, false, false, false, false, false, false, false, false, false, false, false, false, false, false, false, false, false, false, false, false, false, false, false, false, false, false, false, false, false, false, false, false, false, false, false, false, false, false, false, false, false, false, false, false, false, false, false, false, false, false, false, false, false, false, false, false, false, false, false, false, false, false, false, false, false, false, false, false, false, false, false, false, false, false, false, false, false, false, false, false, false, false, false, false, false, false, false, false, false, false, false, false, false, false, false, false, false, false, false, false, false, false, false, false, false, false, false, false, false, false, false, false, false, false, false, false, false, false, false, false, false, false, false, false, false, false, false, false, false, false, false, false, false, false, false, false, false, false, false, false, false, false, false, false, false, false, false, false, false, false, false, false, false, false, false, false, false, false, false, false, false, false, false, false, false, false, false, false, false, false, false, false, false, false, false, false, false, false, false, false, false, false, false, false, false, false, false, false, false, false, false, false, false, false, false, false, false, false, false, false, false, false, false, false, false, false, false, false, false, false, false, false, false, false, false, false, false, false, false, false, false, false, false, false, false, false, false, false, false, false, false, false, false, false, false, false, false, false, false, false, false, false, false, false, false, false, false, false, false, false, false, false, false, false, false, false, false, false, false, false, false, false, false, false, false, false, false, false, false, false, false, false, false, false, false, false, false, false, false, false, false, false, false, false, false, false, false, false, false, false, false, false, false, false, false, false, false, false, false, false, false, false, false, false, false, false, false, false, false, false, false, false, false, false, false, false, false, false, false, false, false, false, false, false, false, false, false, false, false, false, false, false, false, false, false, false, false, false, false, false, false, false, false, false, false, false, false, false, false, false, false, false, false, false, false, false, false, false, false, false, false, false, false, false, false, false, false, false, false, false, false, false, false, false, false, false, false, false, false, false, false, false, false, false]

def optP6c1 : List Nat := [1, 2, 3, 4, 5, 6, 1, 2, 3, 4, 5, 1, 6, 2, 3, 4, 5, 1, 2, 6, 3, 4, 5, 1, 2, 3, 6, 4, 5, 1, 2, 3, 4, 6, 5, 1, 2, 3, 4, 1, 5, 6, 2, 3, 4, 1, 5, 2]

def optS6c1 : List Nat := [6, 3, 4, 1, 5]

def optR6c1 : List Nat := [1, 2, 3, 4, 5, 6, 1, 2, 3, 4, 5, 1, 6, 2, 3, 4, 5, 1, 2, 6, 3, 4, 5, 1, 2, 3, 6, 4, 5, 1, 2, 3, 4, 6, 5, 1, 2, 3, 4, 1, 5, 6, 2, 3, 4, 1, 5, 2, 6, 3, 4, 1, 5]

def optCcl6c1 : List Bool := [true, false, false, true, true, true, false, false, false, false, false, false, false, false, false, false, false, false, false, false, true, true, false, false, false, false, true, true, true, false, false, false, false, false, false, false, false, false, false, false, false, false, false, false, false, false, false, false, false, false, false, false, false, false, false, false, false, false, false, false, false, false, false, false, false, false, false, false, false, false, false, false, false, false, true, false, false, false, false, false, false, false, false, false, false, false, false, false, false, false, false, false, false, false, false, false, false, false, false, false, false, false, false, true, true, false, false, false, false, true, true, true, false, false, false, false, false, false, false, false, false, false, false, false, false, false, false, false, false, false, false, false, false, false, false, false, false, false, false, false, false, false, false, false, false, false, false, false, false, false, false, false, false, false, false, false, false, true, false, false, false, false, false, false, false, false, false, false, false, false, false, false, false, false, false, false, false, false, false, false, false, false, false, false, false, false, false, false, false, false, false, false, false, false, false, false, false, false, false, false, false, false, false, false, false, false, false, false, false, false, false, false, false, false, false, false, false, false, false, false, false, false, false, false, false, false, false, false, false, false, false, false, false, false, false, false, false, false, false, false, false, false, false, false, false, false, false, false, false, false, false, false, false, false, false, false, false, false, false, false, false, false, false, false, false, false, false, false, false, false, false, false, false, false, false, false, false, true, false, false, false, false, false, false, false, false, false, false, false, false, false, false, false, false, false, false, false, false, false, false, false, false, false, false, false, false, true, true, false, false, false, true, true, true, true, false, false, true, false, false, false, false, false, false, false, false, false, false, false, false, false, false, false, false, false, false, false, false, false, false, false, false, false, false, false, false, false, false, false, false, false, false, false, false, false, false, false, false, false, false, true, false, false, false, false, true, false, false, false, false, false, false, false, false, false, false, false, false, false, false, false, false, false, false, false, false, false, false, true, false, false, false, false, false, false, false, false, false, false, false, false, false, false, false, false, false, false, false, false, false, false, false, false, false, false, false, false, false, false, false, false, false, false, false, false, false, false, false, false, false, false, false, false, false, false, false, false, false, false, false, false, false, false, false, false, false, false, false, false, false, false, false, false, false, false, false, false, false, false, false, false, false, false, false, false, false, false, false, false, false, false, true, false, false, false, false, false, false, false, false, true, false, false, false, false, true, false, false, false, false, false, false, false, false, false, false, false, false, false, false, false, false, false, false, false, false, false, false, true, false, true, false, false, false, true, true, true, true, false, false, true, true, false, false, false, false, false, false, false, false, false, false, false, false, false, false, false, false, true, false, false, false, false, false, false, false, false, false, false, false, false, false, false, false, false, false, false, false, false, false, false, false, false, false, false, false, false, false, false, false, false, false, false, false, false, false, false, false, false, false, false, false, false, false, false, false, false, false, false, false, false, true, false, false, false, false, false, false, false, false, false, false, false, false, false, false, false, false, false, false, false, false, false, false, false, false, false, false, false, false, false, false, false, false, false, false, false, false, false, false, false, false, false, false, false, false, false, false, false, false, false, false, false, false, false, false, false, false, false, false, false, false, false, false, false, false, false, false, false, false, false, false, false, false, false, false, false, false, false, false, false, false, false, false, true, false, false, false, false, false, false, false, false, false, false, false, false, false, false, false, false, false, false, false, false, false, false, false, false, false, false, false, false, false, false, false, false, false, false, false, false, false, false, false, false, false, false, false, false, false]

def optP6c2 : List Nat := [1, 2, 3, 4, 5, 6, 1, 2, 3, 4, 5, 1, 6, 2, 3, 4, 5, 1, 2, 6, 3, 4, 5, 1, 2, 3, 6, 4, 5, 1, 2, 3, 4, 6, 5, 1, 2, 3, 4, 1, 5, 6, 2, 3, 4, 1, 5, 2, 6, 3, 4, 1, 5, 2, 3, 6, 4, 1, 5, 2, 3, 4, 6, 1, 5, 2, 3, 4, 1, 6, 5, 2, 3, 4, 1, 2, 5, 6, 3, 4, 1, 2, 5, 3, 6, 4, 1, 2, 5, 3, 4, 6, 1, 2, 5, 3]

def optS6c2 : List Nat := [4, 1, 6, 2, 5]

def optR6c2 : List Nat := [6, 3, 4, 1, 5, 2, 3, 6, 4, 1, 5, 2, 3, 4, 6, 1, 5, 2, 3, 4, 1, 6, 5, 2, 3, 4, 1, 2, 5, 6, 3, 4, 1, 2, 5, 3, 6, 4, 1, 2, 5, 3, 4, 6, 1, 2, 5, 3, 4, 1, 6, 2, 5]

def optCcl6c2 : List Bool := [true, false, false, true, true, true, false, false, false, false, false, false, false, false, true, false, false, false, false, false, true, true, false, false, false, false, true, true, true, false, false, false, false, false, false, false, false, false, false, false, false, false, false, false, false, false, false, false, false, false, false, false, false, false, false, false, false, false, false, false, false, false, false, false, false, false, false, true, false, false, false, false, false, true, true, false, false, false, false, false, false, false, false, false, false, false, false, false, false, false, false, false, false, false, false, false, false, true, false, false, false, false, false, true, true, false, false, false, false, true, true, true, false, false, false, false, false, false, false, false, false, false, false, false, false, false, false, false, false, false, false, false, false, false, false, false, false, false, false, false, false, false, false, false, false, false, false, false, false, false, true, false, false, false, true, true, true, true, false, false, true, true, false, false, false, false, false, false, false, false, false, false, false, false, false, false, false, true, true, false, false, false, false, false, false, false, false, false, false, false, false, false, false, false, false, false, false, false, false, false, false, false, false, false, false, false, false, false, false, false, false, false, false, false, false, false, false, false, false, false, false, false, false, false, false, false, false, false, false, false, false, false, false, false, false, false, false, false, false, false, false, false, false, false, false, false, false, false, false, false, false, false, false, false, false, false, false, false, false, false, false, false, false, false, false, false, false, false, false, false, true, false, false, false, false, true, true, true, false, false, false, true, false, false, false, false, false, false, false, false, false, false, false, false, false, false, false, false, true, false, true, false, false, false, false, true, true, true, false, false, false, true, true, true, true, false, false, true, false, false, false, false, false, false, false, false, false, false, true, false, false, false, false, false, false, false, false, false, false, false, false, false, false, false, false, false, false, false, false, false, false, false, false, false, false, false, false, false, false, false, true, false, false, true, true, true, false, false, false, false, false, false, false, false, false, false, false, false, false, false, true, true, false, false, false, false, true, true, true, false, false, false, false, false, false, false, false, false, false, false, false, false, false, false, false, false, false, false, false, false, false, false, false, false, false, false, false, false, false, false, false, false, false, false, false, false, false, false, false, false, false, false, false, false, false, false, false, false, false, false, false, false, false, false, false, false, false, false, false, false, false, false, false, false, false, false, false, false, false, false, false, false, false, false, true, false, false, false, false, true, true, true, false, false, false, false, false, false, false, false, true, false, false, false, true, true, false, false, false, false, false, false, false, false, false, false, false, false, false, false, false, true, false, false, false, false, false, true, true, false, true, false, false, false, true, true, true, true, false, false, true, true, false, false, false, false, false, false, false, false, false, true, false, false, false, false, false, true, true, false, false, false, false, false, false, false, false, false, false, false, false, false, false, false, false, false, false, false, false, false, false, false, false, false, false, false, false, false, false, false, false, false, false, false, false, false, false, false, false, false, false, false, false, false, true, false, false, false, false, false, true, true, false, false, false, false, false, false, false, false, false, false, false, false, false, false, false, false, false, false, false, false, false, false, false, false, false, false, false, false, false, false, false, false, false, false, false, false, false, false, false, false, false, false, false, false, false, false, false, false, false, false, false, false, false, false, false, false, false, false, false, false, false, false, false, false, false, false, false, false, false, false, false, false, false, false, false, true, false, false, false, false, true, true, true, false, false, true, false, false, false, false, false, false, false, false, false, false, false, false, false, false, false, false, false, false, false, false, false, false, false, false, false, false, false, false, false, false, false, false, false, false, false, false, false, false, false, false, false, false]

def optP6c3 : List Nat := [1, 2, 3, 4, 5, 6, 1, 2, 3, 4, 5, 1, 6, 2, 3, 4, 5, 1, 2, 6, 3, 4, 5, 1, 2, 3, 6, 4, 5, 1, 2, 3, 4, 6, 5, 1, 2, 3, 4, 1, 5, 6, 2, 3, 4, 1, 5, 2, 6, 3, 4, 1, 5, 2, 3, 6, 4, 1, 5, 2, 3, 4, 6, 1, 5, 2, 3, 4, 1, 6, 5, 2, 3, 4, 1, 2, 5, 6, 3, 4, 1, 2, 5, 3, 6, 4, 1, 2, 5, 3, 4, 6, 1, 2, 5, 3, 4, 1, 6, 2, 5, 3, 4, 1, 2, 6, 5, 3, 4, 1, 2, 3, 5, 6, 4, 1, 2, 3, 5, 4, 6, 1, 2, 3, 5, 4, 1, 6, 2, 3, 5, 4, 1, 2, 6, 3, 5, 4, 1, 2, 3, 6, 5, 4, 1, 2]

def optS6c3 : List Nat := [3, 1, 4, 5, 6]

def optR6c3 : List Nat := [4, 1, 6, 2, 5, 3, 4, 1, 2, 6, 5, 3, 4, 1, 2, 3, 5, 6, 4, 1, 2, 3, 5, 4, 6, 1, 2, 3, 5, 4, 1, 6, 2, 3, 5, 4, 1, 2, 6, 3, 5, 4, 1, 2, 3, 6, 5, 4, 1, 2, 3, 1, 4, 5, 6]

def optCcl6c3 : List Bool := [true, false, true, true, true, true, false, false, false, false, false, false, false, false, true, false, false, false, false, false, true, true, false, false, false, false, true, true, true, false, false, false, false, false, false, false, false, true, false, false, false, false, false, false, false, false, false, false, false, false, false, false, false, false, false, false, false, false, false, false, false, false, false, false, false, false, false, true, false, false, false, false, false, true, true, false, false, false, false, false, false, false, false, false, false, false, false, false, false, false, false, false, false, false, false, false, false, true, false, false, false, false, false, true, true, false, false, false, false, true, true, true, false, false, false, false, false, false, false, false, true, false, false, false, true, true, false, false, false, false, false, false, false, false, false, false, false, false, false, false, false, true, false, false, false, false, false, true, true, false, true, false, false, false, true, true, true, true, false, false, true, true, false, false, false, false, false, false, false, false, false, true, false, false, false, false, false, true, true, false, false, false, false, false, false, false, false, false, false, false, false, false, false, false, true, false, false, false, false, false, false, false, false, false, false, false, false, false, false, false, false, false, false, false, false, false, false, false, false, false, false, false, false, false, true, false, false, false, false, false, true, true, false, false, false, false, false, false, false, false, true, false, false, false, false, true, false, false, false, false, false, false, false, false, false, false, false, false, false, false, false, false, false, false, false, false, false, false, true, false, true, false, false, false, false, true, true, true, false, false, false, true, false, false, false, false, false, false, false, false, false, false, false, false, false, false, false, false, true, false, true, false, false, false, false, true, true, true, false, false, false, true, true, true, true, false, false, true, false, false, false, false, false, false, false, false, false, false, true, false, false, false, false, false, false, false, false, false, false, false, false, false, false, false, false, false, false, false, false, false, false, true, false, false, false, false, false, false, false, false, true, false, false, true, true, true, false, false, false, false, false, false, false, false, true, false, false, false, false, false, true, true, false, false, false, false, true, true, true, false, false, false, false, false, false, false, false, true, false, false, false, false, false, false, false, false, false, false, false, false, false, false, false, false, false, false, false, false, false, false, false, false, false, false, false, false, false, true, false, false, false, false, false, true, true, false, false, false, false, false, false, false, false, false, false, false, false, false, false, false, false, false, false, false, false, false, false, true, false, false, false, false, false, true, true, false, false, false, false, true, true, true, false, false, false, false, false, false, false, false, true, false, false, false, true, true, false, false, false, false, false, false, false, false, false, false, false, false, false, false, false, true, false, false, false, false, false, true, true, false, true, false, false, false, true, true, true, true, false, false, true, true, false, false, false, false, false, false, false, false, false, true, false, false, false, false, false, true, true, false, false, false, false, false, false, false, false, false, false, false, false, false, false, false, true, false, false, false, false, false, false, false, false, false, false, false, false, false, false, false, false, false, false, false, false, false, false, false, false, false, false, false, false, false, true, false, false, false, false, false, true, true, false, false, false, false, false, false, false, false, true, false, false, false, false, true, false, false, false, false, false, false, false, false, false, false, false, false, false, false, false, false, false, false, false, false, false, false, true, false, true, false, false, false, false, true, true, true, false, false, false, true, false, false, false, false, false, false, false, false, false, false, false, false, false, false, false, false, true, false, true, false, false, false, false, true, true, true, false, false, false, true, true, true, true, false, false, true, false, false, false, false, false, false, false, false, false, false, true, false, false, false, false, false, false, false, false, false, false, false, false, false, false, false, false, false, false, false, false, false, false, true, false, false, false, false, false, false, false, false]

def optP6c4 : List Nat := [1, 2, 3, 4, 5, 6, 1, 2, 3, 4, 5, 1, 6, 2, 3, 4, 5, 1, 2, 6, 3, 4, 5, 1, 2, 3, 6, 4, 5, 1, 2, 3, 4, 6, 5, 1, 2, 3, 4, 1, 5, 6, 2, 3, 4, 1, 5, 2, 6, 3, 4, 1, 5, 2, 3, 6, 4, 1, 5, 2, 3, 4, 6, 1, 5, 2, 3, 4, 1, 6, 5, 2, 3, 4, 1, 2, 5, 6, 3, 4, 1, 2, 5, 3, 6, 4, 1, 2, 5, 3, 4, 6, 1, 2, 5, 3, 4, 1, 6, 2, 5, 3, 4, 1, 2, 6, 5, 3, 4, 1, 2, 3, 5, 6, 4, 1, 2, 3, 5, 4, 6, 1, 2, 3, 5, 4, 1, 6, 2, 3, 5, 4, 1, 2, 6, 3, 5, 4, 1, 2, 3, 6, 5, 4, 1, 2, 3, 1, 4, 5, 6, 2, 3, 1, 4, 5, 2, 6, 3, 1, 4, 5, 2, 3, 6, 1, 4, 5, 2, 3, 1, 6, 4, 5, 2, 3, 1, 4, 6, 5, 2, 3, 1, 4, 2, 5, 6, 3, 1, 4, 2, 5, 3]

def optS6c4 : List Nat := [6, 1, 4, 2, 5]

def optR6c4 : List Nat := [3, 1, 4, 5, 6, 2, 3, 1, 4, 5, 2, 6, 3, 1, 4, 5, 2, 3, 6, 1, 4, 5, 2, 3, 1, 6, 4, 5, 2, 3, 1, 4, 6, 5, 2, 3, 1, 4, 2, 5, 6, 3, 1, 4, 2, 5, 3, 6, 1, 4, 2, 5]

def optCcl6c4 : List Bool := [true, false, true, true, true, true, false, false, false, false, false, false, false, true, true, false, false, false, false, true, true, true, false, false, false, true, true, true, true, false, false, false, false, false, false, false, false, true, false, false, false, false, false, false, false, false, false, false, false, false, false, false, false, false, false, false, false, false, false, false, false, false, false, false, false, false, true, true, false, false, false, true, true, true, true, false, true, true, false, false, false, false, false, false, false, false, false, false, false, false, false, false, false, false, false, false, true, true, false, false, false, true, true, true, true, false, false, true, true, true, true, true, false, true, false, false, false, false, false, false, true, false, false, false, true, true, false, false, false, false, false, false, false, false, false, false, false, false, false, false, false, true, false, false, false, false, false, true, true, false, true, false, false, false, true, true, true, true, false, true, true, true, false, false, false, false, false, false, false, false, false, true, false, false, false, false, false, true, true, false, false, false, false, false, false, false, false, false, false, false, false, false, false, false, true, false, false, false, false, false, false, false, false, false, false, false, false, false, false, false, false, false, false, false, false, false, false, false, false, false, false, false, false, false, true, false, false, false, false, false, true, true, false, false, false, false, false, false, false, false, true, false, false, false, false, true, false, false, false, false, false, false, false, false, false, false, false, false, false, false, false, false, false, false, false, false, false, false, true, false, true, false, false, false, true, true, true, true, false, true, true, true, false, false, false, false, false, false, false, false, false, false, false, false, false, false, false, true, true, false, true, false, false, false, true, true, true, true, false, false, true, true, true, true, true, false, true, true, false, false, false, false, false, false, false, false, false, true, true, false, false, false, false, false, false, false, false, false, false, false, false, false, false, false, false, false, false, false, false, false, false, true, false, false, false, false, false, false, false, false, true, false, true, true, true, true, false, false, false, false, false, false, false, false, true, false, false, false, false, false, true, true, false, false, false, true, true, true, true, false, false, false, false, false, false, false, false, true, false, false, false, false, false, false, false, false, false, false, false, false, false, false, false, false, false, false, false, false, false, false, false, false, false, false, false, false, false, true, false, false, false, false, false, true, true, false, false, false, false, false, false, false, false, false, false, false, false, false, false, false, false, false, false, false, false, false, false, true, false, false, false, false, false, true, true, false, false, false, true, true, true, true, false, true, false, false, false, false, false, false, true, false, true, true, true, true, false, false, false, false, false, false, false, false, false, false, false, false, false, false, true, true, false, false, false, true, true, true, true, false, true, false, false, true, true, true, true, true, false, true, true, true, false, false, false, false, false, false, false, false, true, true, false, false, false, false, true, true, true, false, false, false, false, false, false, false, false, false, false, false, false, false, false, false, true, false, false, false, false, false, false, false, false, false, false, false, false, false, false, false, false, false, false, false, false, false, false, false, false, false, false, false, false, false, true, false, false, false, true, true, true, true, false, true, false, false, false, false, false, false, true, false, false, false, false, true, false, false, false, false, false, false, false, false, false, false, false, false, false, false, false, false, false, false, false, false, false, false, true, false, true, false, false, false, false, true, true, true, false, false, false, true, false, false, false, false, false, false, false, false, false, false, false, false, false, false, false, false, true, false, true, false, false, false, false, true, true, true, false, false, false, true, true, true, true, false, true, true, false, false, false, false, false, false, false, false, false, false, true, false, false, false, false, false, false, false, false, false, false, false, false, false, false, false, false, false, false, false, false, false, false, true, false, false, false, false, false, false, false, false]

def optP6c5 : List Nat := [1, 2, 3, 4, 5, 6, 1, 2, 3, 4, 5, 1, 6, 2, 3, 4, 5, 1, 2, 6, 3, 4, 5, 1, 2, 3, 6, 4, 5, 1, 2, 3, 4, 6, 5, 1, 2, 3, 4, 1, 5, 6, 2, 3, 4, 1, 5, 2, 6, 3, 4, 1, 5, 2, 3, 6, 4, 1, 5, 2, 3, 4, 6, 1, 5, 2, 3, 4, 1, 6, 5, 2, 3, 4, 1, 2, 5, 6, 3, 4, 1, 2, 5, 3, 6, 4, 1, 2, 5, 3, 4, 6, 1, 2, 5, 3, 4, 1, 6, 2, 5, 3, 4, 1, 2, 6, 5, 3, 4, 1, 2, 3, 5, 6, 4, 1, 2, 3, 5, 4, 6, 1, 2, 3, 5, 4, 1, 6, 2, 3, 5, 4, 1, 2, 6, 3, 5, 4, 1, 2, 3, 6, 5, 4, 1, 2, 3, 1, 4, 5, 6, 2, 3, 1, 4, 5, 2, 6, 3, 1, 4, 5, 2, 3, 6, 1, 4, 5, 2, 3, 1, 6, 4, 5, 2, 3, 1, 4, 6, 5, 2, 3, 1, 4, 2, 5, 6, 3, 1, 4, 2, 5, 3, 6, 1, 4, 2, 5, 3, 1, 6, 4, 2, 5, 3, 1, 4, 6, 2, 5, 3, 1, 4, 2, 6, 5, 3, 1, 4, 2, 3, 5, 6, 1, 4, 2, 3, 5, 1, 6, 4, 2, 3, 5, 1, 4, 6, 2, 3, 5, 1]

def optS6c5 : List Nat := [4, 2, 6, 3, 5]

def optR6c5 : List Nat := [6, 1, 4, 2, 5, 3, 1, 6, 4, 2, 5, 3, 1, 4, 6, 2, 5, 3, 1, 4, 2, 6, 5, 3, 1, 4, 2, 3, 5, 6, 1, 4, 2, 3, 5, 1, 6, 4, 2, 3, 5, 1, 4, 6, 2, 3, 5, 1, 4, 2, 6, 3, 5]

def optCcl6c5 : List Bool := [true, false, true, true, true, true, false, false, false, false, false, false, false, true, true, false, false, false, false, true, true, true, false, false, false, true, true, true, true, false, false, false, false, false, false, false, true, true, false, false, true, true, false, false, false, false, false, false, false, false, false, false, false, false, false, false, false, false, false, false, false, false, false, false, false, false, true, true, false, false, true, true, true, true, true, false, true, true, false, false, false, false, false, false, false, false, false, false, false, false, false, false, false, false, false, false, true, true, false, false, false, true, true, true, true, false, false, true, true, true, true, true, false, true, false, false, false, false, false, false, true, false, false, true, true, true, false, false, false, false, false, false, false, false, false, false, false, false, false, false, true, true, false, false, false, false, true, true, true, false, true, false, false, true, true, true, true, true, false, true, true, true, false, false, false, false, false, false, false, false, true, true, false, false, false, false, true, true, true, false, false, false, false, false, false, false, false, false, false, false, false, false, false, false, true, false, false, false, false, false, false, false, false, false, false, false, false, false, false, false, false, false, false, false, false, false, false, false, false, false, false, false, false, true, true, false, false, false, false, true, true, true, false, false, false, false, false, false, false, false, true, false, false, true, true, true, false, false, false, false, false, false, false, false, false, false, false, false, false, false, false, false, false, false, false, false, true, true, true, false, true, false, false, true, true, true, true, true, false, true, true, true, false, false, false, false, false, false, false, false, false, false, false, false, false, false, true, true, true, false, true, false, false, false, true, true, true, true, false, false, true, true, true, true, true, false, true, true, false, false, false, false, false, false, false, false, false, true, true, false, false, false, false, false, false, false, false, false, false, false, false, false, false, false, false, false, false, false, false, true, true, true, false, false, false, false, false, false, false, false, true, false, true, true, true, true, false, false, false, false, false, false, false, true, true, false, false, false, false, true, true, true, false, false, false, true, true, true, true, false, false, false, false, false, false, false, false, true, false, false, false, false, false, false, false, false, false, false, false, false, false, false, false, false, false, false, false, false, false, false, false, false, false, false, false, false, true, true, false, false, false, false, true, true, true, false, false, true, false, false, false, false, false, false, false, false, false, false, false, false, false, false, false, false, false, false, true, true, false, false, false, true, true, true, true, false, false, true, true, true, true, true, false, true, false, false, false, false, false, false, true, false, true, true, true, true, false, false, false, false, false, false, false, false, false, false, false, false, false, true, true, true, false, false, false, true, true, true, true, false, true, false, false, true, true, true, true, true, false, true, true, true, false, false, false, false, false, false, false, false, true, true, false, false, false, false, true, true, true, false, false, false, false, false, false, false, false, false, false, false, false, false, true, true, true, false, false, true, false, false, false, false, false, false, false, false, false, false, false, false, false, false, false, false, false, false, false, false, false, false, false, false, true, true, true, false, false, true, true, true, true, true, false, true, false, false, false, false, false, false, true, false, false, false, false, true, false, false, false, false, false, false, false, false, false, false, false, false, false, false, false, false, false, false, false, false, false, false, true, false, true, false, false, false, false, true, true, true, false, false, true, true, false, false, false, false, false, false, false, false, false, false, false, false, false, false, false, false, true, false, true, false, false, false, true, true, true, true, false, false, true, true, true, true, true, false, true, true, false, false, false, false, false, false, false, false, false, true, true, false, false, false, false, false, false, false, false, false, false, false, false, false, false, false, false, false, false, false, false, false, false, true, false, false, false, false, false, false, false, false]

def optP6c6 : List Nat := [1, 2, 3, 4, 5, 6, 1, 2, 3, 4, 5, 1, 6, 2, 3, 4, 5, 1, 2, 6, 3, 4, 5, 1, 2, 3, 6, 4, 5, 1, 2, 3, 4, 6, 5, 1, 2, 3, 4, 1, 5, 6, 2, 3, 4, 1, 5, 2, 6, 3, 4, 1, 5, 2, 3, 6, 4, 1, 5, 2, 3, 4, 6, 1, 5, 2, 3, 4, 1, 6, 5, 2, 3, 4, 1, 2, 5, 6, 3, 4, 1, 2, 5, 3, 6, 4, 1, 2, 5, 3, 4, 6, 1, 2, 5, 3, 4, 1, 6, 2, 5, 3, 4, 1, 2, 6, 5, 3, 4, 1, 2, 3, 5, 6, 4, 1, 2, 3, 5, 4, 6, 1, 2, 3, 5, 4, 1, 6, 2, 3, 5, 4, 1, 2, 6, 3, 5, 4, 1, 2, 3, 6, 5, 4, 1, 2, 3, 1, 4, 5, 6, 2, 3, 1, 4, 5, 2, 6, 3, 1, 4, 5, 2, 3, 6, 1, 4, 5, 2, 3, 1, 6, 4, 5, 2, 3, 1, 4, 6, 5, 2, 3, 1, 4, 2, 5, 6, 3, 1, 4, 2, 5, 3, 6, 1, 4, 2, 5, 3, 1, 6, 4, 2, 5, 3, 1, 4, 6, 2, 5, 3, 1, 4, 2, 6, 5, 3, 1, 4, 2, 3, 5, 6, 1, 4, 2, 3, 5, 1, 6, 4, 2, 3, 5, 1, 4, 6, 2, 3, 5, 1, 4, 2, 6, 3, 5, 1, 4, 2, 3, 6, 5, 1, 4, 2, 3, 1, 5, 6, 4, 2, 3, 1, 5, 4, 6, 2, 3, 1, 5, 4, 2, 6, 3, 1, 5, 4, 2, 3, 6, 1, 5, 4, 2, 3, 1, 6, 5, 4, 2, 3]

def optS6c6 : List Nat := [1, 2, 4, 5, 6]

def optR6c6 : List Nat := [4, 2, 6, 3, 5, 1, 4, 2, 3, 6, 5, 1, 4, 2, 3, 1, 5, 6, 4, 2, 3, 1, 5, 4, 6, 2, 3, 1, 5, 4, 2, 6, 3, 1, 5, 4, 2, 3, 6, 1, 5, 4, 2, 3, 1, 6, 5, 4, 2, 3, 1, 2, 4, 5, 6]

def optCcl6c6 : List Bool := [true, false, true, true, true, true, false, true, false, false, false, false, false, true, true, false, false, false, false, true, true, true, false, false, false, true, true, true, true, false, false, false, false, false, false, false, true, true, false, true, true, true, false, false, false, false, false, false, false, false, false, false, false, false, false, false, false, false, false, false, false, false, false, false, false, false, true, true, false, false, true, true, true, true, true, false, true, true, false, false, false, false, false, false, false, false, false, false, false, false, false, false, false, false, false, false, true, true, false, false, false, true, true, true, true, false, false, true, true, true, true, true, false, true, false, false, false, false, false, false, true, false, true, true, true, true, false, false, false, false, false, false, false, false, false, false, false, false, false, true, true, true, false, false, false, true, true, true, true, false, true, false, false, true, true, true, true, true, false, true, true, true, false, false, false, false, false, false, false, false, true, true, false, false, false, false, true, true, true, false, false, false, false, false, false, false, false, false, false, false, false, false, true, true, true, false, true, true, false, false, false, false, false, false, false, false, false, false, false, false, false, false, false, false, false, false, false, false, false, false, false, false, true, true, true, false, false, true, true, true, true, true, false, true, false, false, false, false, false, false, true, false, true, true, true, true, false, false, false, false, false, false, false, false, false, false, false, false, false, false, false, false, false, false, false, true, true, true, true, false, true, false, false, true, true, true, true, true, false, true, true, true, false, false, false, false, false, false, false, false, false, false, false, false, false, false, true, true, true, false, true, false, false, false, true, true, true, true, false, false, true, true, true, true, true, false, true, true, false, false, false, false, false, false, false, false, false, true, true, false, false, false, false, false, false, false, false, false, false, false, false, false, false, false, false, false, false, false, true, true, true, true, false, true, false, false, false, false, false, false, true, false, true, true, true, true, false, false, false, false, false, false, false, true, true, false, false, false, false, true, true, true, false, false, false, true, true, true, true, false, false, false, false, false, false, false, true, true, false, true, true, true, false, false, false, false, false, false, false, false, false, false, false, false, false, false, false, false, false, false, false, false, false, false, false, false, true, true, false, false, true, true, true, true, true, false, true, true, false, false, false, false, false, false, false, false, false, false, false, false, false, false, false, false, false, false, true, true, false, false, false, true, true, true, true, false, false, true, true, true, true, true, false, true, false, false, false, false, false, false, true, false, true, true, true, true, false, false, false, false, false, false, false, false, false, false, false, false, false, true, true, true, false, false, false, true, true, true, true, false, true, false, false, true, true, true, true, true, false, true, true, true, false, false, false, false, false, false, false, false, true, true, false, false, false, false, true, true, true, false, false, false, false, false, false, false, false, false, false, false, false, false, true, true, true, false, true, true, false, false, false, false, false, false, false, false, false, false, false, false, false, false, false, false, false, false, false, false, false, false, false, false, true, true, true, false, false, true, true, true, true, true, false, true, false, false, false, false, false, false, true, false, true, true, true, true, false, false, false, false, false, false, false, false, false, false, false, false, false, false, false, false, false, false, false, true, true, true, true, false, true, false, false, true, true, true, true, true, false, true, true, true, false, false, false, false, false, false, false, false, false, false, false, false, false, false, true, true, true, false, true, false, false, false, true, true, true, true, false, false, true, true, true, true, true, false, true, true, false, false, false, false, false, false, false, false, false, true, true, false, false, false, false, false, false, false, false, false, false, false, false, false, false, false, false, false, false, false, true, true, true, true, false, true, false, false, false, false, false, false]

def optP6c7 : List Nat := [1, 2, 3, 4, 5, 6, 1, 2, 3, 4, 5, 1, 6, 2, 3, 4, 5, 1, 2, 6, 3, 4, 5, 1, 2, 3, 6, 4, 5, 1, 2, 3, 4, 6, 5, 1, 2, 3, 4, 1, 5, 6, 2, 3, 4, 1, 5, 2, 6, 3, 4, 1, 5, 2, 3, 6, 4, 1, 5, 2, 3, 4, 6, 1, 5, 2, 3, 4, 1, 6, 5, 2, 3, 4, 1, 2, 5, 6, 3, 4, 1, 2, 5, 3, 6, 4, 1, 2, 5, 3, 4, 6, 1, 2, 5, 3, 4, 1, 6, 2, 5, 3, 4, 1, 2, 6, 5, 3, 4, 1, 2, 3, 5, 6, 4, 1, 2, 3, 5, 4, 6, 1, 2, 3, 5, 4, 1, 6, 2, 3, 5, 4, 1, 2, 6, 3, 5, 4, 1, 2, 3, 6, 5, 4, 1, 2, 3, 1, 4, 5, 6, 2, 3, 1, 4, 5, 2, 6, 3, 1, 4, 5, 2, 3, 6, 1, 4, 5, 2, 3, 1, 6, 4, 5, 2, 3, 1, 4, 6, 5, 2, 3, 1, 4, 2, 5, 6, 3, 1, 4, 2, 5, 3, 6, 1, 4, 2, 5, 3, 1, 6, 4, 2, 5, 3, 1, 4, 6, 2, 5, 3, 1, 4, 2, 6, 5, 3, 1, 4, 2, 3, 5, 6, 1, 4, 2, 3, 5, 1, 6, 4, 2, 3, 5, 1, 4, 6, 2, 3, 5, 1, 4, 2, 6, 3, 5, 1, 4, 2, 3, 6, 5, 1, 4, 2, 3, 1, 5, 6, 4, 2, 3, 1, 5, 4, 6, 2, 3, 1, 5, 4, 2, 6, 3, 1, 5, 4, 2, 3, 6, 1, 5, 4, 2, 3, 1, 6, 5, 4, 2, 3, 1, 2, 4, 5, 6, 3, 1, 2, 4, 5, 3, 6, 1, 2, 4, 5, 3, 1, 6, 2, 4, 5, 3, 1, 2, 6, 4, 5, 3, 1, 2, 4, 6, 5, 3, 1, 2, 4, 3, 5, 6, 1, 2, 4, 3, 5, 1]

def optS6c7 : List Nat := [6, 2, 4, 3, 5]

def optR6c7 : List Nat := [1, 2, 4, 5, 6, 3, 1, 2, 4, 5, 3, 6, 1, 2, 4, 5, 3, 1, 6, 2, 4, 5, 3, 1, 2, 6, 4, 5, 3, 1, 2, 4, 6, 5, 3, 1, 2, 4, 3, 5, 6, 1, 2, 4, 3, 5, 1, 6, 2, 4, 3, 5]

def optCcl6c7 : List Bool := [true, false, true, true, true, true, false, true, false, false, false, false, false, true, true, false, false, false, false, true, true, true, false, false, false, true, true, true, true, false, true, false, false, false, true, true, true, true, false, true, true, true, false, false, false, false, false, false, false, false, false, false, false, false, false, false, false, true, true, false, true, false, false, false, true, true, true, true, false, false, true, true, true, true, true, false, true, true, false, false, false, true, false, false, false, false, false, true, true, false, true, false, false, false, false, true, true, true, false, false, false, true, true, true, true, false, false, true, true, true, true, true, false, true, false, false, false, false, true, false, true, false, true, true, true, true, false, false, false, false, false, false, false, false, false, false, false, false, false, true, true, true, false, false, false, true, true, true, true, false, true, false, false, true, true, true, true, true, false, true, true, true, false, false, true, false, false, false, false, false, true, true, false, false, false, false, true, true, true, false, false, false, false, false, false, false, false, false, false, false, false, false, true, true, true, false, true, true, false, false, false, false, false, false, false, false, false, false, false, false, false, false, false, false, false, false, false, false, false, false, false, false, true, true, true, false, false, true, true, true, true, true, false, true, false, false, false, false, false, false, true, false, true, true, true, true, false, false, false, false, false, false, false, false, false, false, false, false, false, false, true, true, false, false, false, true, true, true, true, false, true, false, false, true, true, true, true, true, false, true, true, true, false, false, true, false, false, false, false, false, true, true, false, false, false, false, true, true, true, false, true, false, false, false, true, true, true, true, false, false, true, true, true, true, true, false, true, true, false, false, false, true, false, false, false, false, false, true, true, false, false, false, false, false, false, false, false, false, false, false, false, false, false, true, true, false, false, false, true, true, true, true, false, true, false, false, false, false, false, false, true, false, true, true, true, true, false, true, false, false, false, false, false, true, true, false, false, false, false, true, true, true, false, false, false, true, true, true, true, false, false, false, false, false, false, false, true, true, false, true, true, true, false, false, false, false, false, false, false, false, false, false, false, false, false, false, false, false, false, false, false, false, false, false, false, false, true, true, false, false, true, true, true, true, true, false, true, true, false, false, false, false, false, false, false, false, false, false, false, false, true, false, false, false, false, true, true, true, false, false, false, true, true, true, true, false, false, true, true, true, true, true, false, true, false, false, false, false, true, false, true, false, true, true, true, true, false, true, false, false, false, false, false, true, true, false, false, false, false, true, true, true, false, false, false, true, true, true, true, false, true, false, false, true, true, true, true, true, false, true, true, true, false, false, true, false, false, false, false, false, true, true, false, false, false, false, true, true, true, false, false, false, false, false, false, false, true, true, false, false, false, false, true, true, true, false, true, true, false, false, false, false, false, false, false, false, false, false, false, false, true, false, false, false, false, true, true, true, false, false, false, true, true, true, true, false, false, true, true, true, true, true, false, true, false, false, false, false, true, false, true, false, true, true, true, true, false, false, false, false, false, false, false, false, false, false, false, false, false, false, false, false, false, false, false, true, true, true, true, false, true, false, false, true, true, true, true, true, false, true, true, true, false, false, false, false, false, false, false, false, false, false, false, false, false, false, true, true, true, false, true, false, false, false, true, true, true, true, false, false, true, true, true, true, true, false, true, true, false, false, false, true, false, false, false, false, false, true, true, false, false, false, false, false, false, false, false, false, false, false, false, false, false, false, false, false, false, false, true, true, true, true, false, true, false, false, false, false, false, false]

def optP6c8 : List Nat := [1, 2, 3, 4, 5, 6, 1, 2, 3, 4, 5, 1, 6, 2, 3, 4, 5, 1, 2, 6, 3, 4, 5, 1, 2, 3, 6, 4, 5, 1, 2, 3, 4, 6, 5, 1, 2, 3, 4, 1, 5, 6, 2, 3, 4, 1, 5, 2, 6, 3, 4, 1, 5, 2, 3, 6, 4, 1, 5, 2, 3, 4, 6, 1, 5, 2, 3, 4, 1, 6, 5, 2, 3, 4, 1, 2, 5, 6, 3, 4, 1, 2, 5, 3, 6, 4, 1, 2, 5, 3, 4, 6, 1, 2, 5, 3, 4, 1, 6, 2, 5, 3, 4, 1, 2, 6, 5, 3, 4, 1, 2, 3, 5, 6, 4, 1, 2, 3, 5, 4, 6, 1, 2, 3, 5, 4, 1, 6, 2, 3, 5, 4, 1, 2, 6, 3, 5, 4, 1, 2, 3, 6, 5, 4, 1, 2, 3, 1, 4, 5, 6, 2, 3, 1, 4, 5, 2, 6, 3, 1, 4, 5, 2, 3, 6, 1, 4, 5, 2, 3, 1, 6, 4, 5, 2, 3, 1, 4, 6, 5, 2, 3, 1, 4, 2, 5, 6, 3, 1, 4, 2, 5, 3, 6, 1, 4, 2, 5, 3, 1, 6, 4, 2, 5, 3, 1, 4, 6, 2, 5, 3, 1, 4, 2, 6, 5, 3, 1, 4, 2, 3, 5, 6, 1, 4, 2, 3, 5, 1, 6, 4, 2, 3, 5, 1, 4, 6, 2, 3, 5, 1, 4, 2, 6, 3, 5, 1, 4, 2, 3, 6, 5, 1, 4, 2, 3, 1, 5, 6, 4, 2, 3, 1, 5, 4, 6, 2, 3, 1, 5, 4, 2, 6, 3, 1, 5, 4, 2, 3, 6, 1, 5, 4, 2, 3, 1, 6, 5, 4, 2, 3, 1, 2, 4, 5, 6, 3, 1, 2, 4, 5, 3, 6, 1, 2, 4, 5, 3, 1, 6, 2, 4, 5, 3, 1, 2, 6, 4, 5, 3, 1, 2, 4, 6, 5, 3, 1, 2, 4, 3, 5, 6, 1, 2, 4, 3, 5, 1, 6, 2, 4, 3, 5, 1, 2, 6, 4, 3, 5, 1, 2, 4, 6, 3, 5, 1, 2, 4, 3, 6, 5, 1, 2, 4, 3, 1, 5, 6, 2, 4, 3, 1, 5, 2, 6, 4, 3, 1, 5, 2, 4, 6, 3, 1, 5, 2]

def optS6c8 : List Nat := [4, 3, 6, 1, 5]

def optR6c8 : List Nat := [6, 2, 4, 3, 5, 1, 2, 6, 4, 3, 5, 1, 2, 4, 6, 3, 5, 1, 2, 4, 3, 6, 5, 1, 2, 4, 3, 1, 5, 6, 2, 4, 3, 1, 5, 2, 6, 4, 3, 1, 5, 2, 4, 6, 3, 1, 5, 2, 4, 3, 6, 1, 5]

def optCcl6c8 : List Bool := [true, false, true, true, true, true, false, true, false, false, false, false, false, true, true, false, false, false, false, true, true, true, false, false, false, true, true, true, true, false, true, false, false, true, true, true, true, true, false, true, true, true, false, false, false, false, false, false, false, false, true, true, false, false, false, false, true, true, true, false, true, false, false, false, true, true, true, true, false, false, true, true, true, true, true, false, true, true, false, false, false, true, false, false, false, false, false, true, true, false, true, false, false, false, false, true, true, true, false, false, false, true, true, true, true, false, false, true, true, true, true, true, false, true, false, false, false, false, true, false, true, false, true, true, true, true, false, false, false, false, false, false, false, true, true, false, false, false, false, true, true, true, false, false, false, true, true, true, true, false, true, false, false, true, true, true, true, true, false, true, true, true, false, false, true, false, false, false, false, false, true, true, false, false, false, false, true, true, true, false, false, false, false, false, false, false, true, true, false, false, false, true, true, true, true, false, true, true, false, false, false, false, false, false, false, false, false, false, false, false, false, false, false, false, false, false, true, true, false, false, false, true, true, true, true, false, false, true, true, true, true, true, false, true, false, false, false, false, false, false, true, false, true, true, true, true, false, false, false, false, false, false, false, true, true, false, false, false, false, true, true, true, false, false, false, true, true, true, true, false, true, false, false, true, true, true, true, true, false, true, true, true, false, false, true, false, false, false, false, false, true, true, false, false, false, false, true, true, true, false, true, false, false, false, true, true, true, true, false, false, true, true, true, true, true, false, true, true, false, false, false, true, false, false, false, false, false, true, true, false, false, false, false, false, false, false, true, true, false, false, false, true, true, true, true, false, false, true, true, true, true, true, false, true, false, false, false, false, false, false, true, false, true, true, true, true, false, true, false, false, false, false, false, true, true, false, false, false, false, true, true, true, false, false, false, true, true, true, true, false, true, false, false, false, true, true, true, true, false, true, true, true, false, false, false, false, false, false, false, false, false, false, false, false, false, false, false, false, true, false, true, false, false, false, true, true, true, true, false, false, true, true, true, true, true, false, true, true, false, false, false, false, false, false, false, false, false, true, true, false, true, false, false, false, false, true, true, true, false, false, false, true, true, true, true, false, false, true, true, true, true, true, false, true, false, false, false, false, true, false, true, false, true, true, true, true, false, true, false, false, false, false, false, true, true, false, false, false, false, true, true, true, false, false, false, true, true, true, true, false, true, false, false, true, true, true, true, true, false, true, true, true, false, false, true, false, false, false, false, false, true, true, false, false, false, false, true, true, true, false, true, false, false, false, true, true, true, true, false, false, true, true, true, true, true, false, true, true, false, false, false, false, false, false, false, false, false, true, true, false, true, false, false, false, false, true, true, true, false, false, false, true, true, true, true, false, false, true, true, true, true, true, false, true, false, false, false, false, true, false, true, false, true, true, true, true, false, false, false, false, false, false, false, false, false, false, false, false, false, false, false, true, false, false, false, true, true, true, true, false, true, false, false, true, true, true, true, true, false, true, true, true, false, false, false, false, false, false, false, false, true, true, false, false, false, false, true, true, true, false, true, false, false, false, true, true, true, true, false, false, true, true, true, true, true, false, true, true, false, false, false, true, false, false, false, false, false, true, true, false, false, false, false, false, false, false, false, false, false, false, false, false, false, false, true, false, false, false, true, true, true, true, false, true, false, false, false, false, false, false]

def optP6c9 : List Nat := [1, 2, 3, 4, 5, 6, 1, 2, 3, 4, 5, 1, 6, 2, 3, 4, 5, 1, 2, 6, 3, 4, 5, 1, 2, 3, 6, 4, 5, 1, 2, 3, 4, 6, 5, 1, 2, 3, 4, 1, 5, 6, 2, 3, 4, 1, 5, 2, 6, 3, 4, 1, 5, 2, 3, 6, 4, 1, 5, 2, 3, 4, 6, 1, 5, 2, 3, 4, 1, 6, 5, 2, 3, 4, 1, 2, 5, 6, 3, 4, 1, 2, 5, 3, 6, 4, 1, 2, 5, 3, 4, 6, 1, 2, 5, 3, 4, 1, 6, 2, 5, 3, 4, 1, 2, 6, 5, 3, 4, 1, 2, 3, 5, 6, 4, 1, 2, 3, 5, 4, 6, 1, 2, 3, 5, 4, 1, 6, 2, 3, 5, 4, 1, 2, 6, 3, 5, 4, 1, 2, 3, 6, 5, 4, 1, 2, 3, 1, 4, 5, 6, 2, 3, 1, 4, 5, 2, 6, 3, 1, 4, 5, 2, 3, 6, 1, 4, 5, 2, 3, 1, 6, 4, 5, 2, 3, 1, 4, 6, 5, 2, 3, 1, 4, 2, 5, 6, 3, 1, 4, 2, 5, 3, 6, 1, 4, 2, 5, 3, 1, 6, 4, 2, 5, 3, 1, 4, 6, 2, 5, 3, 1, 4, 2, 6, 5, 3, 1, 4, 2, 3, 5, 6, 1, 4, 2, 3, 5, 1, 6, 4, 2, 3, 5, 1, 4, 6, 2, 3, 5, 1, 4, 2, 6, 3, 5, 1, 4, 2, 3, 6, 5, 1, 4, 2, 3, 1, 5, 6, 4, 2, 3, 1, 5, 4, 6, 2, 3, 1, 5, 4, 2, 6, 3, 1, 5, 4, 2, 3, 6, 1, 5, 4, 2, 3, 1, 6, 5, 4, 2, 3, 1, 2, 4, 5, 6, 3, 1, 2, 4, 5, 3, 6, 1, 2, 4, 5, 3, 1, 6, 2, 4, 5, 3, 1, 2, 6, 4, 5, 3, 1, 2, 4, 6, 5, 3, 1, 2, 4, 3, 5, 6, 1, 2, 4, 3, 5, 1, 6, 2, 4, 3, 5, 1, 2, 6, 4, 3, 5, 1, 2, 4, 6, 3, 5, 1, 2, 4, 3, 6, 5, 1, 2, 4, 3, 1, 5, 6, 2, 4, 3, 1, 5, 2, 6, 4, 3, 1, 5, 2, 4, 6, 3, 1, 5, 2, 4, 3, 6, 1, 5, 2, 4, 3, 1, 6, 5, 2, 4, 3, 1, 2, 5, 6, 4, 3, 1, 2, 5, 4, 6, 3, 1, 2, 5, 4, 3, 6, 1, 2, 5, 4, 3, 1, 6, 2, 5, 4, 3, 1, 2, 6, 5, 4, 3, 1, 2]

def optS6c9 : List Nat := [1, 3, 4, 5, 6]

def optR6c9 : List Nat := [4, 3, 6, 1, 5, 2, 4, 3, 1, 6, 5, 2, 4, 3, 1, 2, 5, 6, 4, 3, 1, 2, 5, 4, 6, 3, 1, 2, 5, 4, 3, 6, 1, 2, 5, 4, 3, 1, 6, 2, 5, 4, 3, 1, 2, 6, 5, 4, 3, 1, 2, 1, 3, 4, 5, 6]

def optCcl6c9 : List Bool := [true, true, true, true, true, true, false, true, false, false, false, false, false, true, true, false, false, false, false, true, true, true, false, false, false, true, true, true, true, false, true, false, false, true, true, true, true, true, false, true, true, true, false, false, true, false, false, false, false, false, true, true, false, false, false, false, true, true, true, false, true, false, false, false, true, true, true, true, false, false, true, true, true, true, true, false, true, true, false, false, false, true, false, false, false, false, false, true, true, false, true, false, false, false, false, true, true, true, false, false, false, true, true, true, true, false, false, true, true, true, true, true, false, true, false, false, false, false, true, false, true, false, true, true, true, true, false, true, false, false, false, false, false, true, true, false, false, false, false, true, true, true, false, false, false, true, true, true, true, false, true, false, false, true, true, true, true, true, false, true, true, true, false, false, true, false, false, false, false, false, true, true, false, false, false, false, true, true, true, false, true, false, false, false, true, true, true, true, false, false, true, true, true, true, true, false, true, true, false, false, false, true, false, false, false, false, false, true, true, false, true, false, false, false, false, true, true, true, false, false, false, true, true, true, true, false, false, true, true, true, true, true, false, true, false, false, false, false, true, false, true, false, true, true, true, true, false, true, false, false, false, false, false, true, true, false, false, false, false, true, true, true, false, false, false, true, true, true, true, false, true, false, false, true, true, true, true, true, false, true, true, true, false, false, true, false, false, false, false, false, true, true, false, false, false, false, true, true, true, false, true, false, false, false, true, true, true, true, false, false, true, true, true, true, true, false, true, true, false, false, false, true, false, false, false, false, false, true, true, false, true, false, false, false, false, true, true, true, false, false, false, true, true, true, true, false, false, true, true, true, true, true, false, true, false, false, false, false, true, false, true, false, true, true, true, true, false, true, false, false, false, false, false, true, true, false, false, false, false, true, true, true, false, false, false, true, true, true, true, false, true, false, false, true, true, true, true, true, false, true, true, true, false, false, true, false, false, false, false, false, true, true, false, false, false, false, true, true, true, false, true, false, false, false, true, true, true, true, false, false, true, true, true, true, true, false, true, true, false, false, false, true, false, false, false, false, false, true, true, false, true, false, false, false, false, true, true, true, false, false, false, true, true, true, true, false, false, true, true, true, true, true, false, true, false, false, false, false, true, false, true, false, true, true, true, true, false, true, false, false, false, false, false, true, true, false, false, false, false, true, true, true, false, false, false, true, true, true, true, false, true, false, false, true, true, true, true, true, false, true, true, true, false, false, true, false, false, false, false, false, true, true, false, false, false, false, true, true, true, false, true, false, false, false, true, true, true, true, false, false, true, true, true, true, true, false, true, true, false, false, false, true, false, false, false, false, false, true, true, false, true, false, false, false, false, true, true, true, false, false, false, true, true, true, true, false, false, true, true, true, true, true, false, true, false, false, false, false, true, false, true, false, true, true, true, true, false, true, false, false, false, false, false, true, true, false, false, false, false, true, true, true, false, false, false, true, true, true, true, false, true, false, false, true, true, true, true, true, false, true, true, true, false, false, true, false, false, false, false, false, true, true, false, false, false, false, true, true, true, false, true, false, false, false, true, true, true, true, false, false, true, true, true, true, true, false, true, true, false, false, false, true, false, false, false, false, false, true, true, false, true, false, false, false, false, true, true, true, false, false, false, true, true, true, true, false, false, true, true, true, true, true, false, true, false, false, false, false, true, false]

def optP6c10 : List Nat := [1, 2, 3, 4, 5, 6, 1, 2, 3, 4, 5, 1, 6, 2, 3, 4, 5, 1, 2, 6, 3, 4, 5, 1, 2, 3, 6, 4, 5, 1, 2, 3, 4, 6, 5, 1, 2, 3, 4, 1, 5, 6, 2, 3, 4, 1, 5, 2, 6, 3, 4, 1, 5, 2, 3, 6, 4, 1, 5, 2, 3, 4, 6, 1, 5, 2, 3, 4, 1, 6, 5, 2, 3, 4, 1, 2, 5, 6, 3, 4, 1, 2, 5, 3, 6, 4, 1, 2, 5, 3, 4, 6, 1, 2, 5, 3, 4, 1, 6, 2, 5, 3, 4, 1, 2, 6, 5, 3, 4, 1, 2, 3, 5, 6, 4, 1, 2, 3, 5, 4, 6, 1, 2, 3, 5, 4, 1, 6, 2, 3, 5, 4, 1, 2, 6, 3, 5, 4, 1, 2, 3, 6, 5, 4, 1, 2, 3, 1, 4, 5, 6, 2, 3, 1, 4, 5, 2, 6, 3, 1, 4, 5, 2, 3, 6, 1, 4, 5, 2, 3, 1, 6, 4, 5, 2, 3, 1, 4, 6, 5, 2, 3, 1, 4, 2, 5, 6, 3, 1, 4, 2, 5, 3, 6, 1, 4, 2, 5, 3, 1, 6, 4, 2, 5, 3, 1, 4, 6, 2, 5, 3, 1, 4, 2, 6, 5, 3, 1, 4, 2, 3, 5, 6, 1, 4, 2, 3, 5, 1, 6, 4, 2, 3, 5, 1, 4, 6, 2, 3, 5, 1, 4, 2, 6, 3, 5, 1, 4, 2, 3, 6, 5, 1, 4, 2, 3, 1, 5, 6, 4, 2, 3, 1, 5, 4, 6, 2, 3, 1, 5, 4, 2, 6, 3, 1, 5, 4, 2, 3, 6, 1, 5, 4, 2, 3, 1, 6, 5, 4, 2, 3, 1, 2, 4, 5, 6, 3, 1, 2, 4, 5, 3, 6, 1, 2, 4, 5, 3, 1, 6, 2, 4, 5, 3, 1, 2, 6, 4, 5, 3, 1, 2, 4, 6, 5, 3, 1, 2, 4, 3, 5, 6, 1, 2, 4, 3, 5, 1, 6, 2, 4, 3, 5, 1, 2, 6, 4, 3, 5, 1, 2, 4, 6, 3, 5, 1, 2, 4, 3, 6, 5, 1, 2, 4, 3, 1, 5, 6, 2, 4, 3, 1, 5, 2, 6, 4, 3, 1, 5, 2, 4, 6, 3, 1, 5, 2, 4, 3, 6, 1, 5, 2, 4, 3, 1, 6, 5, 2, 4, 3, 1, 2, 5, 6, 4, 3, 1, 2, 5, 4, 6, 3, 1, 2, 5, 4, 3, 6, 1, 2, 5, 4, 3, 1, 6, 2, 5, 4, 3, 1, 2, 6, 5, 4, 3, 1, 2, 1, 3, 4, 5, 6, 2, 1, 3, 4, 5, 2, 6, 1, 3, 4, 5, 2, 1, 6, 3, 4, 5, 2, 1, 3, 6, 4, 5, 2, 1, 3, 4, 6, 5, 2, 1, 3, 4, 2, 5, 6, 1, 3, 4, 2, 5, 1]

def optS6c10 : List Nat := [6, 3, 4, 2, 5]

def optR6c10 : List Nat := [1, 3, 4, 5, 6, 2, 1, 3, 4, 5, 2, 6, 1, 3, 4, 5, 2, 1, 6, 3, 4, 5, 2, 1, 3, 6, 4, 5, 2, 1, 3, 4, 6, 5, 2, 1, 3, 4, 2, 5, 6, 1, 3, 4, 2, 5, 1, 6, 3, 4, 2, 5]

def optCcl6c10 : List Bool := [true, true, true, true, true, true, false, true, false, false, false, false, true, true, true, false, true, true, true, true, true, true, true, true, true, true, true, true, true, true, true, false, false, true, true, true, true, true, false, true, true, true, false, false, true, false, false, false, false, false, true, true, false, false, false, false, true, true, true, false, true, false, false, false, true, true, true, true, false, false, true, true, true, true, true, true, true, true, false, false, false, true, false, false, false, false, false, true, true, false, true, false, false, false, false, true, true, true, false, true, true, true, true, true, true, true, true, true, true, true, true, true, true, true, false, false, false, false, true, false, true, false, true, true, true, true, false, true, false, false, false, false, false, true, true, false, false, false, false, true, true, true, false, false, false, true, true, true, true, false, true, false, false, true, true, true, true, true, true, true, true, true, false, false, true, false, false, false, false, false, true, true, false, false, false, false, true, true, true, false, true, false, false, false, true, true, true, true, false, false, true, true, true, true, true, false, true, true, false, false, false, true, false, false, false, false, false, true, true, false, true, false, false, false, false, true, true, true, false, false, false, true, true, true, true, false, false, true, true, true, true, true, false, true, false, false, false, false, true, false, true, false, true, true, true, true, false, true, false, false, false, false, false, true, true, false, false, false, false, true, true, true, false, false, false, true, true, true, true, false, true, false, false, true, true, true, true, true, true, true, true, true, false, false, true, false, false, false, false, false, true, true, false, false, false, false, true, true, true, false, true, false, true, true, true, true, true, true, true, true, true, true, true, true, true, true, true, true, false, false, false, true, false, false, false, true, true, true, true, false, true, false, false, false, false, true, true, true, false, false, false, true, true, true, true, false, false, true, true, true, true, true, false, true, false, false, false, false, true, false, true, true, true, true, true, true, false, true, false, false, false, false, false, true, true, false, false, false, false, true, true, true, false, false, true, true, true, true, true, true, true, false, false, true, true, true, true, true, false, true, true, true, false, false, true, false, false, false, false, false, true, true, false, false, false, false, true, true, true, false, true, false, false, false, true, true, true, true, false, false, true, true, true, true, true, false, true, true, false, false, false, true, false, false, false, false, false, true, true, false, true, false, false, false, false, true, true, true, false, false, false, true, true, true, true, false, false, true, true, true, true, true, true, true, false, false, false, false, true, false, true, true, true, true, true, true, false, true, false, false, false, false, false, true, true, false, false, false, false, true, true, true, false, false, true, true, true, true, true, true, true, true, true, true, true, true, true, true, true, true, true, true, false, false, true, false, false, false, true, true, true, true, false, false, true, true, true, true, true, true, true, false, false, false, true, true, true, true, false, false, true, true, true, true, true, false, true, true, false, false, false, true, false, false, false, false, false, true, true, false, true, false, false, false, false, true, true, true, false, false, false, true, true, true, true, false, false, true, true, true, true, true, true, true, false, false, false, false, true, false, true, false, true, true, true, true, false, true, false, false, false, false, false, true, true, false, false, false, false, true, true, true, false, false, false, true, true, true, true, false, true, false, false, true, true, true, true, true, false, true, true, true, false, false, true, false, false, false, false, false, true, true, false, false, false, false, true, true, true, false, true, false, false, false, true, true, true, true, false, false, true, true, true, true, true, true, true, true, false, false, false, true, false, false, false, false, false, true, true, false, true, false, false, false, false, true, true, true, false, false, false, true, true, true, true, false, false, true, true, true, true, true, false, true, false, false, false, false, true, false]

def optP6c11 : List Nat := [1, 2, 3, 4, 5, 6, 1, 2, 3, 4, 5, 1, 6, 2, 3, 4, 5, 1, 2, 6, 3, 4, 5, 1, 2, 3, 6, 4, 5, 1, 2, 3, 4, 6, 5, 1, 2, 3, 4, 1, 5, 6, 2, 3, 4, 1, 5, 2, 6, 3, 4, 1, 5, 2, 3, 6, 4, 1, 5, 2, 3, 4, 6, 1, 5, 2, 3, 4, 1, 6, 5, 2, 3, 4, 1, 2, 5, 6, 3, 4, 1, 2, 5, 3, 6, 4, 1, 2, 5, 3, 4, 6, 1, 2, 5, 3, 4, 1, 6, 2, 5, 3, 4, 1, 2, 6, 5, 3, 4, 1, 2, 3, 5, 6, 4, 1, 2, 3, 5, 4, 6, 1, 2, 3, 5, 4, 1, 6, 2, 3, 5, 4, 1, 2, 6, 3, 5, 4, 1, 2, 3, 6, 5, 4, 1, 2, 3, 1, 4, 5, 6, 2, 3, 1, 4, 5, 2, 6, 3, 1, 4, 5, 2, 3, 6, 1, 4, 5, 2, 3, 1, 6, 4, 5, 2, 3, 1, 4, 6, 5, 2, 3, 1, 4, 2, 5, 6, 3, 1, 4, 2, 5, 3, 6, 1, 4, 2, 5, 3, 1, 6, 4, 2, 5, 3, 1, 4, 6, 2, 5, 3, 1, 4, 2, 6, 5, 3, 1, 4, 2, 3, 5, 6, 1, 4, 2, 3, 5, 1, 6, 4, 2, 3, 5, 1, 4, 6, 2, 3, 5, 1, 4, 2, 6, 3, 5, 1, 4, 2, 3, 6, 5, 1, 4, 2, 3, 1, 5, 6, 4, 2, 3, 1, 5, 4, 6, 2, 3, 1, 5, 4, 2, 6, 3, 1, 5, 4, 2, 3, 6, 1, 5, 4, 2, 3, 1, 6, 5, 4, 2, 3, 1, 2, 4, 5, 6, 3, 1, 2, 4, 5, 3, 6, 1, 2, 4, 5, 3, 1, 6, 2, 4, 5, 3, 1, 2, 6, 4, 5, 3, 1, 2, 4, 6, 5, 3, 1, 2, 4, 3, 5, 6, 1, 2, 4, 3, 5, 1, 6, 2, 4, 3, 5, 1, 2, 6, 4, 3, 5, 1, 2, 4, 6, 3, 5, 1, 2, 4, 3, 6, 5, 1, 2, 4, 3, 1, 5, 6, 2, 4, 3, 1, 5, 2, 6, 4, 3, 1, 5, 2, 4, 6, 3, 1, 5, 2, 4, 3, 6, 1, 5, 2, 4, 3, 1, 6, 5, 2, 4, 3, 1, 2, 5, 6, 4, 3, 1, 2, 5, 4, 6, 3, 1, 2, 5, 4, 3, 6, 1, 2, 5, 4, 3, 1, 6, 2, 5, 4, 3, 1, 2, 6, 5, 4, 3, 1, 2, 1, 3, 4, 5, 6, 2, 1, 3, 4, 5, 2, 6, 1, 3, 4, 5, 2, 1, 6, 3, 4, 5, 2, 1, 3, 6, 4, 5, 2, 1, 3, 4, 6, 5, 2, 1, 3, 4, 2, 5, 6, 1, 3, 4, 2, 5, 1, 6, 3, 4, 2, 5, 1, 3, 6, 4, 2, 5, 1, 3, 4, 6, 2, 5, 1, 3, 4, 2, 6, 5, 1, 3, 4, 2, 1, 5, 6, 3, 4, 2, 1, 5, 3, 6, 4, 2, 1, 5, 3, 4, 6, 2, 1, 5, 3]

def optS6c11 : List Nat := [4, 2, 6, 1, 5]

def optR6c11 : List Nat := [6, 3, 4, 2, 5, 1, 3, 6, 4, 2, 5, 1, 3, 4, 6, 2, 5, 1, 3, 4, 2, 6, 5, 1, 3, 4, 2, 1, 5, 6, 3, 4, 2, 1, 5, 3, 6, 4, 2, 1, 5, 3, 4, 6, 2, 1, 5, 3, 4, 2, 6, 1, 5]

def optCcl6c11 : List Bool := [true, true, true, true, true, true, false, true, false, false, false, false, true, true, true, true, true, true, true, true, true, true, true, true, true, true, true, true, true, true, true, false, false, true, true, true, true, true, false, true, true, true, false, false, true, false, false, false, false, false, true, true, false, false, false, false, true, true, true, false, true, false, false, false, true, true, true, true, true, true, true, true, true, true, true, true, true, true, false, false, false, true, false, false, false, false, false, true, true, false, true, false, false, false, false, true, true, true, true, true, true, true, true, true, true, true, true, true, true, true, true, true, true, true, false, false, false, false, true, false, true, false, true, true, true, true, false, true, false, false, false, false, false, true, true, false, false, false, false, true, true, true, false, false, false, true, true, true, true, false, true, true, true, true, true, true, true, true, true, true, true, true, false, false, true, false, false, false, true, true, true, true, false, true, true, true, true, true, true, true, true, false, false, false, true, true, true, true, false, false, true, true, true, true, true, false, true, true, false, false, false, true, false, false, false, false, false, true, true, false, true, false, false, false, false, true, true, true, false, false, false, true, true, true, true, false, false, true, true, true, true, true, false, true, false, false, false, false, true, false, true, false, true, true, true, true, false, true, false, false, false, false, false, true, true, false, false, false, false, true, true, true, false, false, false, true, true, true, true, false, true, true, true, true, true, true, true, true, true, true, true, true, false, false, true, false, false, false, false, false, true, true, false, false, true, true, true, true, true, true, true, true, true, true, true, true, true, true, true, true, true, true, true, true, true, true, true, true, false, false, false, true, false, false, true, true, true, true, true, true, true, false, false, false, false, true, true, true, false, false, false, true, true, true, true, false, false, true, true, true, true, true, false, true, false, false, false, false, true, false, true, true, true, true, true, true, false, true, false, false, false, false, true, true, true, false, true, true, true, true, true, true, true, true, true, true, true, true, true, true, true, false, false, true, true, true, true, true, false, true, true, true, false, false, true, false, false, false, false, false, true, true, false, false, false, false, true, true, true, false, true, false, false, false, true, true, true, true, false, false, true, true, true, true, true, false, true, true, false, false, false, true, false, false, false, false, false, true, true, false, true, false, false, false, false, true, true, true, false, false, true, true, true, true, true, true, true, true, true, true, true, true, true, true, false, false, false, false, true, false, true, true, true, true, true, true, false, true, false, false, false, false, false, true, true, false, false, false, true, true, true, true, true, true, true, true, true, true, true, true, true, true, true, true, true, true, true, true, true, true, true, true, false, false, true, false, false, false, true, true, true, true, true, true, true, true, true, true, true, true, true, false, false, false, true, true, true, true, false, false, true, true, true, true, true, false, true, true, false, false, false, true, false, false, false, false, false, true, true, false, true, false, false, false, false, true, true, true, false, false, false, true, true, true, true, true, true, true, true, true, true, true, true, true, false, false, false, false, true, false, true, false, true, true, true, true, false, true, false, false, false, false, false, true, true, false, false, false, false, true, true, true, false, false, false, true, true, true, true, false, true, false, false, true, true, true, true, true, false, true, true, true, false, false, true, false, false, false, false, false, true, true, false, false, false, false, true, true, true, false, true, false, false, true, true, true, true, true, true, true, true, true, true, true, true, true, true, true, false, false, false, true, false, false, false, false, true, true, true, false, true, false, false, false, false, true, true, true, false, false, false, true, true, true, true, false, false, true, true, true, true, true, false, true, false, false, false, false, true, false]

def optP6c12 : List Nat := [1, 2, 3, 4, 5, 6, 1, 2, 3, 4, 5, 1, 6, 2, 3, 4, 5, 1, 2, 6, 3, 4, 5, 1, 2, 3, 6, 4, 5, 1, 2, 3, 4, 6, 5, 1, 2, 3, 4, 1, 5, 6, 2, 3, 4, 1, 5, 2, 6, 3, 4, 1, 5, 2, 3, 6, 4, 1, 5, 2, 3, 4, 6, 1, 5, 2, 3, 4, 1, 6, 5, 2, 3, 4, 1, 2, 5, 6, 3, 4, 1, 2, 5, 3, 6, 4, 1, 2, 5, 3, 4, 6, 1, 2, 5, 3, 4, 1, 6, 2, 5, 3, 4, 1, 2, 6, 5, 3, 4, 1, 2, 3, 5, 6, 4, 1, 2, 3, 5, 4, 6, 1, 2, 3, 5, 4, 1, 6, 2, 3, 5, 4, 1, 2, 6, 3, 5, 4, 1, 2, 3, 6, 5, 4, 1, 2, 3, 1, 4, 5, 6, 2, 3, 1, 4, 5, 2, 6, 3, 1, 4, 5, 2, 3, 6, 1, 4, 5, 2, 3, 1, 6, 4, 5, 2, 3, 1, 4, 6, 5, 2, 3, 1, 4, 2, 5, 6, 3, 1, 4, 2, 5, 3, 6, 1, 4, 2, 5, 3, 1, 6, 4, 2, 5, 3, 1, 4, 6, 2, 5, 3, 1, 4, 2, 6, 5, 3, 1, 4, 2, 3, 5, 6, 1, 4, 2, 3, 5, 1, 6, 4, 2, 3, 5, 1, 4, 6, 2, 3, 5, 1, 4, 2, 6, 3, 5, 1, 4, 2, 3, 6, 5, 1, 4, 2, 3, 1, 5, 6, 4, 2, 3, 1, 5, 4, 6, 2, 3, 1, 5, 4, 2, 6, 3, 1, 5, 4, 2, 3, 6, 1, 5, 4, 2, 3, 1, 6, 5, 4, 2, 3, 1, 2, 4, 5, 6, 3, 1, 2, 4, 5, 3, 6, 1, 2, 4, 5, 3, 1, 6, 2, 4, 5, 3, 1, 2, 6, 4, 5, 3, 1, 2, 4, 6, 5, 3, 1, 2, 4, 3, 5, 6, 1, 2, 4, 3, 5, 1, 6, 2, 4, 3, 5, 1, 2, 6, 4, 3, 5, 1, 2, 4, 6, 3, 5, 1, 2, 4, 3, 6, 5, 1, 2, 4, 3, 1, 5, 6, 2, 4, 3, 1, 5, 2, 6, 4, 3, 1, 5, 2, 4, 6, 3, 1, 5, 2, 4, 3, 6, 1, 5, 2, 4, 3, 1, 6, 5, 2, 4, 3, 1, 2, 5, 6, 4, 3, 1, 2, 5, 4, 6, 3, 1, 2, 5, 4, 3, 6, 1, 2, 5, 4, 3, 1, 6, 2, 5, 4, 3, 1, 2, 6, 5, 4, 3, 1, 2, 1, 3, 4, 5, 6, 2, 1, 3, 4, 5, 2, 6, 1, 3, 4, 5, 2, 1, 6, 3, 4, 5, 2, 1, 3, 6, 4, 5, 2, 1, 3, 4, 6, 5, 2, 1, 3, 4, 2, 5, 6, 1, 3, 4, 2, 5, 1, 6, 3, 4, 2, 5, 1, 3, 6, 4, 2, 5, 1, 3, 4, 6, 2, 5, 1, 3, 4, 2, 6, 5, 1, 3, 4, 2, 1, 5, 6, 3, 4, 2, 1, 5, 3, 6, 4, 2, 1, 5, 3, 4, 6, 2, 1, 5, 3, 4, 2, 6, 1, 5, 3, 4, 2, 1, 6, 5, 3, 4, 2, 1, 3, 5, 6, 4, 2, 1, 3, 5, 4, 6, 2, 1, 3, 5, 4, 2, 6, 1, 3, 5, 4, 2, 1, 6, 3, 5, 4, 2, 1, 3, 6, 5, 4, 2, 1]

def optS6c12 : List Nat := [3, 2, 4, 5, 6]

def optR6c12 : List Nat := [4, 2, 6, 1, 5, 3, 4, 2, 1, 6, 5, 3, 4, 2, 1, 3, 5, 6, 4, 2, 1, 3, 5, 4, 6, 2, 1, 3, 5, 4, 2, 6, 1, 3, 5, 4, 2, 1, 6, 3, 5, 4, 2, 1, 3, 6, 5, 4, 2, 1, 3, 2, 4, 5, 6]

def optCcl6c12 : List Bool := [true, true, true, true, true, true, true, true, false, false, false, false, true, true, true, true, true, true, true, true, true, true, true, true, true, true, true, true, true, true, true, false, false, true, true, true, true, true, true, true, true, true, false, false, true, false, false, false, false, false, true, true, false, false, false, false, true, true, true, false, true, false, false, false, true, true, true, true, true, true, true, true, true, true, true, true, true, true, false, false, false, true, false, false, false, false, false, true, true, false, true, false, false, false, false, true, true, true, true, true, true, true, true, true, true, true, true, true, true, true, true, true, true, true, false, false, false, false, true, false, true, true, true, true, true, true, false, true, false, false, false, false, false, true, true, false, false, false, true, true, true, true, true, true, true, true, true, true, true, true, true, true, true, true, true, true, true, true, true, true, true, true, false, false, true, false, false, false, true, true, true, true, true, true, true, true, true, true, true, true, true, false, false, false, true, true, true, true, false, false, true, true, true, true, true, true, true, true, false, false, false, true, false, false, false, false, false, true, true, false, true, false, false, false, false, true, true, true, false, false, false, true, true, true, true, true, true, true, true, true, true, true, true, true, false, false, false, false, true, false, true, true, true, true, true, true, false, true, false, false, false, false, false, true, true, false, false, false, false, true, true, true, false, false, true, true, true, true, true, true, true, true, true, true, true, true, true, true, true, true, true, true, false, false, true, false, false, false, false, false, true, true, false, false, true, true, true, true, true, true, true, true, true, true, true, true, true, true, true, true, true, true, true, true, true, true, true, true, false, false, false, true, false, false, true, true, true, true, true, true, true, false, false, false, false, true, true, true, false, false, false, true, true, true, true, false, false, true, true, true, true, true, true, true, false, false, false, false, true, false, true, true, true, true, true, true, false, true, false, false, false, false, true, true, true, true, true, true, true, true, true, true, true, true, true, true, true, true, true, true, true, false, false, true, true, true, true, true, true, true, true, true, false, false, true, false, false, false, false, false, true, true, false, false, false, false, true, true, true, false, true, false, false, false, true, true, true, true, true, true, true, true, true, true, true, true, true, true, false, false, false, true, false, false, false, false, false, true, true, false, true, false, false, false, false, true, true, true, true, true, true, true, true, true, true, true, true, true, true, true, true, true, true, true, false, false, false, false, true, false, true, true, true, true, true, true, false, true, false, false, false, false, false, true, true, false, false, false, true, true, true, true, true, true, true, true, true, true, true, true, true, true, true, true, true, true, true, true, true, true, true, true, false, false, true, false, false, false, true, true, true, true, true, true, true, true, true, true, true, true, true, false, false, false, true, true, true, true, false, false, true, true, true, true, true, true, true, true, false, false, false, true, false, false, false, false, false, true, true, false, true, false, false, false, false, true, true, true, false, false, false, true, true, true, true, true, true, true, true, true, true, true, true, true, false, false, false, false, true, false, true, true, true, true, true, true, false, true, false, false, false, false, false, true, true, false, false, false, false, true, true, true, false, false, true, true, true, true, true, true, true, true, true, true, true, true, true, true, true, true, true, true, false, false, true, false, false, false, false, false, true, true, false, false, true, true, true, true, true, true, true, true, true, true, true, true, true, true, true, true, true, true, true, true, true, true, true, true, false, false, false, true, false, false, true, true, true, true, true, true, true, false, false, false, false, true, true, true, false, false, false, true, true, true, true, false, false, true, true, true, true, true, true, true, false, false, false, false, true, false]

def optP6c13 : List Nat := [1, 2, 3, 4, 5, 6, 1, 2, 3, 4, 5, 1, 6, 2, 3, 4, 5, 1, 2, 6, 3, 4, 5, 1, 2, 3, 6, 4, 5, 1, 2, 3, 4, 6, 5, 1, 2, 3, 4, 1, 5, 6, 2, 3, 4, 1, 5, 2, 6, 3, 4, 1, 5, 2, 3, 6, 4, 1, 5, 2, 3, 4, 6, 1, 5, 2, 3, 4, 1, 6, 5, 2, 3, 4, 1, 2, 5, 6, 3, 4, 1, 2, 5, 3, 6, 4, 1, 2, 5, 3, 4, 6, 1, 2, 5, 3, 4, 1, 6, 2, 5, 3, 4, 1, 2, 6, 5, 3, 4, 1, 2, 3, 5, 6, 4, 1, 2, 3, 5, 4, 6, 1, 2, 3, 5, 4, 1, 6, 2, 3, 5, 4, 1, 2, 6, 3, 5, 4, 1, 2, 3, 6, 5, 4, 1, 2, 3, 1, 4, 5, 6, 2, 3, 1, 4, 5, 2, 6, 3, 1, 4, 5, 2, 3, 6, 1, 4, 5, 2, 3, 1, 6, 4, 5, 2, 3, 1, 4, 6, 5, 2, 3, 1, 4, 2, 5, 6, 3, 1, 4, 2, 5, 3, 6, 1, 4, 2, 5, 3, 1, 6, 4, 2, 5, 3, 1, 4, 6, 2, 5, 3, 1, 4, 2, 6, 5, 3, 1, 4, 2, 3, 5, 6, 1, 4, 2, 3, 5, 1, 6, 4, 2, 3, 5, 1, 4, 6, 2, 3, 5, 1, 4, 2, 6, 3, 5, 1, 4, 2, 3, 6, 5, 1, 4, 2, 3, 1, 5, 6, 4, 2, 3, 1, 5, 4, 6, 2, 3, 1, 5, 4, 2, 6, 3, 1, 5, 4, 2, 3, 6, 1, 5, 4, 2, 3, 1, 6, 5, 4, 2, 3, 1, 2, 4, 5, 6, 3, 1, 2, 4, 5, 3, 6, 1, 2, 4, 5, 3, 1, 6, 2, 4, 5, 3, 1, 2, 6, 4, 5, 3, 1, 2, 4, 6, 5, 3, 1, 2, 4, 3, 5, 6, 1, 2, 4, 3, 5, 1, 6, 2, 4, 3, 5, 1, 2, 6, 4, 3, 5, 1, 2, 4, 6, 3, 5, 1, 2, 4, 3, 6, 5, 1, 2, 4, 3, 1, 5, 6, 2, 4, 3, 1, 5, 2, 6, 4, 3, 1, 5, 2, 4, 6, 3, 1, 5, 2, 4, 3, 6, 1, 5, 2, 4, 3, 1, 6, 5, 2, 4, 3, 1, 2, 5, 6, 4, 3, 1, 2, 5, 4, 6, 3, 1, 2, 5, 4, 3, 6, 1, 2, 5, 4, 3, 1, 6, 2, 5, 4, 3, 1, 2, 6, 5, 4, 3, 1, 2, 1, 3, 4, 5, 6, 2, 1, 3, 4, 5, 2, 6, 1, 3, 4, 5, 2, 1, 6, 3, 4, 5, 2, 1, 3, 6, 4, 5, 2, 1, 3, 4, 6, 5, 2, 1, 3, 4, 2, 5, 6, 1, 3, 4, 2, 5, 1, 6, 3, 4, 2, 5, 1, 3, 6, 4, 2, 5, 1, 3, 4, 6, 2, 5, 1, 3, 4, 2, 6, 5, 1, 3, 4, 2, 1, 5, 6, 3, 4, 2, 1, 5, 3, 6, 4, 2, 1, 5, 3, 4, 6, 2, 1, 5, 3, 4, 2, 6, 1, 5, 3, 4, 2, 1, 6, 5, 3, 4, 2, 1, 3, 5, 6, 4, 2, 1, 3, 5, 4, 6, 2, 1, 3, 5, 4, 2, 6, 1, 3, 5, 4, 2, 1, 6, 3, 5, 4, 2, 1, 3, 6, 5, 4, 2, 1, 3, 2, 4, 5, 6, 1, 3, 2, 4, 5, 1, 6, 3, 2, 4, 5, 1, 3, 6, 2, 4, 5, 1, 3, 2, 6, 4, 5, 1, 3, 2, 4, 6, 5, 1, 3, 2, 4, 1, 5, 6, 3, 2, 4, 1, 5, 3]

def optS6c13 : List Nat := [6, 2, 4, 1, 5]

def optR6c13 : List Nat := [3, 2, 4, 5, 6, 1, 3, 2, 4, 5, 1, 6, 3, 2, 4, 5, 1, 3, 6, 2, 4, 5, 1, 3, 2, 6, 4, 5, 1, 3, 2, 4, 6, 5, 1, 3, 2, 4, 1, 5, 6, 3, 2, 4, 1, 5, 3, 6, 2, 4, 1, 5]

def optCcl6c13 : List Bool := [true, true, true, true, true, true, true, true, false, true, true, true, true, true, true, true, true, true, true, true, true, true, true, true, true, true, true, true, true, true, true, false, false, true, true, true, true, true, true, true, true, true, false, false, true, false, false, false, false, false, true, true, false, false, false, false, true, true, true, false, true, false, true, true, true, true, true, true, true, true, true, true, true, true, true, true, true, true, false, false, true, true, false, false, false, true, true, true, true, false, true, false, true, true, true, true, true, true, true, true, true, true, true, true, true, true, true, true, true, true, true, true, true, true, false, true, true, true, true, false, true, true, true, true, true, true, false, true, false, false, false, false, false, true, true, false, false, false, true, true, true, true, true, true, true, true, true, true, true, true, true, true, true, true, true, true, true, true, true, true, true, true, false, true, true, false, false, false, true, true, true, true, true, true, true, true, true, true, true, true, true, false, false, false, true, true, true, true, false, false, true, true, true, true, true, true, true, true, false, false, false, true, false, false, false, false, false, true, true, false, true, false, false, false, false, true, true, true, false, false, false, true, true, true, true, true, true, true, true, true, true, true, true, true, false, false, false, false, true, false, true, true, true, true, true, true, false, true, false, false, false, false, false, true, true, false, false, false, false, true, true, true, false, false, true, true, true, true, true, true, true, true, true, true, true, true, true, true, true, true, true, true, false, true, true, false, false, false, true, true, true, true, false, true, true, true, true, true, true, true, true, true, true, true, true, true, true, true, true, true, true, true, true, true, true, true, true, true, true, true, true, true, false, true, true, true, true, true, true, true, true, false, false, false, false, true, true, true, false, false, false, true, true, true, true, false, false, true, true, true, true, true, true, true, false, false, false, false, true, false, true, true, true, true, true, true, true, true, false, false, false, true, true, true, true, true, true, true, true, true, true, true, true, true, true, true, true, true, true, true, true, false, false, true, true, true, true, true, true, true, true, true, false, false, true, false, false, false, false, false, true, true, false, false, false, false, true, true, true, false, true, false, false, false, true, true, true, true, true, true, true, true, true, true, true, true, true, true, false, false, false, true, false, false, false, false, false, true, true, false, true, false, false, false, true, true, true, true, true, true, true, true, true, true, true, true, true, true, true, true, true, true, true, true, false, false, false, true, true, false, true, true, true, true, true, true, true, true, false, false, false, true, true, true, true, false, true, true, true, true, true, true, true, true, true, true, true, true, true, true, true, true, true, true, true, true, true, true, true, true, true, true, true, true, true, false, true, true, true, true, true, true, true, true, true, true, true, true, true, true, true, false, false, false, true, true, true, true, false, false, true, true, true, true, true, true, true, true, false, false, false, true, false, false, false, false, false, true, true, false, true, false, false, false, true, true, true, true, false, false, true, true, true, true, true, true, true, true, true, true, true, true, true, true, false, false, false, true, true, false, true, true, true, true, true, true, false, true, false, false, false, false, false, true, true, false, false, false, false, true, true, true, false, false, true, true, true, true, true, true, true, true, true, true, true, true, true, true, true, true, true, true, false, false, true, false, false, false, false, false, true, true, false, false, true, true, true, true, true, true, true, true, true, true, true, true, true, true, true, true, true, true, true, true, true, true, true, true, false, false, true, true, false, false, true, true, true, true, true, true, true, false, false, false, false, true, true, true, false, false, false, true, true, true, true, false, false, true, true, true, true, true, true, true, false, false, false, false, true, false]

def optP6c14 : List Nat := [1, 2, 3, 4, 5, 6, 1, 2, 3, 4, 5, 1, 6, 2, 3, 4, 5, 1, 2, 6, 3, 4, 5, 1, 2, 3, 6, 4, 5, 1, 2, 3, 4, 6, 5, 1, 2, 3, 4, 1, 5, 6, 2, 3, 4, 1, 5, 2, 6, 3, 4, 1, 5, 2, 3, 6, 4, 1, 5, 2, 3, 4, 6, 1, 5, 2, 3, 4, 1, 6, 5, 2, 3, 4, 1, 2, 5, 6, 3, 4, 1, 2, 5, 3, 6, 4, 1, 2, 5, 3, 4, 6, 1, 2, 5, 3, 4, 1, 6, 2, 5, 3, 4, 1, 2, 6, 5, 3, 4, 1, 2, 3, 5, 6, 4, 1, 2, 3, 5, 4, 6, 1, 2, 3, 5, 4, 1, 6, 2, 3, 5, 4, 1, 2, 6, 3, 5, 4, 1, 2, 3, 6, 5, 4, 1, 2, 3, 1, 4, 5, 6, 2, 3, 1, 4, 5, 2, 6, 3, 1, 4, 5, 2, 3, 6, 1, 4, 5, 2, 3, 1, 6, 4, 5, 2, 3, 1, 4, 6, 5, 2, 3, 1, 4, 2, 5, 6, 3, 1, 4, 2, 5, 3, 6, 1, 4, 2, 5, 3, 1, 6, 4, 2, 5, 3, 1, 4, 6, 2, 5, 3, 1, 4, 2, 6, 5, 3, 1, 4, 2, 3, 5, 6, 1, 4, 2, 3, 5, 1, 6, 4, 2, 3, 5, 1, 4, 6, 2, 3, 5, 1, 4, 2, 6, 3, 5, 1, 4, 2, 3, 6, 5, 1, 4, 2, 3, 1, 5, 6, 4, 2, 3, 1, 5, 4, 6, 2, 3, 1, 5, 4, 2, 6, 3, 1, 5, 4, 2, 3, 6, 1, 5, 4, 2, 3, 1, 6, 5, 4, 2, 3, 1, 2, 4, 5, 6, 3, 1, 2, 4, 5, 3, 6, 1, 2, 4, 5, 3, 1, 6, 2, 4, 5, 3, 1, 2, 6, 4, 5, 3, 1, 2, 4, 6, 5, 3, 1, 2, 4, 3, 5, 6, 1, 2, 4, 3, 5, 1, 6, 2, 4, 3, 5, 1, 2, 6, 4, 3, 5, 1, 2, 4, 6, 3, 5, 1, 2, 4, 3, 6, 5, 1, 2, 4, 3, 1, 5, 6, 2, 4, 3, 1, 5, 2, 6, 4, 3, 1, 5, 2, 4, 6, 3, 1, 5, 2, 4, 3, 6, 1, 5, 2, 4, 3, 1, 6, 5, 2, 4, 3, 1, 2, 5, 6, 4, 3, 1, 2, 5, 4, 6, 3, 1, 2, 5, 4, 3, 6, 1, 2, 5, 4, 3, 1, 6, 2, 5, 4, 3, 1, 2, 6, 5, 4, 3, 1, 2, 1, 3, 4, 5, 6, 2, 1, 3, 4, 5, 2, 6, 1, 3, 4, 5, 2, 1, 6, 3, 4, 5, 2, 1, 3, 6, 4, 5, 2, 1, 3, 4, 6, 5, 2, 1, 3, 4, 2, 5, 6, 1, 3, 4, 2, 5, 1, 6, 3, 4, 2, 5, 1, 3, 6, 4, 2, 5, 1, 3, 4, 6, 2, 5, 1, 3, 4, 2, 6, 5, 1, 3, 4, 2, 1, 5, 6, 3, 4, 2, 1, 5, 3, 6, 4, 2, 1, 5, 3, 4, 6, 2, 1, 5, 3, 4, 2, 6, 1, 5, 3, 4, 2, 1, 6, 5, 3, 4, 2, 1, 3, 5, 6, 4, 2, 1, 3, 5, 4, 6, 2, 1, 3, 5, 4, 2, 6, 1, 3, 5, 4, 2, 1, 6, 3, 5, 4, 2, 1, 3, 6, 5, 4, 2, 1, 3, 2, 4, 5, 6, 1, 3, 2, 4, 5, 1, 6, 3, 2, 4, 5, 1, 3, 6, 2, 4, 5, 1, 3, 2, 6, 4, 5, 1, 3, 2, 4, 6, 5, 1, 3, 2, 4, 1, 5, 6, 3, 2, 4, 1, 5, 3, 6, 2, 4, 1, 5, 3, 2, 6, 4, 1, 5, 3, 2, 4, 6, 1, 5, 3, 2, 4, 1, 6, 5, 3, 2, 4, 1, 3, 5, 6, 2, 4, 1, 3, 5, 2, 6, 4, 1, 3, 5, 2, 4, 6, 1, 3, 5, 2]

def optS6c14 : List Nat := [4, 1, 6, 3, 5]

def optR6c14 : List Nat := [6, 2, 4, 1, 5, 3, 2, 6, 4, 1, 5, 3, 2, 4, 6, 1, 5, 3, 2, 4, 1, 6, 5, 3, 2, 4, 1, 3, 5, 6, 2, 4, 1, 3, 5, 2, 6, 4, 1, 3, 5, 2, 4, 6, 1, 3, 5, 2, 4, 1, 6, 3, 5]

def optCcl6c14 : List Bool := [true, true, true, true, true, true, true, true, false, true, true, true, true, true, true, true, true, true, true, true, true, true, true, true, true, true, true, true, true, true, true, false, true, true, true, true, true, true, true, true, true, true, false, false, true, false, false, false, false, true, true, true, false, false, false, true, true, true, true, false, true, false, true, true, true, true, true, true, true, true, true, true, true, true, true, true, true, true, false, true, true, true, false, false, false, true, true, true, true, false, true, false, true, true, true, true, true, true, true, true, true, true, true, true, true, true, true, true, true, true, true, true, true, true, false, true, true, true, true, false, true, true, true, true, true, true, false, true, false, false, false, false, true, true, true, false, true, true, true, true, true, true, true, true, true, true, true, true, true, true, true, true, true, true, true, true, true, true, true, true, true, true, true, true, true, false, true, true, true, true, true, true, true, true, true, true, true, true, true, true, true, false, false, false, true, true, true, true, false, false, true, true, true, true, true, true, true, true, false, false, false, true, false, false, false, false, false, true, true, false, true, false, false, false, false, true, true, true, false, true, true, true, true, true, true, true, true, true, true, true, true, true, true, true, false, false, false, false, true, false, true, true, true, true, true, true, false, true, false, false, false, false, true, true, true, false, false, true, true, true, true, true, false, true, true, true, true, true, true, true, true, true, true, true, true, true, true, true, true, true, true, true, true, true, true, false, false, true, true, true, true, true, false, true, true, true, true, true, true, true, true, true, true, true, true, true, true, true, true, true, true, true, true, true, true, true, true, true, true, true, true, true, false, true, true, true, true, true, true, true, true, false, false, false, false, true, true, true, false, false, true, true, true, true, true, false, true, true, true, true, true, true, true, true, false, false, false, false, true, false, true, true, true, true, true, true, true, true, false, true, true, true, true, true, true, true, true, true, true, true, true, true, true, true, true, true, true, true, true, true, true, false, false, true, true, true, true, true, true, true, true, true, false, false, true, false, false, false, false, false, true, true, false, false, false, false, true, true, true, false, true, false, true, true, true, true, true, true, true, true, true, true, true, true, true, true, true, true, false, false, false, true, false, false, false, false, true, true, true, false, true, false, true, true, true, true, true, true, true, true, true, true, true, true, true, true, true, true, true, true, true, true, true, true, false, true, true, true, true, false, true, true, true, true, true, true, true, true, false, false, true, true, true, true, true, false, true, true, true, true, true, true, true, true, true, true, true, true, true, true, true, true, true, true, true, true, true, true, true, true, true, true, true, true, true, false, true, true, true, true, true, true, true, true, true, true, true, true, true, true, true, false, false, true, true, true, true, true, false, true, true, true, true, true, true, true, true, true, false, false, false, true, false, false, false, false, true, true, true, false, true, false, false, true, true, true, true, true, false, true, true, true, true, true, true, true, true, true, true, true, true, true, true, true, false, false, true, true, true, false, true, true, true, true, true, true, false, true, false, false, false, false, false, true, true, false, false, false, false, true, true, true, false, false, true, true, true, true, true, true, true, true, true, true, true, true, true, true, true, true, true, true, false, false, true, false, false, false, false, true, true, true, false, false, true, true, true, true, true, true, true, true, true, true, true, true, true, true, true, true, true, true, true, true, true, true, true, true, true, true, true, true, false, true, true, true, true, true, true, true, true, false, false, false, false, true, true, true, false, false, false, true, true, true, true, false, false, true, true, true, true, true, true, true, false, false, false, false, true, false]

def optP6c15 : List Nat := [1, 2, 3, 4, 5, 6, 1, 2, 3, 4, 5, 1, 6, 2, 3, 4, 5, 1, 2, 6, 3, 4, 5, 1, 2, 3, 6, 4, 5, 1, 2, 3, 4, 6, 5, 1, 2, 3, 4, 1, 5, 6, 2, 3, 4, 1, 5, 2, 6, 3, 4, 1, 5, 2, 3, 6, 4, 1, 5, 2, 3, 4, 6, 1, 5, 2, 3, 4, 1, 6, 5, 2, 3, 4, 1, 2, 5, 6, 3, 4, 1, 2, 5, 3, 6, 4, 1, 2, 5, 3, 4, 6, 1, 2, 5, 3, 4, 1, 6, 2, 5, 3, 4, 1, 2, 6, 5, 3, 4, 1, 2, 3, 5, 6, 4, 1, 2, 3, 5, 4, 6, 1, 2, 3, 5, 4, 1, 6, 2, 3, 5, 4, 1, 2, 6, 3, 5, 4, 1, 2, 3, 6, 5, 4, 1, 2, 3, 1, 4, 5, 6, 2, 3, 1, 4, 5, 2, 6, 3, 1, 4, 5, 2, 3, 6, 1, 4, 5, 2, 3, 1, 6, 4, 5, 2, 3, 1, 4, 6, 5, 2, 3, 1, 4, 2, 5, 6, 3, 1, 4, 2, 5, 3, 6, 1, 4, 2, 5, 3, 1, 6, 4, 2, 5, 3, 1, 4, 6, 2, 5, 3, 1, 4, 2, 6, 5, 3, 1, 4, 2, 3, 5, 6, 1, 4, 2, 3, 5, 1, 6, 4, 2, 3, 5, 1, 4, 6, 2, 3, 5, 1, 4, 2, 6, 3, 5, 1, 4, 2, 3, 6, 5, 1, 4, 2, 3, 1, 5, 6, 4, 2, 3, 1, 5, 4, 6, 2, 3, 1, 5, 4, 2, 6, 3, 1, 5, 4, 2, 3, 6, 1, 5, 4, 2, 3, 1, 6, 5, 4, 2, 3, 1, 2, 4, 5, 6, 3, 1, 2, 4, 5, 3, 6, 1, 2, 4, 5, 3, 1, 6, 2, 4, 5, 3, 1, 2, 6, 4, 5, 3, 1, 2, 4, 6, 5, 3, 1, 2, 4, 3, 5, 6, 1, 2, 4, 3, 5, 1, 6, 2, 4, 3, 5, 1, 2, 6, 4, 3, 5, 1, 2, 4, 6, 3, 5, 1, 2, 4, 3, 6, 5, 1, 2, 4, 3, 1, 5, 6, 2, 4, 3, 1, 5, 2, 6, 4, 3, 1, 5, 2, 4, 6, 3, 1, 5, 2, 4, 3, 6, 1, 5, 2, 4, 3, 1, 6, 5, 2, 4, 3, 1, 2, 5, 6, 4, 3, 1, 2, 5, 4, 6, 3, 1, 2, 5, 4, 3, 6, 1, 2, 5, 4, 3, 1, 6, 2, 5, 4, 3, 1, 2, 6, 5, 4, 3, 1, 2, 1, 3, 4, 5, 6, 2, 1, 3, 4, 5, 2, 6, 1, 3, 4, 5, 2, 1, 6, 3, 4, 5, 2, 1, 3, 6, 4, 5, 2, 1, 3, 4, 6, 5, 2, 1, 3, 4, 2, 5, 6, 1, 3, 4, 2, 5, 1, 6, 3, 4, 2, 5, 1, 3, 6, 4, 2, 5, 1, 3, 4, 6, 2, 5, 1, 3, 4, 2, 6, 5, 1, 3, 4, 2, 1, 5, 6, 3, 4, 2, 1, 5, 3, 6, 4, 2, 1, 5, 3, 4, 6, 2, 1, 5, 3, 4, 2, 6, 1, 5, 3, 4, 2, 1, 6, 5, 3, 4, 2, 1, 3, 5, 6, 4, 2, 1, 3, 5, 4, 6, 2, 1, 3, 5, 4, 2, 6, 1, 3, 5, 4, 2, 1, 6, 3, 5, 4, 2, 1, 3, 6, 5, 4, 2, 1, 3, 2, 4, 5, 6, 1, 3, 2, 4, 5, 1, 6, 3, 2, 4, 5, 1, 3, 6, 2, 4, 5, 1, 3, 2, 6, 4, 5, 1, 3, 2, 4, 6, 5, 1, 3, 2, 4, 1, 5, 6, 3, 2, 4, 1, 5, 3, 6, 2, 4, 1, 5, 3, 2, 6, 4, 1, 5, 3, 2, 4, 6, 1, 5, 3, 2, 4, 1, 6, 5, 3, 2, 4, 1, 3, 5, 6, 2, 4, 1, 3, 5, 2, 6, 4, 1, 3, 5, 2, 4, 6, 1, 3, 5, 2, 4, 1, 6, 3, 5, 2, 4, 1, 3, 6, 5, 2, 4, 1, 3, 2, 5, 6, 4, 1, 3, 2, 5, 4, 6, 1, 3, 2, 5, 4, 1, 6, 3, 2, 5, 4, 1, 3, 6, 2, 5, 4, 1, 3, 2, 6, 5, 4, 1, 3]

def optS6c15 : List Nat := [2, 1, 4, 5, 6]

def optR6c15 : List Nat := [4, 1, 6, 3, 5, 2, 4, 1, 3, 6, 5, 2, 4, 1, 3, 2, 5, 6, 4, 1, 3, 2, 5, 4, 6, 1, 3, 2, 5, 4, 1, 6, 3, 2, 5, 4, 1, 3, 6, 2, 5, 4, 1, 3, 2, 6, 5, 4, 1, 3, 2, 1, 4, 5, 6]

def optCcl6c15 : List Bool := [true, true, true, true, true, true, true, true, true, true, true, true, true, true, true, true, true, true, true, true, true, true, true, true, true, true, true, true, true, true, true, false, true, true, true, true, true, true, true, true, true, true, false, true, true, false, false, false, false, true, true, true, false, false, false, true, true, true, true, false, true, false, true, true, true, true, true, true, true, true, true, true, true, true, true, true, true, true, false, true, true, true, false, false, false, true, true, true, true, false, true, false, true, true, true, true, true, true, true, true, true, true, true, true, true, true, true, true, true, true, true, true, true, true, false, true, true, true, true, false, true, true, true, true, true, true, true, true, false, false, true, true, true, true, true, false, true, true, true, true, true, true, true, true, true, true, true, true, true, true, true, true, true, true, true, true, true, true, true, true, true, true, true, true, true, false, true, true, true, true, true, true, true, true, true, true, true, true, true, true, true, false, false, true, true, true, true, true, false, true, true, true, true, true, true, true, true, true, false, false, true, true, false, false, false, false, true, true, true, false, true, false, false, true, true, true, true, true, false, true, true, true, true, true, true, true, true, true, true, true, true, true, true, true, false, false, true, true, true, false, true, true, true, true, true, true, true, true, false, false, false, true, true, true, true, false, false, true, true, true, true, true, false, true, true, true, true, true, true, true, true, true, true, true, true, true, true, true, true, true, true, true, true, true, true, false, false, true, true, true, true, true, false, true, true, true, true, true, true, true, true, true, true, true, true, true, true, true, true, true, true, true, true, true, true, true, true, true, true, true, true, true, false, true, true, true, true, true, true, true, true, false, false, false, true, true, true, true, false, false, true, true, true, true, true, false, true, true, true, true, true, true, true, true, false, false, false, true, true, false, true, true, true, true, true, true, true, true, false, true, true, true, true, true, true, true, true, true, true, true, true, true, true, true, true, true, true, true, true, true, true, false, true, true, true, true, true, true, true, true, true, true, false, true, true, false, false, false, false, true, true, true, false, false, false, true, true, true, true, false, true, false, true, true, true, true, true, true, true, true, true, true, true, true, true, true, true, true, false, true, true, true, false, false, false, true, true, true, true, false, true, false, true, true, true, true, true, true, true, true, true, true, true, true, true, true, true, true, true, true, true, true, true, true, false, true, true, true, true, false, true, true, true, true, true, true, true, true, false, false, true, true, true, true, true, false, true, true, true, true, true, true, true, true, true, true, true, true, true, true, true, true, true, true, true, true, true, true, true, true, true, true, true, true, true, false, true, true, true, true, true, true, true, true, true, true, true, true, true, true, true, false, false, true, true, true, true, true, false, true, true, true, true, true, true, true, true, true, false, false, true, true, false, false, false, false, true, true, true, false, true, false, false, true, true, true, true, true, false, true, true, true, true, true, true, true, true, true, true, true, true, true, true, true, false, false, true, true, true, false, true, true, true, true, true, true, true, true, false, false, false, true, true, true, true, false, false, true, true, true, true, true, false, true, true, true, true, true, true, true, true, true, true, true, true, true, true, true, true, true, true, true, true, true, true, false, false, true, true, true, true, true, false, true, true, true, true, true, true, true, true, true, true, true, true, true, true, true, true, true, true, true, true, true, true, true, true, true, true, true, true, true, false, true, true, true, true, true, true, true, true, false, false, false, true, true, true, true, false, false, true, true, true, true, true, false, true, true, true, true, true, true, true, true, false, false, false, true, true, false]

def optP6c16 : List Nat := [1, 2, 3, 4, 5, 6, 1, 2, 3, 4, 5, 1, 6, 2, 3, 4, 5, 1, 2, 6, 3, 4, 5, 1, 2, 3, 6, 4, 5, 1, 2, 3, 4, 6, 5, 1, 2, 3, 4, 1, 5, 6, 2, 3, 4, 1, 5, 2, 6, 3, 4, 1, 5, 2, 3, 6, 4, 1, 5, 2, 3, 4, 6, 1, 5, 2, 3, 4, 1, 6, 5, 2, 3, 4, 1, 2, 5, 6, 3, 4, 1, 2, 5, 3, 6, 4, 1, 2, 5, 3, 4, 6, 1, 2, 5, 3, 4, 1, 6, 2, 5, 3, 4, 1, 2, 6, 5, 3, 4, 1, 2, 3, 5, 6, 4, 1, 2, 3, 5, 4, 6, 1, 2, 3, 5, 4, 1, 6, 2, 3, 5, 4, 1, 2, 6, 3, 5, 4, 1, 2, 3, 6, 5, 4, 1, 2, 3, 1, 4, 5, 6, 2, 3, 1, 4, 5, 2, 6, 3, 1, 4, 5, 2, 3, 6, 1, 4, 5, 2, 3, 1, 6, 4, 5, 2, 3, 1, 4, 6, 5, 2, 3, 1, 4, 2, 5, 6, 3, 1, 4, 2, 5, 3, 6, 1, 4, 2, 5, 3, 1, 6, 4, 2, 5, 3, 1, 4, 6, 2, 5, 3, 1, 4, 2, 6, 5, 3, 1, 4, 2, 3, 5, 6, 1, 4, 2, 3, 5, 1, 6, 4, 2, 3, 5, 1, 4, 6, 2, 3, 5, 1, 4, 2, 6, 3, 5, 1, 4, 2, 3, 6, 5, 1, 4, 2, 3, 1, 5, 6, 4, 2, 3, 1, 5, 4, 6, 2, 3, 1, 5, 4, 2, 6, 3, 1, 5, 4, 2, 3, 6, 1, 5, 4, 2, 3, 1, 6, 5, 4, 2, 3, 1, 2, 4, 5, 6, 3, 1, 2, 4, 5, 3, 6, 1, 2, 4, 5, 3, 1, 6, 2, 4, 5, 3, 1, 2, 6, 4, 5, 3, 1, 2, 4, 6, 5, 3, 1, 2, 4, 3, 5, 6, 1, 2, 4, 3, 5, 1, 6, 2, 4, 3, 5, 1, 2, 6, 4, 3, 5, 1, 2, 4, 6, 3, 5, 1, 2, 4, 3, 6, 5, 1, 2, 4, 3, 1, 5, 6, 2, 4, 3, 1, 5, 2, 6, 4, 3, 1, 5, 2, 4, 6, 3, 1, 5, 2, 4, 3, 6, 1, 5, 2, 4, 3, 1, 6, 5, 2, 4, 3, 1, 2, 5, 6, 4, 3, 1, 2, 5, 4, 6, 3, 1, 2, 5, 4, 3, 6, 1, 2, 5, 4, 3, 1, 6, 2, 5, 4, 3, 1, 2, 6, 5, 4, 3, 1, 2, 1, 3, 4, 5, 6, 2, 1, 3, 4, 5, 2, 6, 1, 3, 4, 5, 2, 1, 6, 3, 4, 5, 2, 1, 3, 6, 4, 5, 2, 1, 3, 4, 6, 5, 2, 1, 3, 4, 2, 5, 6, 1, 3, 4, 2, 5, 1, 6, 3, 4, 2, 5, 1, 3, 6, 4, 2, 5, 1, 3, 4, 6, 2, 5, 1, 3, 4, 2, 6, 5, 1, 3, 4, 2, 1, 5, 6, 3, 4, 2, 1, 5, 3, 6, 4, 2, 1, 5, 3, 4, 6, 2, 1, 5, 3, 4, 2, 6, 1, 5, 3, 4, 2, 1, 6, 5, 3, 4, 2, 1, 3, 5, 6, 4, 2, 1, 3, 5, 4, 6, 2, 1, 3, 5, 4, 2, 6, 1, 3, 5, 4, 2, 1, 6, 3, 5, 4, 2, 1, 3, 6, 5, 4, 2, 1, 3, 2, 4, 5, 6, 1, 3, 2, 4, 5, 1, 6, 3, 2, 4, 5, 1, 3, 6, 2, 4, 5, 1, 3, 2, 6, 4, 5, 1, 3, 2, 4, 6, 5, 1, 3, 2, 4, 1, 5, 6, 3, 2, 4, 1, 5, 3, 6, 2, 4, 1, 5, 3, 2, 6, 4, 1, 5, 3, 2, 4, 6, 1, 5, 3, 2, 4, 1, 6, 5, 3, 2, 4, 1, 3, 5, 6, 2, 4, 1, 3, 5, 2, 6, 4, 1, 3, 5, 2, 4, 6, 1, 3, 5, 2, 4, 1, 6, 3, 5, 2, 4, 1, 3, 6, 5, 2, 4, 1, 3, 2, 5, 6, 4, 1, 3, 2, 5, 4, 6, 1, 3, 2, 5, 4, 1, 6, 3, 2, 5, 4, 1, 3, 6, 2, 5, 4, 1, 3, 2, 6, 5, 4, 1, 3, 2, 1, 4, 5, 6, 3, 2, 1, 4, 5, 3, 6, 2, 1, 4, 5, 3, 2, 6, 1, 4, 5, 3, 2, 1, 6, 4, 5, 3, 2, 1, 4, 6, 5, 3, 2, 1, 4, 3, 5, 6, 2, 1, 4, 3, 5, 2]

def optS6c16 : List Nat := [6, 1, 4, 3, 5]

def optR6c16 : List Nat := [2, 1, 4, 5, 6, 3, 2, 1, 4, 5, 3, 6, 2, 1, 4, 5, 3, 2, 6, 1, 4, 5, 3, 2, 1, 6, 4, 5, 3, 2, 1, 4, 6, 5, 3, 2, 1, 4, 3, 5, 6, 2, 1, 4, 3, 5, 2, 6, 1, 4, 3, 5]

def optCcl6c16 : List Bool := [true, true, true, true, true, true, true, true, true, true, true, true, true, true, true, true, true, true, true, true, true, true, true, true, true, true, true, true, true, true, true, true, true, true, true, true, true, true, true, true, true, true, false, true, true, false, false, false, true, true, true, true, false, true, true, true, true, true, true, true, true, true, true, true, true, true, true, true, true, true, true, true, true, true, true, true, true, true, true, true, true, true, true, true, true, true, true, true, true, true, true, true, true, true, true, true, true, true, true, true, true, true, true, true, true, true, true, true, true, true, true, true, true, true, true, true, true, true, true, true, true, true, true, true, true, true, true, true, false, false, true, true, true, true, true, false, true, true, true, true, true, true, true, true, true, true, true, true, true, true, true, true, true, true, true, true, true, true, true, true, true, true, true, true, true, true, true, true, true, true, true, true, true, true, true, true, true, true, true, true, true, false, false, true, true, true, true, true, false, true, true, true, true, true, true, true, true, true, false, false, true, true, false, false, false, false, true, true, true, false, true, false, false, true, true, true, true, true, false, true, true, true, true, true, true, true, true, true, true, true, true, true, true, true, false, false, true, true, true, false, true, true, true, true, true, true, true, true, false, false, false, true, true, true, true, false, true, true, true, true, true, true, true, true, true, true, true, true, true, true, true, true, true, true, true, true, true, true, true, true, true, true, true, true, true, true, true, true, true, true, true, true, true, true, true, true, true, true, true, true, true, true, true, true, true, true, true, true, true, true, true, true, true, true, true, true, true, true, true, true, true, true, true, true, true, true, true, true, true, true, true, false, false, false, true, true, true, true, false, true, true, true, true, true, true, true, true, true, true, true, true, true, true, true, false, false, false, true, true, false, true, true, true, true, true, true, true, true, true, true, true, true, true, true, true, true, true, true, true, true, true, true, true, true, true, true, true, true, true, true, true, false, true, true, true, true, true, true, true, true, true, true, false, true, true, false, false, false, false, true, true, true, false, false, false, true, true, true, true, false, true, false, true, true, true, true, true, true, true, true, true, true, true, true, true, true, true, true, false, true, true, true, false, false, false, true, true, true, true, false, true, true, true, true, true, true, true, true, true, true, true, true, true, true, true, true, true, true, true, true, true, true, true, true, true, true, true, true, true, true, true, true, true, true, true, true, true, true, true, true, true, true, true, true, true, true, true, true, true, true, true, true, true, true, true, true, true, true, true, true, true, true, true, true, true, true, true, true, true, true, true, true, true, true, true, true, true, true, true, true, true, true, true, true, true, true, true, true, true, true, true, false, true, true, true, true, true, true, true, true, true, true, true, true, true, true, true, true, false, false, true, true, false, false, false, false, true, true, true, false, true, true, true, true, true, true, true, true, true, true, true, true, true, true, true, true, true, true, true, true, true, true, true, true, true, true, true, true, true, true, true, true, true, true, true, true, true, true, false, false, false, true, true, true, true, false, false, true, true, true, true, true, false, true, true, true, true, true, true, true, true, true, true, true, true, true, true, true, true, true, true, true, true, true, true, false, false, true, true, true, true, true, false, true, true, true, true, true, true, true, true, true, true, true, true, true, true, true, true, true, true, true, true, true, true, true, true, true, true, true, true, true, true, true, true, true, true, true, true, true, true, false, false, false, true, true, true, true, false, false, true, true, true, true, true, false, true, true, true, true, true, true, true, true, false, false, false, true, true, false]

def optP6c17 : List Nat := [1, 2, 3, 4, 5, 6, 1, 2, 3, 4, 5, 1, 6, 2, 3, 4, 5, 1, 2, 6, 3, 4, 5, 1, 2, 3, 6, 4, 5, 1, 2, 3, 4, 6, 5, 1, 2, 3, 4, 1, 5, 6, 2, 3, 4, 1, 5, 2, 6, 3, 4, 1, 5, 2, 3, 6, 4, 1, 5, 2, 3, 4, 6, 1, 5, 2, 3, 4, 1, 6, 5, 2, 3, 4, 1, 2, 5, 6, 3, 4, 1, 2, 5, 3, 6, 4, 1, 2, 5, 3, 4, 6, 1, 2, 5, 3, 4, 1, 6, 2, 5, 3, 4, 1, 2, 6, 5, 3, 4, 1, 2, 3, 5, 6, 4, 1, 2, 3, 5, 4, 6, 1, 2, 3, 5, 4, 1, 6, 2, 3, 5, 4, 1, 2, 6, 3, 5, 4, 1, 2, 3, 6, 5, 4, 1, 2, 3, 1, 4, 5, 6, 2, 3, 1, 4, 5, 2, 6, 3, 1, 4, 5, 2, 3, 6, 1, 4, 5, 2, 3, 1, 6, 4, 5, 2, 3, 1, 4, 6, 5, 2, 3, 1, 4, 2, 5, 6, 3, 1, 4, 2, 5, 3, 6, 1, 4, 2, 5, 3, 1, 6, 4, 2, 5, 3, 1, 4, 6, 2, 5, 3, 1, 4, 2, 6, 5, 3, 1, 4, 2, 3, 5, 6, 1, 4, 2, 3, 5, 1, 6, 4, 2, 3, 5, 1, 4, 6, 2, 3, 5, 1, 4, 2, 6, 3, 5, 1, 4, 2, 3, 6, 5, 1, 4, 2, 3, 1, 5, 6, 4, 2, 3, 1, 5, 4, 6, 2, 3, 1, 5, 4, 2, 6, 3, 1, 5, 4, 2, 3, 6, 1, 5, 4, 2, 3, 1, 6, 5, 4, 2, 3, 1, 2, 4, 5, 6, 3, 1, 2, 4, 5, 3, 6, 1, 2, 4, 5, 3, 1, 6, 2, 4, 5, 3, 1, 2, 6, 4, 5, 3, 1, 2, 4, 6, 5, 3, 1, 2, 4, 3, 5, 6, 1, 2, 4, 3, 5, 1, 6, 2, 4, 3, 5, 1, 2, 6, 4, 3, 5, 1, 2, 4, 6, 3, 5, 1, 2, 4, 3, 6, 5, 1, 2, 4, 3, 1, 5, 6, 2, 4, 3, 1, 5, 2, 6, 4, 3, 1, 5, 2, 4, 6, 3, 1, 5, 2, 4, 3, 6, 1, 5, 2, 4, 3, 1, 6, 5, 2, 4, 3, 1, 2, 5, 6, 4, 3, 1, 2, 5, 4, 6, 3, 1, 2, 5, 4, 3, 6, 1, 2, 5, 4, 3, 1, 6, 2, 5, 4, 3, 1, 2, 6, 5, 4, 3, 1, 2, 1, 3, 4, 5, 6, 2, 1, 3, 4, 5, 2, 6, 1, 3, 4, 5, 2, 1, 6, 3, 4, 5, 2, 1, 3, 6, 4, 5, 2, 1, 3, 4, 6, 5, 2, 1, 3, 4, 2, 5, 6, 1, 3, 4, 2, 5, 1, 6, 3, 4, 2, 5, 1, 3, 6, 4, 2, 5, 1, 3, 4, 6, 2, 5, 1, 3, 4, 2, 6, 5, 1, 3, 4, 2, 1, 5, 6, 3, 4, 2, 1, 5, 3, 6, 4, 2, 1, 5, 3, 4, 6, 2, 1, 5, 3, 4, 2, 6, 1, 5, 3, 4, 2, 1, 6, 5, 3, 4, 2, 1, 3, 5, 6, 4, 2, 1, 3, 5, 4, 6, 2, 1, 3, 5, 4, 2, 6, 1, 3, 5, 4, 2, 1, 6, 3, 5, 4, 2, 1, 3, 6, 5, 4, 2, 1, 3, 2, 4, 5, 6, 1, 3, 2, 4, 5, 1, 6, 3, 2, 4, 5, 1, 3, 6, 2, 4, 5, 1, 3, 2, 6, 4, 5, 1, 3, 2, 4, 6, 5, 1, 3, 2, 4, 1, 5, 6, 3, 2, 4, 1, 5, 3, 6, 2, 4, 1, 5, 3, 2, 6, 4, 1, 5, 3, 2, 4, 6, 1, 5, 3, 2, 4, 1, 6, 5, 3, 2, 4, 1, 3, 5, 6, 2, 4, 1, 3, 5, 2, 6, 4, 1, 3, 5, 2, 4, 6, 1, 3, 5, 2, 4, 1, 6, 3, 5, 2, 4, 1, 3, 6, 5, 2, 4, 1, 3, 2, 5, 6, 4, 1, 3, 2, 5, 4, 6, 1, 3, 2, 5, 4, 1, 6, 3, 2, 5, 4, 1, 3, 6, 2, 5, 4, 1, 3, 2, 6, 5, 4, 1, 3, 2, 1, 4, 5, 6, 3, 2, 1, 4, 5, 3, 6, 2, 1, 4, 5, 3, 2, 6, 1, 4, 5, 3, 2, 1, 6, 4, 5, 3, 2, 1, 4, 6, 5, 3, 2, 1, 4, 3, 5, 6, 2, 1, 4, 3, 5, 2, 6, 1, 4, 3, 5, 2, 1, 6, 4, 3, 5, 2, 1, 4, 6, 3, 5, 2, 1, 4, 3, 6, 5, 2, 1, 4, 3, 2, 5, 6, 1, 4, 3, 2, 5, 1, 6, 4, 3, 2, 5, 1, 4, 6, 3, 2, 5, 1]

def optS6c17 : List Nat := [4, 3, 6, 2, 5]

def optR6c17 : List Nat := [6, 1, 4, 3, 5, 2, 1, 6, 4, 3, 5, 2, 1, 4, 6, 3, 5, 2, 1, 4, 3, 6, 5, 2, 1, 4, 3, 2, 5, 6, 1, 4, 3, 2, 5, 1, 6, 4, 3, 2, 5, 1, 4, 6, 3, 2, 5, 1, 4, 3, 6, 2, 5]

def optCcl6c17 : List Bool := [true, true, true, true, true, true, true, true, true, true, true, true, true, true, true, true, true, true, true, true, true, true, true, true, true, true, true, true, true, true, true, true, true, true, true, true, true, true, true, true, true, true, true, true, true, false, true, true, true, true, true, true, true, true, true, true, true, true, true, true, true, true, true, true, true, true, true, true, true, true, true, true, true, true, true, true, true, true, true, true, true, true, true, true, true, true, true, true, true, true, true, true, true, true, true, true, true, true, true, true, true, true, true, true, true, true, true, true, true, true, true, true, true, true, true, true, true, true, true, true, true, true, true, true, true, true, true, true, false, true, true, true, true, true, true, true, true, true, true, true, true, true, true, true, true, true, true, true, true, true, true, true, true, true, true, true, true, true, true, true, true, true, true, true, true, true, true, true, true, true, true, true, true, true, true, true, true, true, true, true, true, false, true, true, true, true, true, true, true, true, true, true, true, true, true, true, true, true, false, false, true, true, false, false, false, true, true, true, true, false, true, false, true, true, true, true, true, true, true, true, true, true, true, true, true, true, true, true, true, true, true, true, true, true, false, true, true, true, true, false, true, true, true, true, true, true, true, true, false, true, true, true, true, true, true, true, true, true, true, true, true, true, true, true, true, true, true, true, true, true, true, true, true, true, true, true, true, true, true, true, true, true, true, true, true, true, true, true, true, true, true, true, true, true, true, true, true, true, true, true, true, true, true, true, true, true, true, true, true, true, true, true, true, true, true, true, true, true, true, true, true, true, true, true, true, true, true, true, true, true, true, false, true, true, true, true, true, true, true, true, true, true, true, true, true, true, true, true, true, true, true, true, true, true, false, true, true, true, true, false, true, true, true, true, true, true, true, true, true, true, true, true, true, true, true, true, true, true, true, true, true, true, true, true, true, true, true, true, true, true, true, true, true, true, true, true, true, true, true, true, true, true, false, true, true, false, false, false, true, true, true, true, false, false, true, true, true, true, true, true, true, true, true, true, true, true, true, true, true, true, true, true, true, true, true, true, true, true, true, true, true, true, false, true, true, true, true, true, true, true, true, true, true, true, true, true, true, true, true, true, true, true, true, true, true, true, true, true, true, true, true, true, true, true, true, true, true, true, true, true, true, true, true, true, true, true, true, true, true, true, true, true, true, true, true, true, true, true, true, true, true, true, true, true, true, true, true, true, true, true, true, true, true, true, true, true, true, true, true, true, true, true, true, true, true, true, true, true, true, true, true, true, true, true, true, true, true, true, true, true, true, true, true, true, true, true, true, true, true, true, true, true, true, true, true, true, true, true, true, true, true, true, false, true, true, true, true, true, true, true, true, true, true, true, true, true, true, true, true, true, true, true, true, true, true, true, true, true, true, true, true, true, true, true, true, true, true, true, true, true, true, true, true, true, true, true, true, true, false, false, false, true, true, true, true, false, false, true, true, true, true, true, true, true, true, true, true, true, true, true, true, true, true, true, true, true, true, true, true, true, true, true, true, true, true, false, true, true, true, true, true, true, true, true, true, true, true, true, true, true, true, true, true, true, true, true, true, true, true, true, true, true, true, true, true, true, true, true, true, true, true, true, true, true, true, true, true, true, true, true, true, false, false, false, true, true, true, true, false, false, true, true, true, true, true, true, true, true, true, true, true, true, true, true, false, false, false, true, true, false]

def optP6c18 : List Nat := [1, 2, 3, 4, 5, 6, 1, 2, 3, 4, 5, 1, 6, 2, 3, 4, 5, 1, 2, 6, 3, 4, 5, 1, 2, 3, 6, 4, 5, 1, 2, 3, 4, 6, 5, 1, 2, 3, 4, 1, 5, 6, 2, 3, 4, 1, 5, 2, 6, 3, 4, 1, 5, 2, 3, 6, 4, 1, 5, 2, 3, 4, 6, 1, 5, 2, 3, 4, 1, 6, 5, 2, 3, 4, 1, 2, 5, 6, 3, 4, 1, 2, 5, 3, 6, 4, 1, 2, 5, 3, 4, 6, 1, 2, 5, 3, 4, 1, 6, 2, 5, 3, 4, 1, 2, 6, 5, 3, 4, 1, 2, 3, 5, 6, 4, 1, 2, 3, 5, 4, 6, 1, 2, 3, 5, 4, 1, 6, 2, 3, 5, 4, 1, 2, 6, 3, 5, 4, 1, 2, 3, 6, 5, 4, 1, 2, 3, 1, 4, 5, 6, 2, 3, 1, 4, 5, 2, 6, 3, 1, 4, 5, 2, 3, 6, 1, 4, 5, 2, 3, 1, 6, 4, 5, 2, 3, 1, 4, 6, 5, 2, 3, 1, 4, 2, 5, 6, 3, 1, 4, 2, 5, 3, 6, 1, 4, 2, 5, 3, 1, 6, 4, 2, 5, 3, 1, 4, 6, 2, 5, 3, 1, 4, 2, 6, 5, 3, 1, 4, 2, 3, 5, 6, 1, 4, 2, 3, 5, 1, 6, 4, 2, 3, 5, 1, 4, 6, 2, 3, 5, 1, 4, 2, 6, 3, 5, 1, 4, 2, 3, 6, 5, 1, 4, 2, 3, 1, 5, 6, 4, 2, 3, 1, 5, 4, 6, 2, 3, 1, 5, 4, 2, 6, 3, 1, 5, 4, 2, 3, 6, 1, 5, 4, 2, 3, 1, 6, 5, 4, 2, 3, 1, 2, 4, 5, 6, 3, 1, 2, 4, 5, 3, 6, 1, 2, 4, 5, 3, 1, 6, 2, 4, 5, 3, 1, 2, 6, 4, 5, 3, 1, 2, 4, 6, 5, 3, 1, 2, 4, 3, 5, 6, 1, 2, 4, 3, 5, 1, 6, 2, 4, 3, 5, 1, 2, 6, 4, 3, 5, 1, 2, 4, 6, 3, 5, 1, 2, 4, 3, 6, 5, 1, 2, 4, 3, 1, 5, 6, 2, 4, 3, 1, 5, 2, 6, 4, 3, 1, 5, 2, 4, 6, 3, 1, 5, 2, 4, 3, 6, 1, 5, 2, 4, 3, 1, 6, 5, 2, 4, 3, 1, 2, 5, 6, 4, 3, 1, 2, 5, 4, 6, 3, 1, 2, 5, 4, 3, 6, 1, 2, 5, 4, 3, 1, 6, 2, 5, 4, 3, 1, 2, 6, 5, 4, 3, 1, 2, 1, 3, 4, 5, 6, 2, 1, 3, 4, 5, 2, 6, 1, 3, 4, 5, 2, 1, 6, 3, 4, 5, 2, 1, 3, 6, 4, 5, 2, 1, 3, 4, 6, 5, 2, 1, 3, 4, 2, 5, 6, 1, 3, 4, 2, 5, 1, 6, 3, 4, 2, 5, 1, 3, 6, 4, 2, 5, 1, 3, 4, 6, 2, 5, 1, 3, 4, 2, 6, 5, 1, 3, 4, 2, 1, 5, 6, 3, 4, 2, 1, 5, 3, 6, 4, 2, 1, 5, 3, 4, 6, 2, 1, 5, 3, 4, 2, 6, 1, 5, 3, 4, 2, 1, 6, 5, 3, 4, 2, 1, 3, 5, 6, 4, 2, 1, 3, 5, 4, 6, 2, 1, 3, 5, 4, 2, 6, 1, 3, 5, 4, 2, 1, 6, 3, 5, 4, 2, 1, 3, 6, 5, 4, 2, 1, 3, 2, 4, 5, 6, 1, 3, 2, 4, 5, 1, 6, 3, 2, 4, 5, 1, 3, 6, 2, 4, 5, 1, 3, 2, 6, 4, 5, 1, 3, 2, 4, 6, 5, 1, 3, 2, 4, 1, 5, 6, 3, 2, 4, 1, 5, 3, 6, 2, 4, 1, 5, 3, 2, 6, 4, 1, 5, 3, 2, 4, 6, 1, 5, 3, 2, 4, 1, 6, 5, 3, 2, 4, 1, 3, 5, 6, 2, 4, 1, 3, 5, 2, 6, 4, 1, 3, 5, 2, 4, 6, 1, 3, 5, 2, 4, 1, 6, 3, 5, 2, 4, 1, 3, 6, 5, 2, 4, 1, 3, 2, 5, 6, 4, 1, 3, 2, 5, 4, 6, 1, 3, 2, 5, 4, 1, 6, 3, 2, 5, 4, 1, 3, 6, 2, 5, 4, 1, 3, 2, 6, 5, 4, 1, 3, 2, 1, 4, 5, 6, 3, 2, 1, 4, 5, 3, 6, 2, 1, 4, 5, 3, 2, 6, 1, 4, 5, 3, 2, 1, 6, 4, 5, 3, 2, 1, 4, 6, 5, 3, 2, 1, 4, 3, 5, 6, 2, 1, 4, 3, 5, 2, 6, 1, 4, 3, 5, 2, 1, 6, 4, 3, 5, 2, 1, 4, 6, 3, 5, 2, 1, 4, 3, 6, 5, 2, 1, 4, 3, 2, 5, 6, 1, 4, 3, 2, 5, 1, 6, 4, 3, 2, 5, 1, 4, 6, 3, 2, 5, 1, 4, 3, 6, 2, 5, 1, 4, 3, 2, 6, 5, 1, 4, 3, 2, 1, 5, 6, 4, 3, 2, 1, 5, 4, 6, 3, 2, 1, 5, 4, 3, 6, 2, 1, 5, 4, 3, 2, 6, 1, 5, 4, 3, 2, 1, 6]

def optS6c18 : List Nat := [5, 4, 3, 2, 1]

def optR6c18 : List Nat := [4, 3, 6, 2, 5, 1, 4, 3, 2, 6, 5, 1, 4, 3, 2, 1, 5, 6, 4, 3, 2, 1, 5, 4, 6, 3, 2, 1, 5, 4, 3, 6, 2, 1, 5, 4, 3, 2, 6, 1, 5, 4, 3, 2, 1, 6, 5, 4, 3, 2, 1]

def optCcl6c18 : List Bool := [true, true, true, true, true, true, true, true, true, true, true, true, true, true, true, true, true, true, true, true, true, true, true, true, true, true, true, true, true, true, true, true, true, true, true, true, true, true, true, true, true, true, true, true, true, true, true, true, true, true, true, true, true, true, true, true, true, true, true, true, true, true, true, true, true, true, true, true, true, true, true, true, true, true, true, true, true, true, true, true, true, true, true, true, true, true, true, true, true, true, true, true, true, true, true, true, true, true, true, true, true, true, true, true, true, true, true, true, true, true, true, true, true, true, true, true, true, true, true, true, true, true, true, true, true, true, true, true, true, true, true, true, true, true, true, true, true, true, true, true, true, true, true, true, true, true, true, true, true, true, true, true, true, true, true, true, true, true, true, true, true, true, true, true, true, true, true, true, true, true, true, true, true, true, true, true, true, true, true, true, true, true, true, true, true, true, true, true, true, true, true, true, true, true, true, true, true, true, true, true, true, true, true, true, true, true, true, true, true, true, true, true, true, true, true, true, true, true, true, true, true, true, true, true, true, true, true, true, true, true, true, true, true, true, true, true, true, true, true, true, true, true, true, true, true, true, true, true, true, true, true, true, true, true, true, true, true, true, true, true, true, true, true, true, true, true, true, true, true, true, true, true, true, true, true, true, true, true, true, true, true, true, true, true, true, true, true, true, true, true, true, true, true, true, true, true, true, true, true, true, true, true, true, true, true, true, true, true, true, true, true, true, true, true, true, true, true, true, true, true, true, true, true, true, true, true, true, true, true, true, true, true, true, true, true, true, true, true, true, true, true, true, true, true, true, true, true, true, true, true, true, true, true, true, true, true, true, true, true, true, true, true, true, true, true, true, true, true, true, true, true, true, true, true, true, true, true, true, true, true, true, true, true, true, true, true, true, true, true, true, true, true, true, true, true, true, true, true, true, true, true, true, true, true, true, true, true, true, true, true, true, true, true, true, true, true, true, true, true, true, true, true, true, true, true, true, true, true, true, true, true, true, true, true, true, true, true, true, true, true, true, true, true, true, true, true, true, true, true, true, true, true, true, true, true, true, true, true, true, true, true, true, true, true, true, true, true, true, true, true, true, true, true, true, true, true, true, true, true, true, true, true, true, true, true, true, true, true, true, true, true, true, true, true, true, true, true, true, true, true, true, true, true, true, true, true, true, true, true, true, true, true, true, true, true, true, true, true, true, true, true, true, true, true, true, true, true, true, true, true, true, true, true, true, true, true, true, true, true, true, true, true, true, true, true, true, true, true, true, true, true, true, true, true, true, true, true, true, true, true, true, true, true, true, true, true, true, true, true, true, true, true, true, true, true, true, true, true, true, true, true, true, true, true, true, true, true, true, true, true, true, true, true, true, true, true, true, true, true, true, true, true, true, true, true, true, true, true, true, true, true, true, true, true, true, true, true, true, true, true, true, true, true, true, true, true, true, true, true, true, true, true, true, true, true, true, true, true, true, true, true, true, true, true, true, true, true, true, true, true, true, true, true, true, true, true, true, true, true, true, true, true, true, true, true, true, true, true, true, true, true, true, true, true, true, true, true, true, true, true, true, true, true, true, true, true, true, true, true, true, true, true, true, true, true, true, true, true, true, true, true, true, true, true, true, true, true, true, true, true, true, true, true, true, true, true, true, true, true, true]


/-! ### Basic facts about the mixed-radix codec -/

theorem foldl_mul_eq (bs : List Nat) : ∀ a : Nat, bs.foldl (· * ·) a = a * bs.foldl (· * ·) 1 := by
  induction bs with
  | nil => intro a; simp
  | cons b bs ih =>
    intro a
    simp only [List.foldl_cons]
    rw [ih (a * b), ih (1 * b)]
    ring

theorem max_value_nil : max_value [] = 1 := rfl

theorem max_value_cons (b : Nat) (bs : List Nat) :
    max_value (b :: bs) = b * max_value bs := by
  simp only [max_value, List.foldl_cons]
  rw [foldl_mul_eq bs (1 * b)]
  ring

theorem max_value_pos (bases : List Nat) (h : ∀ b ∈ bases, 0 < b) :
    0 < max_value bases := by
  induction bases with
  | nil => simp [max_value_nil]
  | cons b bs ih =>
    rw [max_value_cons]
    exact Nat.mul_pos (h b (List.mem_cons_self b bs))
      (ih (fun x hx => h x (List.mem_cons_of_mem b hx)))

/-- The codec round-trip, decode after encode, as a reusable lemma. -/
theorem decode_encode (bases : List Nat) (hpos : ∀ b ∈ bases, 0 < b)
    (v : Nat) (hv : v < max_value bases) :
    decode_representation bases (encode_value bases v) = v := by
  induction bases generalizing v with
  | nil =>
    have : v = 0 := by
      have := hv; rw [max_value_nil] at this; omega
    simp [this, encode_value, decode_representation]
  | cons b bs ih =>
    have hb : 0 < b := hpos b (List.mem_cons_self b bs)
    have hbs : ∀ x ∈ bs, 0 < x := fun x hx => hpos x (List.mem_cons_of_mem b hx)
    have hdiv : v / b < max_value bs := by
      rw [max_value_cons] at hv
      exact Nat.div_lt_of_lt_mul (Nat.mul_comm b (max_value bs) ▸ hv)
    simp only [encode_value, decode_representation]
    rw [ih hbs (v / b) hdiv]
    exact Nat.mod_add_div v b

/-- Claim C7: Mixed-Radix Codec round-trip — for every sequence of positive
bases and every value `v` below the product of the bases,
`decode_representation (encode_value v)` equals `v`. -/
theorem C7_mixed_radix_roundtrip (bases : List Nat) (hpos : ∀ b ∈ bases, 0 < b)
    (v : Nat) (hv : v < max_value bases) :
    decode_representation bases (encode_value bases v) = v :=
  decode_encode bases hpos v hv

/-- Witness for C7 at a concrete input: bases `[5, 4, 3]`, value `54`
(the doc-comment example of `encode_value`). -/
theorem C7_mixed_radix_roundtrip_witness :
    (∀ b ∈ [5, 4, 3], 0 < b) ∧ 54 < max_value [5, 4, 3] ∧
      decode_representation [5, 4, 3] (encode_value [5, 4, 3] 54) = 54 :=
  ⟨by decide, by decide,
    C7_mixed_radix_roundtrip [5, 4, 3] (by decide) 54 (by decide)⟩

theorem encode_value_length (bases : List Nat) (v : Nat) :
    (encode_value bases v).length = bases.length := by
  induction bases generalizing v with
  | nil => rfl
  | cons b bs ih => simp [encode_value, ih]

theorem encode_value_lt (bases : List Nat) (hpos : ∀ b ∈ bases, 0 < b)
    (v : Nat) : List.Forall₂ (· < ·) (encode_value bases v) bases := by
  induction bases generalizing v with
  | nil => exact List.Forall₂.nil
  | cons b bs ih =>
    exact List.Forall₂.cons
      (Nat.mod_lt v (hpos b (List.mem_cons_self b bs)))
      (ih (fun x hx => hpos x (List.mem_cons_of_mem b hx)) (v / b))

theorem encode_value_mod (bases : List Nat) (v : Nat) :
    encode_value bases (v % max_value bases) = encode_value bases v := by
  induction bases generalizing v with
  | nil => rfl
  | cons b bs ih =>
    simp only [encode_value, max_value_cons, List.cons.injEq]
    constructor
    · rw [Nat.mod_mod_of_dvd v ⟨max_value bs, rfl⟩]
    · rw [Nat.mod_mul_right_div_self]
      exact ih (v / b)

theorem decode_representation_lt (bases ds : List Nat)
    (h : List.Forall₂ (· < ·) ds bases) :
    decode_representation bases ds < max_value bases := by
  induction h with
  | nil => simp [decode_representation, max_value_nil]
  | @cons d b ds bs hdb _ ih =>
    simp only [decode_representation, max_value_cons]
    calc d + b * decode_representation bs ds
        ≤ d + b * (max_value bs - 1) := by
          have : decode_representation bs ds ≤ max_value bs - 1 := by omega
          exact Nat.add_le_add_left (Nat.mul_le_mul_left b this) d
      _ < b * max_value bs := by
          have hmx : 0 < max_value bs := by omega
          have : b * (max_value bs - 1) + b = b * max_value bs := by
            rw [← Nat.mul_succ]
            congr 1
            omega
          omega

theorem encode_decode (bases ds : List Nat)
    (h : List.Forall₂ (· < ·) ds bases) :
    encode_value bases (decode_representation bases ds) = ds := by
  induction h with
  | nil => rfl
  | @cons d b ds bs hdb htl ih =>
    simp only [decode_representation, encode_value, List.cons.injEq]
    constructor
    · rw [Nat.add_mul_mod_self_left, Nat.mod_eq_of_lt hdb]
    · have : (d + b * decode_representation bs ds) / b =
          decode_representation bs ds := by
        rw [Nat.add_mul_div_left d _ (by omega : 0 < b), Nat.div_eq_of_lt hdb]
        omega
      rw [this]
      exact ih

/-! ### The slot-insertion loop of `value_to_perm` -/

/-- Per-step digit bounds for the insertion loop: each digit is smaller than
the current number of free slots, which shrinks by one at every step. -/
def fits : List Nat → Nat → Prop
  | [], _ => True
  | d :: ds, c => d < c ∧ fits ds (c - 1)

theorem freeSlotIdx_spec : ∀ (l : List Nat) (d i : Nat),
    freeSlotIdx l d = some i →
    i < l.length ∧ l[i]? = some 0 ∧ (l.take i).count 0 = d := by
  intro l
  induction l with
  | nil => intro d i h; simp [freeSlotIdx] at h
  | cons x xs ih =>
    intro d i h
    by_cases hx : x = 0
    · subst hx
      cases d with
      | zero =>
        have hi : i = 0 := by
          have h' : some 0 = some i := by simpa [freeSlotIdx] using h
          exact (Option.some_inj.mp h').symm
        subst hi
        exact ⟨by simp, by simp, by simp⟩
      | succ d =>
        have h' : (freeSlotIdx xs d).map (· + 1) = some i := by
          simpa [freeSlotIdx] using h
        rw [Option.map_eq_some'] at h'
        obtain ⟨i', hi', rfl⟩ := h'
        obtain ⟨h1, h2, h3⟩ := ih d i' hi'
        refine ⟨by simpa using h1, by simpa using h2, ?_⟩
        simp [List.take_succ_cons, List.count_cons, h3]
    · have h' : (freeSlotIdx xs d).map (· + 1) = some i := by
        simpa [freeSlotIdx, hx] using h
      rw [Option.map_eq_some'] at h'
      obtain ⟨i', hi', rfl⟩ := h'
      obtain ⟨h1, h2, h3⟩ := ih d i' hi'
      refine ⟨by simpa using h1, by simpa using h2, ?_⟩
      simp [List.take_succ_cons, List.count_cons, h3, hx]

theorem freeSlotIdx_isSome : ∀ (l : List Nat) (d : Nat), d < l.count 0 →
    ∃ i, freeSlotIdx l d = some i := by
  intro l
  induction l with
  | nil => intro d h; simp at h
  | cons x xs ih =>
    intro d h
    by_cases hx : x = 0
    · subst hx
      match d with
      | 0 => exact ⟨0, by simp [freeSlotIdx]⟩
      | d + 1 =>
        have : d < xs.count 0 := by
          simp [List.count_cons] at h
          omega
        obtain ⟨i, hi⟩ := ih d this
        exact ⟨i + 1, by simp [freeSlotIdx, hi]⟩
    · have : d < xs.count 0 := by
        simpa [List.count_cons, hx] using h
      obtain ⟨i, hi⟩ := ih d this
      exact ⟨i + 1, by simp [freeSlotIdx, hi, hx]⟩

/-- Two equally long lists have equal `countP`s when the predicates agree
position by position. -/
theorem countP_congr_pointwise {α β : Type} (p : α → Bool) (q : β → Bool) :
    ∀ (u : List α) (v : List β), u.length = v.length →
    (∀ (j : Nat) (x : α) (y : β), u[j]? = some x → v[j]? = some y → (p x = q y)) →
    u.countP p = v.countP q := by
  intro u
  induction u with
  | nil =>
    intro v hlen _
    have : v = [] := List.eq_nil_of_length_eq_zero hlen.symm
    subst this; rfl
  | cons x u ih =>
    intro v hlen hpt
    match v with
    | [] => simp at hlen
    | y :: v =>
      have h0 : p x = q y := hpt 0 x y (by simp) (by simp)
      have htl : u.countP p = v.countP q := by
        refine ih v (by simpa using hlen) ?_
        intro j a b ha hb
        exact hpt (j + 1) a b (by simpa using ha) (by simpa using hb)
      simp [List.countP_cons, h0, htl]

/-- Main specification of the insertion loop: inserting the consecutive
tokens `a, a+1, ...` with in-bound digits into the free (zero) slots of a
partial permutation succeeds; kept positions are preserved, every free slot
receives an inserted token, and each token `a+i` lands on a previously free
slot preceded by exactly `digit i` slots that receive tokens `≥ a+i`. -/
theorem insertTokens_spec : ∀ (D : List Nat) (a : Nat) (part : List Nat),
    0 < a → (∀ x ∈ part, x < a) → part.count 0 = D.length →
    fits D (part.count 0) →
    ∃ w, insertTokens ((List.range' a D.length).zip D) part = some w ∧
      w.length = part.length ∧
      (∀ (j x : Nat), part[j]? = some x → x ≠ 0 → w[j]? = some x) ∧
      (∀ (j : Nat), part[j]? = some 0 →
        ∃ y, w[j]? = some y ∧ a ≤ y ∧ y < a + D.length) ∧
      (∀ (i : Nat), i < D.length →
        ∃ j, w[j]? = some (a + i) ∧ part[j]? = some 0 ∧
          (w.take j).countP (fun y => a + i ≤ y) = D[i]?.getD 0) ∧
      (∀ (j y : Nat), w[j]? = some y →
        part[j]? = some y ∨ (part[j]? = some 0 ∧ a ≤ y ∧ y < a + D.length)) := by
  intro D
  induction D with
  | nil =>
    intro a part ha hmem hcount _
    refine ⟨part, by simp [List.range'_zero, insertTokens], rfl, ?_, ?_, ?_, ?_⟩
    · intro j x hj _; exact hj
    · intro j hj
      exfalso
      have h0 : (0 : Nat) ∈ part := List.mem_iff_getElem?.mpr ⟨j, hj⟩
      have := List.count_pos_iff.mpr h0
      simp only [List.length_nil] at hcount
      omega
    · intro i hi; simp at hi
    · intro j y hj; exact Or.inl hj
  | cons d ds ih =>
    intro a part ha hmem hcount hfits
    obtain ⟨hd, hds⟩ := hfits
    obtain ⟨idx, hidx⟩ := freeSlotIdx_isSome part d hd
    obtain ⟨hlt, hval, hcnt⟩ := freeSlotIdx_spec part d idx hidx
    have hvz : part[idx] = 0 := by
      obtain ⟨h, e⟩ := List.getElem?_eq_some_iff.mp hval
      exact e
    have hane : a ≠ 0 := by omega
    -- the updated partial permutation
    have hcount' : (part.set idx a).count 0 = ds.length := by
      rw [List.count_set a 0 part idx hlt]
      have h2 : (a == 0) = false := by simp [hane]
      simp only [List.length_cons] at hcount
      simp [hvz, h2]
      omega
    have hmem' : ∀ x ∈ part.set idx a, x < a + 1 := by
      intro x hx
      rcases List.mem_or_eq_of_mem_set hx with h | h
      · exact Nat.lt_succ_of_lt (hmem x h)
      · omega
    have hfits' : fits ds ((part.set idx a).count 0) := by
      rw [hcount']
      have : part.count 0 - 1 = ds.length := by
        simp only [List.length_cons] at hcount; omega
      rwa [this] at hds
    obtain ⟨w, hrun, hwlen, hpres, hzero, htok, hcomp⟩ :=
      ih (a + 1) (part.set idx a) (by omega) hmem' hcount' hfits'
    have hwlen' : w.length = part.length := by
      rw [hwlen, List.length_set]
    have hidxw : w[idx]? = some a := by
      apply hpres idx a _ hane
      exact List.getElem?_set_self hlt
    refine ⟨w, ?_, hwlen', ?_, ?_, ?_, ?_⟩
    · -- the run takes exactly this step
      have hrange : List.range' a (d :: ds).length =
          a :: List.range' (a + 1) ds.length := by
        simp [List.range'_succ]
      rw [hrange, List.zip_cons_cons, insertTokens, hidx]
      exact hrun
    · -- preserved positions
      intro j x hj hx
      have hne : idx ≠ j := by
        intro he; subst he
        rw [hval] at hj
        exact hx (by simpa using hj.symm)
      exact hpres j x (by rw [List.getElem?_set_ne hne]; exact hj) hx
    · -- formerly free positions receive tokens in range
      intro j hj
      by_cases he : j = idx
      · subst he
        exact ⟨a, hidxw, Nat.le_refl a, by simp only [List.length_cons]; omega⟩
      · have : (part.set idx a)[j]? = some 0 := by
          rw [List.getElem?_set_ne (fun h => he h.symm)]; exact hj
        obtain ⟨y, hy, h1, h2⟩ := hzero j this
        exact ⟨y, hy, by omega, by simp only [List.length_cons]; omega⟩
    · -- each token's landing position and digit
      intro i hi
      cases i with
      | zero =>
        refine ⟨idx, by simpa using hidxw, hval, ?_⟩
        have hq : (w.take idx).countP (fun y => a + 0 ≤ y) =
            (part.take idx).countP (fun y => y == 0) := by
          apply countP_congr_pointwise
          · rw [List.length_take, List.length_take, hwlen']
          · intro j x y hx hy
            have hjlt : j < idx := by
              by_contra hge
              rw [List.getElem?_take] at hx
              simp [hge] at hx
            have hx' : w[j]? = some x := by
              rw [List.getElem?_take, if_pos hjlt] at hx; exact hx
            have hy' : part[j]? = some y := by
              rw [List.getElem?_take, if_pos hjlt] at hy; exact hy
            have hne : j ≠ idx := by omega
            by_cases hy0 : y = 0
            · subst hy0
              have hset : (part.set idx a)[j]? = some 0 := by
                rw [List.getElem?_set_ne (fun h => hne h.symm)]; exact hy'
              obtain ⟨y', hy'', h1, h2⟩ := hzero j hset
              rw [hx'] at hy''
              have hxy : x = y' := by simpa using hy''
              subst hxy
              have hax : a ≤ x := by omega
              simp [hax]
            · have hwj : w[j]? = some y := by
                apply hpres j y _ hy0
                rw [List.getElem?_set_ne (fun h => hne h.symm)]; exact hy'
              rw [hx'] at hwj
              have hxy : x = y := by simpa using hwj
              subst hxy
              have hlt' : x < a := hmem x (List.mem_iff_getElem?.mpr ⟨j, hy'⟩)
              have hax : ¬ (a ≤ x) := by omega
              simp [hax, hy0]
        rw [hq]
        rw [← List.count_eq_countP]
        simpa using hcnt
      | succ i' =>
        have hi' : i' < ds.length := by simpa using hi
        obtain ⟨j, hj1, hj2, hj3⟩ := htok i' hi'
        have hne : j ≠ idx := by
          intro he; subst he
          rw [List.getElem?_set_self hlt] at hj2
          exact hane (by simpa using hj2)
        refine ⟨j, ?_, ?_, ?_⟩
        · have : a + (i' + 1) = a + 1 + i' := by omega
          rw [this]; exact hj1
        · rw [List.getElem?_set_ne (fun h => hne h.symm)] at hj2; exact hj2
        · have he : (fun y => decide (a + (i' + 1) ≤ y)) =
              (fun y => decide (a + 1 + i' ≤ y)) := by
            funext y
            have h : a + (i' + 1) = a + 1 + i' := by omega
            rw [h]
          rw [he]
          simpa using hj3
    · -- completeness of the description
      intro j y hj
      rcases hcomp j y hj with h | ⟨h0, h1, h2⟩
      · by_cases he : j = idx
        · subst he
          rw [List.getElem?_set_self hlt] at h
          have : y = a := by simpa using h.symm
          subst this
          exact Or.inr ⟨hval, Nat.le_refl _, by simp only [List.length_cons]; omega⟩
        · rw [List.getElem?_set_ne (fun hh => he hh.symm)] at h
          exact Or.inl h
      · have hne : j ≠ idx := by
          intro he; subst he
          rw [List.getElem?_set_self hlt] at h0
          exact hane (by simpa using h0)
        rw [List.getElem?_set_ne (fun hh => hne hh.symm)] at h0
        exact Or.inr ⟨h0, by omega, by simp only [List.length_cons]; omega⟩

/-! ### The mapper's mixed-radix system over the base sequence `1..=n` -/

theorem mapper_bases_range (n : Nat) :
    mapper_bases (List.range' 1 n) = (List.range' 1 n).reverse := by
  simp [mapper_bases, List.length_range']

theorem mapper_bases_length (core : List Nat) :
    (mapper_bases core).length = core.length := by
  simp [mapper_bases, List.length_range']

theorem mapper_bases_pos (core : List Nat) :
    ∀ b ∈ mapper_bases core, 0 < b := by
  intro b hb
  rw [mapper_bases, List.mem_reverse, List.mem_range'] at hb
  obtain ⟨i, _, rfl⟩ := hb
  omega

theorem max_value_eq_prod (bases : List Nat) : max_value bases = bases.prod := by
  induction bases with
  | nil => rfl
  | cons b bs ih => rw [max_value_cons, List.prod_cons, ih]

theorem range'_one_concat (n : Nat) :
    List.range' 1 (n + 1) = List.range' 1 n ++ [n + 1] := by
  have := @List.range'_concat 1 1 n
  simpa [Nat.add_comm] using this

theorem max_value_mapper (n : Nat) :
    max_value (mapper_bases (List.range' 1 n)) = Nat.factorial n := by
  rw [mapper_bases_range, max_value_eq_prod, List.prod_reverse]
  induction n with
  | zero => simp
  | succ n ih =>
    rw [range'_one_concat, List.prod_append, ih, List.prod_cons, List.prod_nil,
      Nat.factorial_succ]
    ring

/-- The digits of any encoded value fit the shrinking free-slot counts of the
insertion loop over the bases `[n, n-1, ..., 1]`. -/
theorem fits_encode : ∀ (n v : Nat),
    fits (encode_value ((List.range' 1 n).reverse) v) n := by
  intro n
  induction n with
  | zero => intro v; simp [encode_value, fits]
  | succ n ih =>
    intro v
    rw [range'_one_concat, List.reverse_append]
    simp only [List.reverse_cons, List.reverse_nil, List.nil_append,
      List.singleton_append, encode_value]
    exact ⟨Nat.mod_lt v (by omega), by simpa using ih (v / (n + 1))⟩

/-- `value_to_perm` over the base sequence `1..=n` is total for every value:
the digits of any encoding fit the free-slot counts, so the slot scan never
runs off the end.  The result holds tokens `1..n` only, and token `1+i`
lands on a slot preceded by exactly digit-`i` entries that are `≥ 1+i`. -/
theorem value_to_perm_spec (n v : Nat) :
    ∃ w, value_to_perm (List.range' 1 n) v = some w ∧
      w.length = n ∧
      (∀ (j y : Nat), w[j]? = some y → 1 ≤ y ∧ y < n + 1) ∧
      (∀ (i : Nat), i < n → ∃ j, w[j]? = some (1 + i) ∧
        (w.take j).countP (fun y => 1 + i ≤ y) =
          (encode_value (mapper_bases (List.range' 1 n)) v)[i]?.getD 0) := by
  set D := encode_value (mapper_bases (List.range' 1 n)) v with hD
  have hDlen : D.length = n := by
    rw [hD, encode_value_length, mapper_bases_length, List.length_range']
  have hcnt : (List.replicate n (0:Nat)).count 0 = D.length := by
    rw [hDlen]; simp
  have hfits : fits D ((List.replicate n (0:Nat)).count 0) := by
    rw [show (List.replicate n (0:Nat)).count 0 = n by simp]
    rw [hD, mapper_bases_range]
    exact fits_encode n v
  obtain ⟨w, hrun, hlen, hpres, hzero, htok, hcomp⟩ :=
    insertTokens_spec D 1 (List.replicate n 0) (by omega)
      (by intro x hx; have := List.eq_of_mem_replicate hx; omega)
      hcnt hfits
  have hlen' : w.length = n := by simpa using hlen
  refine ⟨w, ?_, hlen', ?_, ?_⟩
  · show insertTokens ((List.range' 1 n).zip D)
      (List.replicate (List.range' 1 n).length 0) = some w
    rw [List.length_range']
    rw [show List.range' 1 n = List.range' 1 D.length by rw [hDlen]]
    exact hrun
  · intro j y hj
    rcases hcomp j y hj with h | ⟨_, h1, h2⟩
    · exfalso
      have hy0 : y = 0 := by
        have := List.getElem?_eq_some_iff.mp h
        obtain ⟨hjl, he⟩ := this
        simpa using he.symm
      subst hy0
      obtain ⟨y', hy', h1, _⟩ := hzero j h
      rw [hj] at hy'
      have : (0:Nat) = y' := by simpa using hy'
      omega
    · refine ⟨h1, ?_⟩
      rw [hDlen] at h2
      omega
  · intro i hi
    obtain ⟨j, hj1, _, hj3⟩ := htok i (by omega)
    exact ⟨j, hj1, hj3⟩

/-- The permutation produced by `value_to_perm` over `1..=n` is a genuine
rearrangement of the base sequence. -/
theorem value_to_perm_isPerm (n v : Nat) (w : List Nat)
    (h : value_to_perm (List.range' 1 n) v = some w) :
    w.Perm (List.range' 1 n) := by
  obtain ⟨w', h', hlen, _, htok⟩ := value_to_perm_spec n v
  rw [h] at h'
  have hww : w = w' := by simpa using h'
  subst hww
  have hsub : List.range' 1 n ⊆ w := by
    intro t ht
    rw [List.mem_range'] at ht
    obtain ⟨i, hi, rfl⟩ := ht
    obtain ⟨j, hj, _⟩ := htok i hi
    exact List.mem_iff_getElem?.mpr ⟨j, by simpa using hj⟩
  have hsp := List.Nodup.subperm (List.nodup_range' 1 n) hsub
  exact (hsp.perm_of_length_le (by rw [hlen, List.length_range'])).symm

/-- Claim C10: `value_to_perm` over base sequence `1..=n` (`n ≥ 1`) is total
for every input value, including values `≥ n!` — the slot-scanning loops
never index past the output array — and agrees with the value reduced
mod `n!`, because `encode_value` only depends on the value mod `max_value`. -/
theorem C10_value_to_perm_total (n v : Nat) (_hn : 1 ≤ n) :
    (value_to_perm (List.range' 1 n) v).isSome = true ∧
    value_to_perm (List.range' 1 n) v =
      value_to_perm (List.range' 1 n) (v % Nat.factorial n) := by
  constructor
  · obtain ⟨w, hw, _⟩ := value_to_perm_spec n v
    rw [hw]; rfl
  · show _ = insertTokens ((List.range' 1 n).zip
      (encode_value (mapper_bases (List.range' 1 n)) (v % Nat.factorial n)))
      (List.replicate (List.range' 1 n).length 0)
    rw [← max_value_mapper n, encode_value_mod]
    rfl

/-- Witness for C10 at a concrete input: `n = 3`, `v = 10 ≥ 3! = 6`. -/
theorem C10_value_to_perm_total_witness :
    1 ≤ 3 ∧
    ((value_to_perm (List.range' 1 3) 10).isSome = true ∧
      value_to_perm (List.range' 1 3) 10 =
        value_to_perm (List.range' 1 3) (10 % Nat.factorial 3)) :=
  ⟨by decide, C10_value_to_perm_total 3 10 (by decide)⟩

/-! ### The token-locating scan of `perm_to_value` -/

theorem findToken_spec : ∀ (w : List Nat) (B : List Bool) (t s i : Nat),
    findToken w B t = some (s, i) →
    w[i]? = some t ∧ B[i]? = some false ∧ s = (B.take i).count false := by
  intro w
  induction w with
  | nil => intro B t s i h; simp [findToken] at h
  | cons x xs ih =>
    intro B t s i h
    match B with
    | [] => simp [findToken] at h
    | f :: fs =>
      by_cases hf : f = true
      · subst hf
        have h' : (findToken xs fs t).map (fun p => (p.1, p.2 + 1)) =
            some (s, i) := by simpa [findToken] using h
        rw [Option.map_eq_some'] at h'
        obtain ⟨⟨s', i'⟩, hfind, he⟩ := h'
        cases he
        obtain ⟨h1, h2, h3⟩ := ih fs t s' i' hfind
        exact ⟨by simpa using h1, by simpa using h2,
          by simp [List.take_succ_cons, List.count_cons, h3]⟩
      · have hf' : f = false := by simpa using hf
        subst hf'
        by_cases hx : x = t
        · subst hx
          have h' : some ((0 : Nat), (0 : Nat)) = some (s, i) := by
            simpa [findToken] using h
          have hsi : (0 : Nat) = s ∧ (0 : Nat) = i := by
            constructor
            · exact congrArg Prod.fst (Option.some_inj.mp h')
            · exact congrArg Prod.snd (Option.some_inj.mp h')
          obtain ⟨hs, hi⟩ := hsi
          subst hs; subst hi
          exact ⟨by simp, by simp, by simp⟩
        · have h' : (findToken xs fs t).map (fun p => (p.1 + 1, p.2 + 1)) =
              some (s, i) := by simpa [findToken, hx] using h
          rw [Option.map_eq_some'] at h'
          obtain ⟨⟨s', i'⟩, hfind, he⟩ := h'
          cases he
          obtain ⟨h1, h2, h3⟩ := ih fs t s' i' hfind
          exact ⟨by simpa using h1, by simpa using h2,
            by simp [List.take_succ_cons, List.count_cons, h3]⟩

theorem findToken_eq_some : ∀ (w : List Nat) (B : List Bool) (t i : Nat),
    w[i]? = some t → B[i]? = some false →
    (∀ j, j < i → B[j]? = some false → w[j]? ≠ some t) →
    findToken w B t = some ((B.take i).count false, i) := by
  intro w
  induction w with
  | nil => intro B t i h _ _; simp at h
  | cons x xs ih =>
    intro B t i hw hB hmin
    match B with
    | [] => simp at hB
    | f :: fs =>
      cases i with
      | zero =>
        have hx : x = t := by simpa using hw
        have hf : f = false := by simpa using hB
        subst hx; subst hf
        simp [findToken]
      | succ i =>
        have hw' : xs[i]? = some t := by simpa using hw
        have hB' : fs[i]? = some false := by simpa using hB
        by_cases hf : f = true
        · subst hf
          have hmin' : ∀ j, j < i → fs[j]? = some false → xs[j]? ≠ some t := by
            intro j hj hfs
            have := hmin (j + 1) (by omega) (by simpa using hfs)
            simpa using this
          have := ih fs t i hw' hB' hmin'
          simp [findToken, this, List.take_succ_cons, List.count_cons]
        · have hf' : f = false := by simpa using hf
          subst hf'
          have hxt : x ≠ t := by
            have := hmin 0 (by omega) (by simp)
            simpa using this
          have hmin' : ∀ j, j < i → fs[j]? = some false → xs[j]? ≠ some t := by
            intro j hj hfs
            have := hmin (j + 1) (by omega) (by simpa using hfs)
            simpa using this
          have := ih fs t i hw' hB' hmin'
          simp [findToken, hxt, this, List.take_succ_cons, List.count_cons]

/-- Scanning the tokens `a, a+1, ...` over a duplicate-free list `w` whose
filled flags mark exactly the entries `< a` succeeds, and the digit recorded
for token `a+i` counts the entries `≥ a+i` preceding its position. -/
theorem scanTokens_spec : ∀ (k a : Nat) (w : List Nat) (B : List Bool),
    B.length = w.length → w.Nodup →
    (∀ (j y : Nat), w[j]? = some y → B[j]? = some (decide (y < a))) →
    (∀ (i : Nat), i < k → (a + i) ∈ w) →
    ∃ S, scanTokens (List.range' a k) w B = some S ∧ S.length = k ∧
      (∀ (i j : Nat), i < k → w[j]? = some (a + i) →
        S[i]? = some ((w.take j).countP (fun y => a + i ≤ y))) := by
  intro k
  induction k with
  | zero =>
    intro a w B _ _ _ _
    exact ⟨[], by simp [scanTokens], rfl, by intro i j hi; omega⟩
  | succ k ih =>
    intro a w B hlen hnd hinv htok
    have ha : a ∈ w := by simpa using htok 0 (by omega)
    obtain ⟨q, hq⟩ := List.mem_iff_getElem?.mp ha
    have hqlt : q < w.length := (List.getElem?_eq_some_iff.mp hq).1
    have hBq : B[q]? = some false := by
      have := hinv q a hq
      simpa using this
    have huniq : ∀ j, w[j]? = some a → j = q := by
      intro j hj
      have hjlt : j < w.length := (List.getElem?_eq_some_iff.mp hj).1
      exact List.getElem?_inj hjlt hnd (hj.trans hq.symm)
    have hfind : findToken w B a = some ((B.take q).count false, q) := by
      apply findToken_eq_some w B a q hq hBq
      intro j hj hBj hwj
      exact absurd (huniq j hwj) (by omega)
    -- invariant for the next token
    have hinv' : ∀ (j y : Nat), w[j]? = some y →
        (B.set q true)[j]? = some (decide (y < a + 1)) := by
      intro j y hj
      by_cases hjq : j = q
      · have hy : y = a := by
          rw [hjq] at hj
          have := hj.symm.trans hq
          simpa using this
        subst hy
        rw [hjq, List.getElem?_set_self (by omega : q < B.length)]
        simp
      · rw [List.getElem?_set_ne (fun h => hjq h.symm)]
        have hy : y ≠ a := fun h => hjq (huniq j (h ▸ hj))
        have := hinv j y hj
        rw [this]
        congr 1
        exact decide_eq_decide.mpr (by omega)
    have htok' : ∀ (i : Nat), i < k → (a + 1 + i) ∈ w := by
      intro i hi
      have h1 := htok (i + 1) (by omega)
      have he : a + (i + 1) = a + 1 + i := by omega
      rwa [he] at h1
    obtain ⟨S', hrun', hlen', hspec'⟩ := ih (a + 1) w (B.set q true)
      (by rw [List.length_set]; exact hlen) hnd hinv' htok'
    refine ⟨(B.take q).count false :: S', ?_, by simpa using hlen', ?_⟩
    · simp [List.range'_succ, scanTokens, hfind, hrun']
    · intro i j hi hj
      cases i with
      | zero =>
        have hjq : j = q := huniq j (by simpa using hj)
        subst hjq
        have hcnt : (B.take j).count false =
            (w.take j).countP (fun y => a + 0 ≤ y) := by
          rw [List.count_eq_countP]
          apply countP_congr_pointwise
          · rw [List.length_take, List.length_take, hlen]
          · intro j' b y hb hy
            have hjlt' : j' < j := by
              by_contra hge
              rw [List.getElem?_take] at hb
              simp [hge] at hb
            have hb' : B[j']? = some b := by
              rw [List.getElem?_take, if_pos hjlt'] at hb; exact hb
            have hy' : w[j']? = some y := by
              rw [List.getElem?_take, if_pos hjlt'] at hy; exact hy
            have := hinv j' y hy'
            rw [hb'] at this
            have hbd : b = decide (y < a) := by simpa using this
            subst hbd
            by_cases hya : y < a
            · have h2 : ¬ (a + 0 ≤ y) := by omega
              simp [hya, h2]
            · have h2 : a + 0 ≤ y := by omega
              simp [hya, h2]
              omega
        simp only [List.getElem?_cons_zero]
        rw [hcnt]
      | succ i =>
        have hi' : i < k := by omega
        have hj' : w[j]? = some (a + 1 + i) := by
          have he : a + (i + 1) = a + 1 + i := by omega
          rw [he] at hj; exact hj
        have := hspec' i j hi' hj'
        simp only [List.getElem?_cons_succ]
        rw [this]
        congr 2
        funext y
        have he : a + (i + 1) = a + 1 + i := by omega
        rw [he]

/-- A successful scan locates every requested token inside the target. -/
theorem scanTokens_mem : ∀ (ts w : List Nat) (B : List Bool) (S : List Nat),
    scanTokens ts w B = some S → ∀ t ∈ ts, t ∈ w := by
  intro ts
  induction ts with
  | nil => intro w B S _ t ht; simp at ht
  | cons t0 ts ih =>
    intro w B S h t ht
    cases hf : findToken w B t0 with
    | none => simp [scanTokens, hf] at h
    | some p =>
      obtain ⟨s0, q⟩ := p
      simp only [scanTokens, hf, Option.map_eq_some'] at h
      obtain ⟨S', hS', _⟩ := h
      rcases List.mem_cons.mp ht with rfl | ht'
      · obtain ⟨h1, _, _⟩ := findToken_spec w B t s0 q hf
        exact List.mem_iff_getElem?.mpr ⟨q, h1⟩
      · exact ih w (B.set q true) S' hS' t ht'

theorem freeSlotIdx_eq_some : ∀ (l : List Nat) (i : Nat),
    l[i]? = some 0 → freeSlotIdx l ((l.take i).count 0) = some i := by
  intro l
  induction l with
  | nil => intro i h; simp at h
  | cons x xs ih =>
    intro i h
    cases i with
    | zero =>
      have hx : x = 0 := by simpa using h
      subst hx
      simp [freeSlotIdx]
    | succ i =>
      have h' : xs[i]? = some 0 := by simpa using h
      have hfs := ih i h'
      by_cases hx : x = 0
      · subst hx
        simp [List.take_succ_cons, List.count_cons, freeSlotIdx, hfs]
      · simp [List.take_succ_cons, List.count_cons, freeSlotIdx, hfs, hx]

/-- Reconstruction: inserting the tokens `a, a+1, ...` with the digits that
the scan records for a fixed permutation `w` rebuilds exactly `w`. -/
theorem insert_reconstruct : ∀ (k a : Nat) (w part S : List Nat),
    part.length = w.length →
    w.Nodup →
    (∀ (j y : Nat), w[j]? = some y → 0 < y ∧
      (y < a → part[j]? = some y) ∧ (a ≤ y → part[j]? = some 0 ∧ y < a + k)) →
    (∀ (i : Nat), i < k → (a + i) ∈ w) →
    S.length = k →
    (∀ (i j : Nat), i < k → w[j]? = some (a + i) →
      S[i]? = some ((w.take j).countP (fun y => a + i ≤ y))) →
    insertTokens ((List.range' a k).zip S) part = some w := by
  intro k
  induction k with
  | zero =>
    intro a w part S hlen hnd hinv _ hSlen _
    have hS : S = [] := List.eq_nil_of_length_eq_zero hSlen
    subst hS
    have hpw : part = w := by
      apply List.ext_getElem?
      intro j
      cases hw : w[j]? with
      | some y =>
        obtain ⟨hy0, hylt, hyge⟩ := hinv j y hw
        by_cases hya : y < a
        · rw [hylt hya]
        · exfalso
          obtain ⟨_, h2⟩ := hyge (by omega)
          omega
      | none =>
        have hj : w.length ≤ j := List.getElem?_eq_none_iff.mp hw
        exact List.getElem?_eq_none_iff.mpr (by omega)
    rw [hpw]
    simp [List.range'_zero, insertTokens]
  | succ k ih =>
    intro a w part S hlen hnd hinv htok hSlen hdig
    have ha : a ∈ w := by simpa using htok 0 (by omega)
    obtain ⟨q, hq⟩ := List.mem_iff_getElem?.mp ha
    have hqlt : q < w.length := (List.getElem?_eq_some_iff.mp hq).1
    have huniq : ∀ j, w[j]? = some a → j = q := by
      intro j hj
      have hjlt : j < w.length := (List.getElem?_eq_some_iff.mp hj).1
      exact List.getElem?_inj hjlt hnd (hj.trans hq.symm)
    have hpq : part[q]? = some 0 := by
      obtain ⟨_, _, hge⟩ := hinv q a hq
      exact (hge (Nat.le_refl a)).1
    -- the recorded first digit equals the zero count before `q` in `part`
    have hcnt : (part.take q).count 0 =
        (w.take q).countP (fun y => a + 0 ≤ y) := by
      rw [List.count_eq_countP]
      apply countP_congr_pointwise
      · rw [List.length_take, List.length_take, hlen]
      · intro j' x y hx hy
        have hjlt' : j' < q := by
          by_contra hge
          rw [List.getElem?_take] at hx
          simp [hge] at hx
        have hx' : part[j']? = some x := by
          rw [List.getElem?_take, if_pos hjlt'] at hx; exact hx
        have hy' : w[j']? = some y := by
          rw [List.getElem?_take, if_pos hjlt'] at hy; exact hy
        obtain ⟨hy0, hylt, hyge⟩ := hinv j' y hy'
        by_cases hya : y < a
        · have := hylt hya
          rw [hx'] at this
          have hxy : x = y := by simpa using this
          subst hxy
          have h1 : (x == 0) = false := by simp; omega
          have h2 : ¬ (a + 0 ≤ x) := by omega
          simp [h1, h2]
          omega
        · obtain ⟨h0, _⟩ := hyge (by omega)
          rw [hx'] at h0
          have hx0 : x = 0 := by simpa using h0
          subst hx0
          have h2 : a + 0 ≤ y := by omega
          simp [h2]
          omega
    cases S with
    | nil => simp at hSlen
    | cons s S' =>
      have hs : s = (w.take q).countP (fun y => a + 0 ≤ y) := by
        have := hdig 0 q (by omega) (by simpa using hq)
        simpa using this
      have hfree : freeSlotIdx part s = some q := by
        have := freeSlotIdx_eq_some part q hpq
        rw [hcnt] at this
        rw [hs]
        exact this
      -- invariant for the remaining tokens
      have hinv' : ∀ (j y : Nat), w[j]? = some y → 0 < y ∧
          (y < a + 1 → (part.set q a)[j]? = some y) ∧
          (a + 1 ≤ y → (part.set q a)[j]? = some 0 ∧ y < a + 1 + k) := by
        intro j y hj
        obtain ⟨hy0, hylt, hyge⟩ := hinv j y hj
        refine ⟨hy0, ?_, ?_⟩
        · intro hya
          by_cases hyea : y = a
          · subst hyea
            have hjq : j = q := huniq j hj
            subst hjq
            exact List.getElem?_set_self (by omega : j < part.length)
          · have hja : y < a := by omega
            have hjq : j ≠ q := by
              intro he; subst he
              have : y = a := by
                have := hj.symm.trans hq
                simpa using this
              omega
            rw [List.getElem?_set_ne (fun h => hjq h.symm)]
            exact hylt hja
        · intro hya
          have hjq : j ≠ q := by
            intro he; subst he
            have : y = a := by
              have := hj.symm.trans hq
              simpa using this
            omega
          obtain ⟨h0, h1⟩ := hyge (by omega)
          rw [List.getElem?_set_ne (fun h => hjq h.symm)]
          exact ⟨h0, by omega⟩
      have htok' : ∀ (i : Nat), i < k → (a + 1 + i) ∈ w := by
        intro i hi
        have h1 := htok (i + 1) (by omega)
        have he : a + (i + 1) = a + 1 + i := by omega
        rwa [he] at h1
      have hdig' : ∀ (i j : Nat), i < k → w[j]? = some (a + 1 + i) →
          S'[i]? = some ((w.take j).countP (fun y => a + 1 + i ≤ y)) := by
        intro i j hi hj
        have he : a + 1 + i = a + (i + 1) := by omega
        rw [he] at hj
        have := hdig (i + 1) j (by omega) hj
        simp only [List.getElem?_cons_succ] at this
        rw [this]
        congr 2
        funext y
        rw [he]
      have hrun := ih (a + 1) w (part.set q a) S'
        (by rw [List.length_set]; exact hlen) hnd hinv' htok'
        (by simpa using hSlen) hdig'
      have hrange : List.range' a (k + 1) = a :: List.range' (a + 1) k :=
        List.range'_succ a k 1
      rw [hrange, List.zip_cons_cons, insertTokens, hfree]
      exact hrun

/-! ### `perm_to_value` and `value_to_perm` as mutually inverse bijections -/

theorem countP_range'_ge (n i : Nat) :
    (List.range' 1 n).countP (fun y => 1 + i ≤ y) = n - i := by
  induction n with
  | zero => simp
  | succ n ih =>
    rw [range'_one_concat, List.countP_append, ih]
    by_cases h : 1 + i ≤ n + 1
    · simp [h]
      omega
    · simp [h]
      omega

/-- On a true permutation of `1..=n`, the scan of `perm_to_value` succeeds
and records, for token `1+i`, the number of larger-or-equal entries before
its position; `perm_to_value` returns the decoded digit list. -/
theorem perm_to_value_of_perm (n : Nat) (w : List Nat)
    (hw : w.Perm (List.range' 1 n)) :
    ∃ S, scanTokens (List.range' 1 n) w (List.replicate n false) = some S ∧
      S.length = n ∧
      (∀ (i j : Nat), i < n → w[j]? = some (1 + i) →
        S[i]? = some ((w.take j).countP (fun y => 1 + i ≤ y))) ∧
      perm_to_value (List.range' 1 n) w =
        some (decode_representation (mapper_bases (List.range' 1 n)) S) := by
  have hlen : w.length = n := by
    have := hw.length_eq; simpa using this
  have hnd : w.Nodup := hw.symm.nodup (List.nodup_range' 1 n)
  have hmem1 : ∀ (j y : Nat), w[j]? = some y → 1 ≤ y := by
    intro j y hj
    have hy : y ∈ w := List.mem_iff_getElem?.mpr ⟨j, hj⟩
    have := hw.mem_iff.mp hy
    rw [List.mem_range'] at this
    obtain ⟨i, _, rfl⟩ := this
    omega
  have hinv : ∀ (j y : Nat), w[j]? = some y →
      (List.replicate n false)[j]? = some (decide (y < 1)) := by
    intro j y hj
    have hjlt : j < w.length := (List.getElem?_eq_some_iff.mp hj).1
    have h1 := hmem1 j y hj
    have hd : decide (y < 1) = false := by simp; omega
    rw [hd, List.getElem?_replicate, if_pos (by omega)]
  have htok : ∀ (i : Nat), i < n → (1 + i) ∈ w := by
    intro i hi
    apply hw.mem_iff.mpr
    rw [List.mem_range']
    exact ⟨i, hi, by omega⟩
  obtain ⟨S, hrun, hSlen, hdig⟩ := scanTokens_spec n 1 w (List.replicate n false)
    (by simp [hlen]) hnd hinv htok
  refine ⟨S, hrun, hSlen, hdig, ?_⟩
  show (if w.length = (List.range' 1 n).length then
      (scanTokens (List.range' 1 n) w
        (List.replicate (List.range' 1 n).length false)).map
        (decode_representation (mapper_bases (List.range' 1 n)))
    else none) = _
  rw [List.length_range', if_pos hlen, hrun]
  rfl

/-- The digits recorded by the scan are strictly below the mapper's bases. -/
theorem scan_digits_lt (n : Nat) (w : List Nat) (hw : w.Perm (List.range' 1 n))
    (S : List Nat) (hSlen : S.length = n)
    (hdig : ∀ (i j : Nat), i < n → w[j]? = some (1 + i) →
      S[i]? = some ((w.take j).countP (fun y => 1 + i ≤ y))) :
    List.Forall₂ (· < ·) S (mapper_bases (List.range' 1 n)) := by
  rw [List.forall₂_iff_get]
  have hblen : (mapper_bases (List.range' 1 n)).length = n := by
    rw [mapper_bases_length, List.length_range']
  refine ⟨by rw [hSlen, hblen], ?_⟩
  intro i h1 h2
  have hin : i < n := by omega
  -- the base at position i is n - i
  have hbase? : (mapper_bases (List.range' 1 n))[i]? = some (n - i) := by
    rw [mapper_bases_range]
    rw [List.getElem?_reverse (by simpa [List.length_range'] using hin)]
    rw [List.length_range']
    rw [List.getElem?_range' 1 1 (by omega : n - 1 - i < n)]
    congr 1
    omega
  have hbase : (mapper_bases (List.range' 1 n)).get ⟨i, h2⟩ = n - i := by
    have hg := List.getElem?_eq_getElem h2
    rw [hbase?] at hg
    rw [List.get_eq_getElem]
    exact (Option.some_inj.mp hg).symm
  -- the position of token 1 + i in w
  have hmem : (1 + i) ∈ w := by
    apply hw.mem_iff.mpr
    rw [List.mem_range']
    exact ⟨i, hin, by omega⟩
  obtain ⟨j, hj⟩ := List.mem_iff_getElem?.mp hmem
  have hjlt : j < w.length := (List.getElem?_eq_some_iff.mp hj).1
  have hSi := hdig i j hin hj
  have hSget : S.get ⟨i, h1⟩ = (w.take j).countP (fun y => 1 + i ≤ y) := by
    have : S[i]? = some (S.get ⟨i, h1⟩) := by
      rw [List.get_eq_getElem, List.getElem?_eq_getElem h1]
    rw [this] at hSi
    simpa using hSi
  rw [hSget, hbase]
  -- count in the prefix is strictly below the total count n - i
  have htotal : w.countP (fun y => 1 + i ≤ y) = n - i := by
    rw [hw.countP_eq, countP_range'_ge]
  have hsplit : w.countP (fun y => 1 + i ≤ y) =
      (w.take j).countP (fun y => 1 + i ≤ y) +
      (w.drop j).countP (fun y => 1 + i ≤ y) := by
    conv_lhs => rw [← List.take_append_drop j w]
    rw [List.countP_append]
  have hdrop : 1 ≤ (w.drop j).countP (fun y => 1 + i ≤ y) := by
    rw [List.drop_eq_getElem_cons hjlt]
    have hwj : w[j] = 1 + i := by
      have := List.getElem?_eq_some_iff.mp hj
      exact this.2
    rw [List.countP_cons, hwj]
    simp
  omega

/-- The mapper round-trip, reusable form: `perm_to_value` after
`value_to_perm` recovers any value below `n!`. -/
theorem perm_value_roundtrip (n v : Nat) (hv : v < Nat.factorial n) :
    (value_to_perm (List.range' 1 n) v).bind
      (perm_to_value (List.range' 1 n)) = some v := by
  obtain ⟨w, hrun, hwlen, hrange, htokpos⟩ := value_to_perm_spec n v
  have hw : w.Perm (List.range' 1 n) := value_to_perm_isPerm n v w hrun
  obtain ⟨S, hscan, hSlen, hdig, hptv⟩ := perm_to_value_of_perm n w hw
  set D := encode_value (mapper_bases (List.range' 1 n)) v with hD
  have hDlen : D.length = n := by
    rw [hD, encode_value_length, mapper_bases_length, List.length_range']
  have hnd : w.Nodup := hw.symm.nodup (List.nodup_range' 1 n)
  -- the scanned digits equal the encoded digits
  have hSD : S = D := by
    apply List.ext_getElem?
    intro i
    by_cases hi : i < n
    · obtain ⟨j, hj, hcount⟩ := htokpos i hi
      have h1 := hdig i j hi hj
      have h2 : D[i]? = some (D[i]?.getD 0) := by
        have : i < D.length := by omega
        rw [List.getElem?_eq_getElem this]
        simp
      rw [h1, h2, hcount]
    · rw [List.getElem?_eq_none_iff.mpr (by omega),
        List.getElem?_eq_none_iff.mpr (by omega)]
  rw [hrun]
  show perm_to_value (List.range' 1 n) w = some v
  rw [hptv, hSD, hD]
  rw [decode_encode _ (mapper_bases_pos _) v
    (by rw [max_value_mapper]; exact hv)]

/-- Claim C6: Permutation Mapper round-trip — for the mapper over base
sequence `1..=n` and every value `v` in `[0, n!)`,
`perm_to_value (value_to_perm v)` returns `Some v`. -/
theorem C6_perm_mapper_roundtrip (n v : Nat) (hv : v < Nat.factorial n) :
    (value_to_perm (List.range' 1 n) v).bind
      (perm_to_value (List.range' 1 n)) = some v :=
  perm_value_roundtrip n v hv

/-- Witness for C6 at a concrete input: `n = 4`, `v = 17 < 4! = 24`. -/
theorem C6_perm_mapper_roundtrip_witness :
    17 < Nat.factorial 4 ∧
      (value_to_perm (List.range' 1 4) 17).bind
        (perm_to_value (List.range' 1 4)) = some 17 :=
  ⟨by decide, C6_perm_mapper_roundtrip 4 17 (by decide)⟩

/-- Full characterization of a successful `perm_to_value`: the input is a
permutation of the base sequence, the value is below `n!`, and
`value_to_perm` maps it back to the input. -/
theorem perm_to_value_success (n : Nat) (w : List Nat) (v : Nat)
    (h : perm_to_value (List.range' 1 n) w = some v) :
    w.Perm (List.range' 1 n) ∧ v < Nat.factorial n ∧
      value_to_perm (List.range' 1 n) v = some w := by
  have hlen : w.length = n := by
    by_contra hne
    rw [perm_to_value, if_neg (by simpa using hne)] at h
    simp at h
  have hscan : ∃ S, scanTokens (List.range' 1 n) w (List.replicate n false) =
      some S := by
    rw [perm_to_value, if_pos (by simpa using hlen)] at h
    cases hS : scanTokens (List.range' 1 n) w
        (List.replicate (List.range' 1 n).length false) with
    | none => rw [hS] at h; simp at h
    | some S =>
      refine ⟨S, ?_⟩
      rw [show List.replicate n false =
        List.replicate (List.range' 1 n).length false by simp]
      exact hS
  obtain ⟨S, hS⟩ := hscan
  have hw : w.Perm (List.range' 1 n) := by
    have hsub : List.range' 1 n ⊆ w := fun t ht =>
      scanTokens_mem (List.range' 1 n) w (List.replicate n false) S hS t ht
    have hsp := List.Nodup.subperm (List.nodup_range' 1 n) hsub
    exact (hsp.perm_of_length_le (by rw [hlen, List.length_range'])).symm
  obtain ⟨S', hscan', hSlen, hdig, hptv⟩ := perm_to_value_of_perm n w hw
  have hSS : S = S' := by
    have h2 := hscan'.symm.trans hS
    exact (Option.some_inj.mp h2).symm
  subst hSS
  have hvS : v = decode_representation (mapper_bases (List.range' 1 n)) S := by
    have := h.symm.trans hptv
    simpa using this
  have hlt := scan_digits_lt n w hw S hSlen hdig
  have hvmax : v < Nat.factorial n := by
    rw [hvS, ← max_value_mapper n]
    exact decode_representation_lt _ _ hlt
  refine ⟨hw, hvmax, ?_⟩
  -- rebuild the permutation from the recorded digits
  have hencode : encode_value (mapper_bases (List.range' 1 n)) v = S := by
    rw [hvS]
    exact encode_decode _ _ hlt
  show insertTokens ((List.range' 1 n).zip
      (encode_value (mapper_bases (List.range' 1 n)) v))
      (List.replicate (List.range' 1 n).length 0) = some w
  rw [hencode, List.length_range']
  apply insert_reconstruct n 1 w (List.replicate n 0) S
  · simp [hlen]
  · exact hw.symm.nodup (List.nodup_range' 1 n)
  · intro j y hj
    have hy : y ∈ w := List.mem_iff_getElem?.mpr ⟨j, hj⟩
    have hyr := hw.mem_iff.mp hy
    rw [List.mem_range'] at hyr
    obtain ⟨i, hi, rfl⟩ := hyr
    have hjlt : j < w.length := (List.getElem?_eq_some_iff.mp hj).1
    refine ⟨by omega, by intro hc; omega, ?_⟩
    intro _
    constructor
    · rw [List.getElem?_replicate, if_pos (by omega)]
    · omega
  · intro i hi
    apply hw.mem_iff.mpr
    rw [List.mem_range']
    exact ⟨i, hi, by omega⟩
  · exact hSlen
  · exact hdig

/-! ### `possible_values_for` on full-length windows -/

theorem encode_ones : ∀ (m v : Nat),
    encode_value (List.replicate m 1) v = List.replicate m 0 := by
  intro m
  induction m with
  | zero => intro v; rfl
  | succ m ih =>
    intro v
    simp only [List.replicate_succ, encode_value, Nat.mod_one, ih]

theorem zip_self_sub (l : List Nat) :
    (l.zip l).map (fun p => p.1 + 1 - p.2) = List.replicate l.length 1 := by
  induction l with
  | nil => rfl
  | cons x xs ih => simp [List.zip_cons_cons, ih, List.replicate_succ]

theorem zip_zero_add (l : List Nat) :
    ((l.zip (List.replicate l.length 0)).map (fun p => p.1 + p.2)) = l := by
  induction l with
  | nil => rfl
  | cons x xs ih => simp [List.replicate_succ, List.zip_cons_cons, ih]

/-- On a full-length window the range query degenerates: it returns the
single matching value when the window is a permutation of the base sequence
and nothing otherwise. -/
theorem possible_values_full (n : Nat) (hn : 1 ≤ n) (w : List Nat)
    (hw : w.length = n) :
    possible_values_for (List.range' 1 n) w =
      match perm_to_value (List.range' 1 n) w with
      | some v => [v]
      | none => [] := by
  have hwne : ¬ w.length = 0 := by omega
  cases hpv : perm_to_value (List.range' 1 n) w with
  | some v =>
    obtain ⟨hperm, hvlt, _⟩ := perm_to_value_success n w v hpv
    have hleft : (List.range' 1 n).filter (fun x => ¬ w.contains x) = [] := by
      rw [List.filter_eq_nil_iff]
      intro a ha
      have hmem : a ∈ w := hperm.mem_iff.mpr ha
      simp [List.elem_iff, hmem]
    simp only [possible_values_for, if_neg hwne, hleft, List.reverse_nil,
      List.append_nil, hpv]
    set E := encode_value (mapper_bases (List.range' 1 n)) v with hE
    have hElen : E.length = n := by
      rw [hE, encode_value_length, mapper_bases_length, List.length_range']
    rw [zip_self_sub E]
    have h1 : max_value (List.replicate E.length 1) = 1 := by
      rw [max_value_eq_prod, List.prod_replicate, one_pow]
    rw [h1]
    rw [show List.range 1 = [0] from rfl, List.map_singleton]
    rw [encode_ones, zip_zero_add]
    rw [hE, decode_encode _ (mapper_bases_pos _) v
      (by rw [max_value_mapper]; exact hvlt)]
  | none =>
    have hleft : (List.range' 1 n).filter (fun x => ¬ w.contains x) ≠ [] := by
      intro hnil
      have hsub : List.range' 1 n ⊆ w := by
        intro a ha
        have := List.filter_eq_nil_iff.mp hnil a ha
        simpa [List.elem_iff] using this
      have hsp := List.Nodup.subperm (List.nodup_range' 1 n) hsub
      have hperm := (hsp.perm_of_length_le
        (by rw [hw, List.length_range'])).symm
      obtain ⟨S, _, _, _, hptv⟩ := perm_to_value_of_perm n w hperm
      rw [hpv] at hptv
      simp at hptv
    have hlen2 : (w ++ (List.range' 1 n).filter
        (fun x => ¬ w.contains x)).length ≠ (List.range' 1 n).length := by
      rw [List.length_append, List.length_range', hw]
      have : 0 < ((List.range' 1 n).filter (fun x => ¬ w.contains x)).length := by
        cases hc : (List.range' 1 n).filter (fun x => ¬ w.contains x) with
        | nil => exact absurd hc hleft
        | cons a l => simp
      omega
    have hnone : perm_to_value (List.range' 1 n)
        (w ++ (List.range' 1 n).filter (fun x => ¬ w.contains x)) = none := by
      rw [perm_to_value, if_neg hlen2]
    simp only [possible_values_for, if_neg hwne, hnone]

/-! ### The naive strategy's permutation enumeration -/

theorem selections_mem : ∀ (l : List Nat) (x : Nat) (r : List Nat),
    (x, r) ∈ selections l ↔ ∃ l1 l2, l = l1 ++ x :: l2 ∧ r = l1 ++ l2 := by
  intro l
  induction l with
  | nil => intro x r; simp [selections]
  | cons a as ih =>
    intro x r
    simp only [selections, List.mem_cons, List.mem_map]
    constructor
    · rintro (he | ⟨⟨x', r'⟩, hmem, he⟩)
      · obtain ⟨h1, h2⟩ := Prod.mk.inj he
        refine ⟨[], r, ?_, by simp⟩
        rw [List.nil_append, h1, h2]
      · dsimp only at he
        obtain ⟨h1, h2⟩ := Prod.mk.inj he
        obtain ⟨l1, l2, ha, hr⟩ := (ih x' r').mp hmem
        refine ⟨a :: l1, l2, ?_, ?_⟩
        · rw [← h1]
          simp [ha]
        · rw [← h2, hr]
          rfl
    · rintro ⟨l1, l2, ha, hr⟩
      cases l1 with
      | nil =>
        left
        simp only [List.nil_append] at ha hr
        injection ha with h1 h2
        subst h1
        rw [hr, ← h2]
      | cons b l1' =>
        right
        simp only [List.cons_append] at ha
        injection ha with h1 h2
        subst h1
        refine ⟨(x, l1' ++ l2), (ih x (l1' ++ l2)).mpr ⟨l1', l2, h2, rfl⟩, ?_⟩
        simp [hr]

theorem selections_length {l : List Nat} {x : Nat} {r : List Nat}
    (h : (x, r) ∈ selections l) : r.length + 1 = l.length := by
  obtain ⟨l1, l2, ha, hr⟩ := (selections_mem l x r).mp h
  rw [ha, hr]
  simp
  omega

theorem mem_permsAux : ∀ (fuel : Nat) (l : List Nat), l.length = fuel →
    ∀ p, p ∈ permsAux fuel l ↔ p.Perm l := by
  intro fuel
  induction fuel with
  | zero =>
    intro l hl p
    have : l = [] := List.eq_nil_of_length_eq_zero hl
    subst this
    simp [permsAux, List.perm_nil]
  | succ fuel ih =>
    intro l hl p
    simp only [permsAux, List.mem_flatMap, List.mem_map]
    constructor
    · rintro ⟨⟨x, r⟩, hsel, q, hq, rfl⟩
      dsimp only at hsel hq ⊢
      have hrlen : r.length = fuel := by
        have := selections_length hsel
        omega
      have hqr : q.Perm r := (ih r hrlen q).mp hq
      obtain ⟨l1, l2, ha, hr⟩ := (selections_mem l x r).mp hsel
      rw [ha]
      have h1 : (x :: q).Perm (x :: (l1 ++ l2)) := by
        rw [← hr]; exact hqr.cons x
      exact h1.trans List.perm_middle.symm
    · intro hp
      cases p with
      | nil =>
        exfalso
        have := hp.length_eq
        simp at this
        omega
      | cons x q =>
        have hx : x ∈ l := hp.mem_iff.mp (by simp)
        obtain ⟨l1, l2, rfl⟩ := List.append_of_mem hx
        have hq : q.Perm (l1 ++ l2) := by
          have h1 : (x :: q).Perm (x :: (l1 ++ l2)) := hp.trans List.perm_middle
          exact h1.cons_inv
        have hrlen : (l1 ++ l2).length = fuel := by
          have h2 := hl
          simp at h2 ⊢
          omega
        exact ⟨(x, l1 ++ l2),
          (selections_mem _ x _).mpr ⟨l1, l2, rfl, rfl⟩,
          q, (ih _ hrlen q).mpr hq, rfl⟩

theorem mem_generate_perms (n : Nat) (p : List Nat) :
    p ∈ generate_perms n ↔ p.Perm (List.range' 1 n) := by
  exact mem_permsAux n (List.range' 1 n) (List.length_range' 1 1 n) p

/-! ### Checklist marking and the final all-true test -/

theorem setChecked_length (cl : List Bool) (v : Nat) :
    (setChecked cl v).length = cl.length := by
  rw [setChecked]
  split
  · rw [List.length_set]
  · rfl

theorem setChecked_true_iff (cl : List Bool) (v j : Nat) :
    (setChecked cl v)[j]? = some true ↔
      cl[j]? = some true ∨ (j = v ∧ j < cl.length) := by
  rw [setChecked]
  split
  · rw [List.getElem?_set]
    split
    · rename_i hvj
      subst hvj
      constructor
      · intro h
        rename_i hvl
        exact Or.inr ⟨rfl, hvl⟩
      · intro _
        rename_i hvl
        simp [hvl]
    · rename_i hvj
      constructor
      · intro h; exact Or.inl h
      · rintro (h | ⟨he, _⟩)
        · exact h
        · exact absurd he.symm hvj
  · rename_i hvl
    constructor
    · intro h; exact Or.inl h
    · rintro (h | ⟨he, hlt⟩)
      · exact h
      · subst he; omega

theorem markAll_length (cl : List Bool) (vs : List Nat) :
    (markAll cl vs).length = cl.length := by
  induction vs generalizing cl with
  | nil => rfl
  | cons v vs ih =>
    show (markAll (setChecked cl v) vs).length = cl.length
    rw [ih, setChecked_length]

theorem markAll_true_iff (vs : List Nat) : ∀ (cl : List Bool) (j : Nat),
    (markAll cl vs)[j]? = some true ↔
      cl[j]? = some true ∨ (j ∈ vs ∧ j < cl.length) := by
  induction vs with
  | nil => intro cl j; simp [markAll]
  | cons v vs ih =>
    intro cl j
    show (markAll (setChecked cl v) vs)[j]? = some true ↔ _
    rw [ih, setChecked_true_iff, setChecked_length]
    constructor
    · rintro ((h | ⟨he, hlt⟩) | ⟨hmem, hlt⟩)
      · exact Or.inl h
      · exact Or.inr ⟨by simp [he], hlt⟩
      · exact Or.inr ⟨by simp [hmem], hlt⟩
    · rintro (h | ⟨hmem, hlt⟩)
      · exact Or.inl (Or.inl h)
      · rcases List.mem_cons.mp hmem with he | hmem'
        · exact Or.inl (Or.inr ⟨he, hlt⟩)
        · exact Or.inr ⟨hmem', hlt⟩

theorem all_true_iff (cl : List Bool) :
    (cl.all (fun b => b)) = true ↔
      ∀ j, j < cl.length → cl[j]? = some true := by
  induction cl with
  | nil => simp
  | cons b bs ih =>
    simp only [List.all_cons, Bool.and_eq_true, ih]
    constructor
    · rintro ⟨hb, htl⟩ j hj
      cases j with
      | zero => simpa using hb
      | succ j =>
        rw [List.getElem?_cons_succ]
        exact htl j (by simpa using hj)
    · intro h
      refine ⟨by simpa using h 0 (by simp), ?_⟩
      intro j hj
      have := h (j + 1) (by simpa using hj)
      simpa using this

theorem markMatches_length : ∀ (perms : List (List Nat)) (w : List Nat)
    (pos : Nat) (cl : List Bool),
    (markMatches perms w pos cl).length = cl.length := by
  intro perms
  induction perms with
  | nil => intro w pos cl; rfl
  | cons p ps ih =>
    intro w pos cl
    show (markMatches _ _ _ _).length = _
    rw [markMatches]
    split
    · rw [ih, setChecked_length]
    · rw [ih]

theorem markMatches_true_iff : ∀ (perms : List (List Nat)) (w : List Nat)
    (pos : Nat) (cl : List Bool) (j : Nat),
    (markMatches perms w pos cl)[j]? = some true ↔
      cl[j]? = some true ∨
        (∃ (i : Nat), perms[i]? = some w ∧ j = pos + i ∧ j < cl.length) := by
  intro perms
  induction perms with
  | nil =>
    intro w pos cl j
    simp [markMatches]
  | cons p ps ih =>
    intro w pos cl j
    rw [markMatches]
    split
    · rename_i hpw
      subst hpw
      rw [ih, setChecked_true_iff, setChecked_length]
      constructor
      · rintro ((h | ⟨he, hlt⟩) | ⟨i, h1, h2, hlt⟩)
        · exact Or.inl h
        · exact Or.inr ⟨0, by simp, by omega, hlt⟩
        · exact Or.inr ⟨i + 1, by simpa using h1, by omega, hlt⟩
      · rintro (h | ⟨i, h1, h2, hlt⟩)
        · exact Or.inl (Or.inl h)
        · cases i with
          | zero => exact Or.inl (Or.inr ⟨by omega, hlt⟩)
          | succ i =>
            exact Or.inr ⟨i, by simpa using h1, by omega, hlt⟩
    · rename_i hpw
      rw [ih]
      constructor
      · rintro (h | ⟨i, h1, h2, hlt⟩)
        · exact Or.inl h
        · exact Or.inr ⟨i + 1, by simpa using h1, by omega, hlt⟩
      · rintro (h | ⟨i, h1, h2, hlt⟩)
        · exact Or.inl h
        · cases i with
          | zero =>
            exfalso
            have : p = w := by simpa using h1
            exact hpw this
          | succ i =>
            exact Or.inr ⟨i, by simpa using h1, by omega, hlt⟩

theorem naiveCheckLoop_length : ∀ (perms ws : List (List Nat)) (cl : List Bool),
    (naiveCheckLoop perms ws cl).length = cl.length := by
  intro perms ws
  induction ws generalizing perms with
  | nil => intro cl; rfl
  | cons w ws ih =>
    intro cl
    show (naiveCheckLoop _ _ _).length = _
    rw [naiveCheckLoop, ih, markMatches_length]

theorem naiveCheckLoop_true_iff (perms : List (List Nat)) :
    ∀ (ws : List (List Nat)) (cl : List Bool) (j : Nat),
    (naiveCheckLoop perms ws cl)[j]? = some true ↔
      cl[j]? = some true ∨
        ((∃ w ∈ ws, perms[j]? = some w) ∧ j < cl.length) := by
  intro ws
  induction ws with
  | nil => intro cl j; simp [naiveCheckLoop]
  | cons w ws ih =>
    intro cl j
    rw [naiveCheckLoop, ih, markMatches_true_iff, markMatches_length]
    constructor
    · rintro ((h | ⟨i, h1, h2, hlt⟩) | ⟨⟨w', hw', h3⟩, hlt⟩)
      · exact Or.inl h
      · exact Or.inr ⟨⟨w, by simp, by rw [h2]; simpa using h1⟩, hlt⟩
      · exact Or.inr ⟨⟨w', by simp [hw'], h3⟩, hlt⟩
    · rintro (h | ⟨⟨w', hw', h3⟩, hlt⟩)
      · exact Or.inl (Or.inl h)
      · rcases List.mem_cons.mp hw' with rfl | hw''
        · exact Or.inl (Or.inr ⟨j, h3, by omega, hlt⟩)
        · exact Or.inr ⟨⟨w', hw'', h3⟩, hlt⟩

theorem optCheckLoop_length (core : List Nat) :
    ∀ (ws : List (List Nat)) (cl : List Bool),
    (optCheckLoop core ws cl).length = cl.length := by
  intro ws
  induction ws with
  | nil => intro cl; rfl
  | cons w ws ih =>
    intro cl
    rw [optCheckLoop, ih, markAll_length]

theorem optCheckLoop_true_iff (core : List Nat) :
    ∀ (ws : List (List Nat)) (cl : List Bool) (j : Nat),
    (optCheckLoop core ws cl)[j]? = some true ↔
      cl[j]? = some true ∨
        ((∃ w ∈ ws, j ∈ possible_values_for core w) ∧ j < cl.length) := by
  intro ws
  induction ws with
  | nil => intro cl j; simp [optCheckLoop]
  | cons w ws ih =>
    intro cl j
    rw [optCheckLoop, ih, markAll_true_iff, markAll_length]
    constructor
    · rintro ((h | ⟨hmem, hlt⟩) | ⟨⟨w', hw', h3⟩, hlt⟩)
      · exact Or.inl h
      · exact Or.inr ⟨⟨w, by simp, hmem⟩, hlt⟩
      · exact Or.inr ⟨⟨w', by simp [hw'], h3⟩, hlt⟩
    · rintro (h | ⟨⟨w', hw', h3⟩, hlt⟩)
      · exact Or.inl (Or.inl h)
      · rcases List.mem_cons.mp hw' with rfl | hw''
        · exact Or.inl (Or.inr ⟨h3, hlt⟩)
        · exact Or.inr ⟨⟨w', hw'', h3⟩, hlt⟩

/-! ### Windows -/

theorem mem_windows_length (k : Nat) (s w : List Nat) (hk : k ≤ s.length)
    (hw : w ∈ windows k s) : w.length = k := by
  rw [windows, List.mem_map] at hw
  obtain ⟨i, hi, rfl⟩ := hw
  rw [List.mem_range] at hi
  rw [List.length_take, List.length_drop]
  omega

/-! ### Characterizations of the two check functions -/

/-- The optimized check succeeds exactly when every index value below `n!`
is consistent with some window of the sequence. -/
theorem opt_check_iff (s : List Nat) (n : Nat) :
    opt_check_superperm s n = true ↔
      ∀ v, v < Nat.factorial n →
        ∃ w ∈ windows n s, v ∈ possible_values_for (List.range' 1 n) w := by
  have hcl : (List.range' 1 n).length = n := List.length_range' 1 1 n
  have hunf : opt_check_superperm s n =
      ((optCheckLoop (List.range' 1 n) (windows (List.range' 1 n).length s)
        (List.replicate (max_value (mapper_bases (List.range' 1 n))) false)).all
        (fun b => b)) := rfl
  rw [hunf, hcl, max_value_mapper, all_true_iff]
  simp only [optCheckLoop_length, List.length_replicate]
  constructor
  · intro h v hv
    have h2 := h v hv
    rw [optCheckLoop_true_iff] at h2
    rcases h2 with hfalse | ⟨hex, _⟩
    · rw [List.getElem?_replicate] at hfalse
      simp [hv] at hfalse
    · exact hex
  · intro h j hj
    rw [optCheckLoop_true_iff]
    exact Or.inr ⟨h j hj, by simpa using hj⟩

/-- The naive check (on a sequence long enough to have windows) succeeds
exactly when every generated permutation appears as a window. -/
theorem naive_check_iff (s : List Nat) (n : Nat) (hlen : n ≤ s.length) :
    naive_check_superperm s n = some true ↔
      ∀ p ∈ generate_perms n, ∃ w ∈ windows n s, w = p := by
  have hunf : naive_check_superperm s n =
      if s.length < n then none else
        some ((naiveCheckLoop (generate_perms n) (windows n s)
          (List.replicate (generate_perms n).length false)).all
          (fun b => b)) := rfl
  rw [hunf, if_neg (by omega), Option.some_inj, all_true_iff]
  simp only [naiveCheckLoop_length, List.length_replicate]
  constructor
  · intro h p hp
    obtain ⟨j, hjlt, hje⟩ := List.mem_iff_getElem.mp hp
    have h2 := h j hjlt
    rw [naiveCheckLoop_true_iff] at h2
    rcases h2 with hfalse | ⟨⟨w, hw, hje2⟩, _⟩
    · rw [List.getElem?_replicate] at hfalse
      simp [hjlt] at hfalse
    · refine ⟨w, hw, ?_⟩
      have h3 : (generate_perms n)[j]? = some p := by
        rw [List.getElem?_eq_getElem hjlt, hje]
      rw [hje2] at h3
      simpa using h3
  · intro h j hj
    rw [naiveCheckLoop_true_iff]
    refine Or.inr ⟨?_, by simpa using hj⟩
    obtain ⟨w, hw, hwe⟩ := h (generate_perms n)[j] (List.getElem_mem hj)
    exact ⟨w, hw, by rw [List.getElem?_eq_getElem hj, hwe]⟩

/-- Bridge between the two coverage conditions: over windows of width `n`
of a sufficiently long sequence, covering every permutation as a window is
the same as covering every index value below `n!` through
`possible_values_for`. -/
theorem check_props_equiv (s : List Nat) (n : Nat) (hn : 1 ≤ n)
    (hlen : n ≤ s.length) :
    (∀ p ∈ generate_perms n, ∃ w ∈ windows n s, w = p) ↔
      (∀ v, v < Nat.factorial n →
        ∃ w ∈ windows n s, v ∈ possible_values_for (List.range' 1 n) w) := by
  constructor
  · intro hnaive v hv
    obtain ⟨p, hrun, _, _, _⟩ := value_to_perm_spec n v
    have hperm := value_to_perm_isPerm n v p hrun
    have hp : p ∈ generate_perms n := (mem_generate_perms n p).mpr hperm
    obtain ⟨w, hwmem, hwp⟩ := hnaive p hp
    have hround := perm_value_roundtrip n v hv
    rw [hrun] at hround
    have hpv : perm_to_value (List.range' 1 n) p = some v := by
      simpa using hround
    have hwlen : w.length = n := mem_windows_length n s w hlen hwmem
    refine ⟨w, hwmem, ?_⟩
    have hfull := possible_values_full n hn w hwlen
    rw [hwp, hpv] at hfull
    simp only [] at hfull
    rw [hwp, hfull]
    exact List.mem_singleton_self v
  · intro hopt p hp
    have hperm := (mem_generate_perms n p).mp hp
    obtain ⟨S, _, _, _, hptv⟩ := perm_to_value_of_perm n p hperm
    set v := decode_representation (mapper_bases (List.range' 1 n)) S with hv
    obtain ⟨_, hvlt, hv2p⟩ := perm_to_value_success n p v hptv
    obtain ⟨w, hwmem, hvw⟩ := hopt v hvlt
    have hwlen : w.length = n := mem_windows_length n s w hlen hwmem
    rw [possible_values_full n hn w hwlen] at hvw
    cases hpw : perm_to_value (List.range' 1 n) w with
    | none =>
      rw [hpw] at hvw
      simp at hvw
    | some u =>
      rw [hpw] at hvw
      simp at hvw
      subst hvw
      obtain ⟨_, _, hv2w⟩ := perm_to_value_success n w v hpw
      have hwp : w = p := by
        rw [hv2p] at hv2w
        exact (Option.some_inj.mp hv2w).symm
      exact ⟨w, hwmem, hwp⟩

/-! ### Windows and checklist counting -/

/-- The trailing `n` tokens of a sufficiently long sequence form one of its
windows. -/
theorem suffix_mem_windows (n : Nat) (s : List Nat) (hn : n ≤ s.length) :
    s.drop (s.length - n) ∈ windows n s := by
  rw [windows, List.mem_map]
  refine ⟨s.length - n, ?_, ?_⟩
  · rw [List.mem_range]; omega
  · apply List.take_of_length_le
    rw [List.length_drop]; omega

/-- Appending tokens to a sequence preserves its windows. -/
theorem windows_append_mono (n : Nat) (s t : List Nat) (w : List Nat)
    (hn : n ≤ s.length) (hw : w ∈ windows n s) : w ∈ windows n (s ++ t) := by
  rw [windows, List.mem_map] at hw
  obtain ⟨i, hi, rfl⟩ := hw
  rw [List.mem_range] at hi
  rw [windows, List.mem_map]
  refine ⟨i, ?_, ?_⟩
  · rw [List.mem_range, List.length_append]; omega
  · rw [List.drop_append_eq_append_drop]
    have h0 : i - s.length = 0 := by omega
    rw [h0, List.drop_zero, List.take_append_eq_append_take]
    have h1 : n - (s.drop i).length = 0 := by
      rw [List.length_drop]; omega
    rw [h1, List.take_zero, List.append_nil]

/-- Setting a `false` entry to `true` raises the `true` count by one. -/
theorem countP_set_true : ∀ (cl : List Bool) (pos : Nat),
    cl[pos]? = some false →
    (cl.set pos true).countP (fun b => b) = cl.countP (fun b => b) + 1 := by
  intro cl
  induction cl with
  | nil => intro pos h; simp at h
  | cons b bs ih =>
    intro pos h
    cases pos with
    | zero =>
      have hb : b = false := by simpa using h
      subst hb
      simp [List.countP_cons]
    | succ pos =>
      have h2 : bs[pos]? = some false := by simpa using h
      show List.countP (fun b => b) (b :: bs.set pos true) =
        List.countP (fun b => b) (b :: bs) + 1
      simp only [List.countP_cons]
      rw [ih pos h2]
      omega

/-- A checklist whose `true` count equals its length is `true` everywhere. -/
theorem countP_eq_length_all (cl : List Bool)
    (h : cl.countP (fun b => b) = cl.length) :
    ∀ j, j < cl.length → cl[j]? = some true := by
  have hall := List.countP_eq_length.mp h
  intro j hj
  have hmem : cl[j] ∈ cl := List.getElem_mem hj
  have htrue := hall _ hmem
  rw [List.getElem?_eq_getElem hj]
  simpa using htrue

/-- A checklist with no `false` entry has full `true` count. -/
theorem no_false_count (cl : List Bool) (h : ∀ (j : Nat), ¬ cl[j]? = some false) :
    cl.countP (fun b => b) = cl.length := by
  apply List.countP_eq_length.mpr
  intro b hb
  obtain ⟨j, hj, hje⟩ := List.mem_iff_getElem.mp hb
  cases b with
  | true => simp
  | false =>
    exfalso
    exact h j (by rw [List.getElem?_eq_getElem hj, hje])

/-! ### The naive greedy construction covers everything -/

/-- What a successful `findMatch` guarantees: the returned permutation sits
at the returned position, its leading slice matches, and its checklist entry
was still unchecked. -/
theorem findMatch_spec (cl : List Bool) (trailing : List Nat) (i : Nat) :
    ∀ (ps : List (List Nat)) (pos0 pos : Nat) (p : List Nat),
    findMatch cl trailing i ps pos0 = some (pos, p) →
    ∃ k, ps[k]? = some p ∧ pos = pos0 + k ∧ p.take i = trailing ∧
      cl.getD pos false = false := by
  intro ps
  induction ps with
  | nil => intro pos0 pos p h; simp [findMatch] at h
  | cons q qs ih =>
    intro pos0 pos p h
    rw [findMatch] at h
    split at h
    · rename_i hcond
      cases Option.some_inj.mp h
      exact ⟨0, by simp, by omega, hcond.1, hcond.2⟩
    · obtain ⟨k, hk1, hk2, hk3, hk4⟩ := ih (pos0 + 1) pos p h
      exact ⟨k + 1, by simpa using hk1, by omega, hk3, hk4⟩

/-- A failed `findMatch` at overlap width `0` (empty required slice) means
every scanned checklist entry was already checked. -/
theorem findMatch_none_zero (cl : List Bool) :
    ∀ (ps : List (List Nat)) (pos0 : Nat),
    findMatch cl [] 0 ps pos0 = none →
    ∀ k, k < ps.length → cl.getD (pos0 + k) false = true := by
  intro ps
  induction ps with
  | nil => intro pos0 _ k hk; simp at hk
  | cons q qs ih =>
    intro pos0 h k hk
    rw [findMatch] at h
    split at h
    · simp at h
    · rename_i hcond
      cases k with
      | zero =>
        have : ¬ cl.getD pos0 false = false := by
          intro hfalse
          exact hcond ⟨by simp, hfalse⟩
        simpa using this
      | succ k =>
        have := ih (pos0 + 1) h k (by simpa using hk)
        have harr : pos0 + 1 + k = pos0 + (k + 1) := by omega
        rw [harr] at this
        exact this

/-- What a successful `naiveTryTrail` guarantees: the width comes from the
scanned list and `findMatch` succeeded at that width. -/
theorem naiveTryTrail_spec (allp : List (List Nat)) (cl : List Bool)
    (sp : List Nat) : ∀ (is : List Nat) (i pos : Nat) (p : List Nat),
    naiveTryTrail allp cl sp is = some (i, pos, p) →
    i ∈ is ∧ findMatch cl (sp.drop (sp.length - i)) i allp 0 = some (pos, p) := by
  intro is
  induction is with
  | nil => intro i pos p h; simp [naiveTryTrail] at h
  | cons j js ih =>
    intro i pos p h
    rw [naiveTryTrail] at h
    cases hfm : findMatch cl (sp.drop (sp.length - j)) j allp 0 with
    | some r =>
      rw [hfm] at h
      obtain ⟨pos', p'⟩ := r
      have he := Option.some_inj.mp h
      rw [Prod.mk.injEq, Prod.mk.injEq] at he
      obtain ⟨he1, he2, he3⟩ := he
      subst he1
      subst he2
      subst he3
      exact ⟨List.mem_cons_self _ _, hfm⟩
    | none =>
      rw [hfm] at h
      obtain ⟨h1, h2⟩ := ih i pos p h
      exact ⟨List.mem_cons_of_mem j h1, h2⟩

/-- A failed `naiveTryTrail` means `findMatch` failed at every scanned
width. -/
theorem naiveTryTrail_none (allp : List (List Nat)) (cl : List Bool)
    (sp : List Nat) : ∀ (is : List Nat),
    naiveTryTrail allp cl sp is = none →
    ∀ i ∈ is, findMatch cl (sp.drop (sp.length - i)) i allp 0 = none := by
  intro is
  induction is with
  | nil => intro h i hi; simp at hi
  | cons j js ih =>
    intro h i hi
    rw [naiveTryTrail] at h
    cases hfm : findMatch cl (sp.drop (sp.length - j)) j allp 0 with
    | some r =>
      rw [hfm] at h
      obtain ⟨r1, r2⟩ := r
      simp at h
    | none =>
      rw [hfm] at h
      rcases List.mem_cons.mp hi with rfl | hi2
      · exact hfm
      · exact ih h i hi2

/-- One iteration of the naive outer loop preserves the coverage invariant;
while an unchecked entry remains it checks exactly one entry off, and once
everything is checked it leaves the state unchanged. -/
theorem naive_step_preserves (n : Nat) (hn : 1 ≤ n) (sp : List Nat)
    (cl : List Bool) (hsp : n ≤ sp.length)
    (hcl : cl.length = (generate_perms n).length)
    (hcov : ∀ (j : Nat), cl[j]? = some true →
      ∃ w ∈ windows n sp, (generate_perms n)[j]? = some w) :
    n ≤ (naive_step (generate_perms n) n (sp, cl)).1.length ∧
    (naive_step (generate_perms n) n (sp, cl)).2.length =
      (generate_perms n).length ∧
    (∀ (j : Nat), (naive_step (generate_perms n) n (sp, cl)).2[j]? = some true →
      ∃ w ∈ windows n (naive_step (generate_perms n) n (sp, cl)).1,
        (generate_perms n)[j]? = some w) ∧
    ((∃ (j : Nat), cl[j]? = some false) →
      (naive_step (generate_perms n) n (sp, cl)).2.countP (fun b => b) =
        cl.countP (fun b => b) + 1) ∧
    ((∀ (j : Nat), ¬ cl[j]? = some false) →
      naive_step (generate_perms n) n (sp, cl) = (sp, cl)) := by
  cases htt : naiveTryTrail (generate_perms n) cl sp (List.range n).reverse with
  | some t =>
    obtain ⟨i, pos, p⟩ := t
    obtain ⟨hi, hfm⟩ := naiveTryTrail_spec _ _ _ _ i pos p htt
    obtain ⟨k, hk1, hk2, hk3, hk4⟩ := findMatch_spec cl _ i _ 0 pos p hfm
    have hposk : pos = k := by omega
    subst hposk
    have hilt : i < n := List.mem_range.mp (List.mem_reverse.mp hi)
    obtain ⟨hplt, hpe⟩ := List.getElem?_eq_some_iff.mp hk1
    have hpmem : p ∈ generate_perms n := hpe ▸ List.getElem_mem hplt
    have hperm := (mem_generate_perms n p).mp hpmem
    have hplen : p.length = n := by
      have := hperm.length_eq
      simpa using this
    have hposlt : pos < cl.length := by omega
    have hclpos : cl[pos]? = some false := by
      have h5 := hk4
      rw [List.getD_eq_getElem?_getD, List.getElem?_eq_getElem hposlt] at h5
      rw [List.getElem?_eq_getElem hposlt]
      simpa using h5
    have hstep : naive_step (generate_perms n) n (sp, cl) =
        (sp ++ p.drop i, setChecked cl pos) := by
      rw [naive_step]
      dsimp only
      rw [htt]
    have hnewlen : n ≤ (sp ++ p.drop i).length := by
      rw [List.length_append]
      omega
    have hsuffix : p ∈ windows n (sp ++ p.drop i) := by
      have hdp : (sp ++ p.drop i).drop ((sp ++ p.drop i).length - n) = p := by
        have hlen1 : (sp ++ p.drop i).length = sp.length + (n - i) := by
          rw [List.length_append, List.length_drop, hplen]
        rw [hlen1]
        have h2 : sp.length + (n - i) - n = sp.length - i := by omega
        rw [h2, List.drop_append_eq_append_drop]
        have h3 : sp.length - i - sp.length = 0 := by omega
        rw [h3, List.drop_zero, ← hk3]
        exact List.take_append_drop i p
      have hmem := suffix_mem_windows n (sp ++ p.drop i) hnewlen
      rw [hdp] at hmem
      exact hmem
    rw [hstep]
    dsimp only
    refine ⟨hnewlen, ?_, ?_, ?_, ?_⟩
    · rw [setChecked_length, hcl]
    · intro j hj
      rw [setChecked_true_iff] at hj
      rcases hj with hjold | ⟨hje, _⟩
      · obtain ⟨w, hw, he⟩ := hcov j hjold
        exact ⟨w, windows_append_mono n sp (p.drop i) w hsp hw, he⟩
      · subst hje
        exact ⟨p, hsuffix, hk1⟩
    · intro _
      rw [setChecked, if_pos hposlt]
      exact countP_set_true cl pos hclpos
    · intro hnf
      exact absurd hclpos (hnf pos)
  | none =>
    have hstep : naive_step (generate_perms n) n (sp, cl) = (sp, cl) := by
      rw [naive_step]
      dsimp only
      rw [htt]
    have hnf : ∀ (j : Nat), ¬ cl[j]? = some false := by
      have h0mem : (0 : Nat) ∈ (List.range n).reverse := by
        rw [List.mem_reverse, List.mem_range]
        omega
      have hfm0 := naiveTryTrail_none _ _ _ _ htt 0 h0mem
      rw [Nat.sub_zero, List.drop_length] at hfm0
      have hall := findMatch_none_zero cl _ 0 hfm0
      intro j hj
      by_cases hjlt : j < cl.length
      · have h1 := hall j (by omega)
        rw [Nat.zero_add, List.getD_eq_getElem?_getD,
          List.getElem?_eq_getElem hjlt] at h1
        rw [List.getElem?_eq_getElem hjlt] at hj
        have h2 : cl[j] = false := by simpa using hj
        have h3 : cl[j] = true := by simpa using h1
        rw [h2] at h3
        exact Bool.false_ne_true h3
      · rw [List.getElem?_eq_none_iff.mpr (by omega)] at hj
        simp at hj
    rw [hstep]
    dsimp only
    exact ⟨hsp, hcl, hcov,
      fun hex => (hnf hex.choose hex.choose_spec).elim,
      fun _ => rfl⟩

/-- The naive outer loop, run for enough iterations, ends with every
generated permutation appearing as a window of the built sequence. -/
theorem naiveLoop_cover (n : Nat) (hn : 1 ≤ n) :
    ∀ (k : Nat) (sp : List Nat) (cl : List Bool),
    n ≤ sp.length → cl.length = (generate_perms n).length →
    (∀ (j : Nat), cl[j]? = some true →
      ∃ w ∈ windows n sp, (generate_perms n)[j]? = some w) →
    (generate_perms n).length ≤ cl.countP (fun b => b) + k →
    n ≤ (naiveLoop (generate_perms n) n k (sp, cl)).1.length ∧
      ∀ (j : Nat), j < (generate_perms n).length →
        ∃ w ∈ windows n (naiveLoop (generate_perms n) n k (sp, cl)).1,
          (generate_perms n)[j]? = some w := by
  intro k
  induction k with
  | zero =>
    intro sp cl hsp hcl hcov hcount
    refine ⟨hsp, ?_⟩
    intro j hj
    have hle : cl.countP (fun b => b) ≤ cl.length :=
      List.countP_le_length (fun b => b)
    have heq : cl.countP (fun b => b) = cl.length := by omega
    have hall := countP_eq_length_all cl heq
    exact hcov j (hall j (by omega))
  | succ k ih =>
    intro sp cl hsp hcl hcov hcount
    obtain ⟨h1, h2, h3, h4, h5⟩ := naive_step_preserves n hn sp cl hsp hcl hcov
    by_cases hex : ∃ (j : Nat), cl[j]? = some false
    · have hc := h4 hex
      exact ih (naive_step (generate_perms n) n (sp, cl)).1
        (naive_step (generate_perms n) n (sp, cl)).2 h1 h2 h3 (by omega)
    · have hnf : ∀ (j : Nat), ¬ cl[j]? = some false := not_exists.mp hex
      have hstep := h5 hnf
      have hcnt : cl.countP (fun b => b) = cl.length := no_false_count cl hnf
      have hres := ih sp cl hsp hcl hcov (by omega)
      rw [show naiveLoop (generate_perms n) n (k + 1) (sp, cl) =
        naiveLoop (generate_perms n) n k
          (naive_step (generate_perms n) n (sp, cl)) from rfl, hstep]
      exact hres

/-- The naive construction passes the naive check for every `n ≥ 1`. -/
theorem naive_self_check (n : Nat) (hn : 1 ≤ n) :
    naive_check_superperm (naive_create_superperm n) n = some true := by
  have hne : generate_perms n ≠ [] := by
    intro he
    have hmem := (mem_generate_perms n (List.range' 1 n)).mpr (List.Perm.refl _)
    rw [he] at hmem
    simp at hmem
  obtain ⟨p0, rest, hgp⟩ := List.exists_cons_of_ne_nil hne
  have hp0mem : p0 ∈ generate_perms n := by
    rw [hgp]
    exact List.mem_cons_self _ _
  have hp0perm := (mem_generate_perms n p0).mp hp0mem
  have hp0len : p0.length = n := by
    have := hp0perm.length_eq
    simpa using this
  have hlpos : 0 < (generate_perms n).length := by
    rw [hgp]
    simp
  have hhead : (generate_perms n).headD [] = p0 := by
    rw [hgp]
    rfl
  set cl0 := (List.replicate (generate_perms n).length false).set 0 true with hcl0
  have hcl0len : cl0.length = (generate_perms n).length := by
    rw [hcl0, List.length_set, List.length_replicate]
  have hcl0get : ∀ (j : Nat), cl0[j]? = some true → j = 0 := by
    intro j hj
    by_contra hne0
    rw [hcl0, List.getElem?_set] at hj
    rw [if_neg (by omega)] at hj
    rw [List.getElem?_replicate] at hj
    split at hj
    · simp at hj
    · simp at hj
  have hcl0zero : cl0[0]? = some true := by
    rw [hcl0, List.getElem?_set, if_pos rfl, List.length_replicate,
      if_pos hlpos]
  have hcount0 : cl0.countP (fun b => b) =
      (List.replicate (generate_perms n).length false).countP (fun b => b) + 1 := by
    rw [hcl0]
    have hrep : (List.replicate (generate_perms n).length false)[0]? =
        some false := by
      rw [List.getElem?_replicate, if_pos hlpos]
    have := countP_set_true (List.replicate (generate_perms n).length false)
      0 hrep
    exact this
  have hrepcnt : (List.replicate (generate_perms n).length false).countP
      (fun b => b) = 0 := by
    induction (generate_perms n).length with
    | zero => rfl
    | succ m ihm => rw [List.replicate_succ, List.countP_cons]; simp [ihm]
  have hp0win : p0 ∈ windows n p0 := by
    have hmem := suffix_mem_windows n p0 (by omega)
    rw [show p0.length - n = 0 from by omega, List.drop_zero] at hmem
    exact hmem
  have hcov0 : ∀ (j : Nat), cl0[j]? = some true →
      ∃ w ∈ windows n p0, (generate_perms n)[j]? = some w := by
    intro j hj
    have hj0 := hcl0get j hj
    subst hj0
    refine ⟨p0, hp0win, ?_⟩
    rw [hgp]
    simp
  obtain ⟨hfin1, hfin2⟩ := naiveLoop_cover n hn (generate_perms n).length p0 cl0
    (by omega) hcl0len hcov0 (by omega)
  have hcreate : naive_create_superperm n =
      (naiveLoop (generate_perms n) n (generate_perms n).length
        ((generate_perms n).headD [], cl0)).1 := rfl
  rw [hhead] at hcreate
  rw [hcreate]
  rw [naive_check_iff _ n hfin1]
  intro p hp
  obtain ⟨j, hjlt, hje⟩ := List.mem_iff_getElem.mp hp
  obtain ⟨w, hw, hwe⟩ := hfin2 j hjlt
  refine ⟨w, hw, ?_⟩
  rw [List.getElem?_eq_getElem hjlt, hje] at hwe
  exact (Option.some_inj.mp hwe).symm

/-! ### Loop-composition and locality lemmas for the optimized
construction (they let a long run of the outer loop be verified in
bounded-size chunks) -/

theorem optLoop_add (core : List Nat) :
    ∀ (b a : Nat) (st : List Nat × List Bool),
    optLoop core (a + b) st = optLoop core a (optLoop core b st) := by
  intro b
  induction b with
  | zero => intro a st; rfl
  | succ b ih =>
    intro a st
    exact ih a (opt_step core st)

theorem optCheckLoop_append (core : List Nat) :
    ∀ (ws1 ws2 : List (List Nat)) (cl : List Bool),
    optCheckLoop core (ws1 ++ ws2) cl =
      optCheckLoop core ws2 (optCheckLoop core ws1 cl) := by
  intro ws1
  induction ws1 with
  | nil => intro ws2 cl; rfl
  | cons w ws ih =>
    intro ws2 cl
    show optCheckLoop core (ws ++ ws2)
        (markAll cl (possible_values_for core w)) =
      optCheckLoop core ws2
        (optCheckLoop core ws (markAll cl (possible_values_for core w)))
    exact ih ws2 _

/-- The trailing-overlap scan only looks at the last `i ≤ |b|` tokens, so a
prefix `a` of the sequence is irrelevant to it. -/
theorem optTryTrail_shift (core : List Nat) (cl : List Bool) (a b : List Nat) :
    ∀ (is : List Nat), (∀ i ∈ is, i ≤ b.length) →
    optTryTrail core cl (a ++ b) is = optTryTrail core cl b is := by
  intro is
  induction is with
  | nil => intro _; rfl
  | cons j js ih =>
    intro hall
    have hj : j ≤ b.length := hall j (List.mem_cons_self _ _)
    have hdrop : (a ++ b).drop ((a ++ b).length - j) = b.drop (b.length - j) := by
      rw [List.length_append, List.drop_append_eq_append_drop]
      have h1 : a.length + b.length - j - a.length = b.length - j := by omega
      have h2 : a.drop (a.length + b.length - j) = [] := by
        apply List.drop_eq_nil_of_le
        omega
      rw [h1, h2, List.nil_append]
    rw [optTryTrail, optTryTrail, hdrop,
      ih (fun i hi => hall i (List.mem_cons_of_mem j hi))]

/-- One step of the optimized outer loop only appends to the sequence. -/
theorem opt_step_extend (core : List Nat) (sp : List Nat) (cl : List Bool) :
    ∃ t, (opt_step core (sp, cl)).1 = sp ++ t := by
  cases htt : optTryTrail core cl sp (List.range' 1 (core.length - 1)).reverse with
  | some p =>
    obtain ⟨i, v⟩ := p
    refine ⟨((value_to_perm core v).getD []).drop i, ?_⟩
    rw [opt_step]
    dsimp only
    rw [htt]
  | none =>
    cases hff : firstFalseIdx cl with
    | some j =>
      refine ⟨(value_to_perm core j).getD [], ?_⟩
      rw [opt_step]
      dsimp only
      rw [htt, hff]
    | none =>
      refine ⟨[], ?_⟩
      rw [opt_step]
      dsimp only
      rw [htt, hff, List.append_nil]

/-- Locality of one step: with at least `core.length - 1` tokens of suffix
kept, a prefix of the built sequence passes through one outer iteration
untouched. -/
theorem opt_step_append (core : List Nat) (a b : List Nat) (cl : List Bool)
    (h : core.length - 1 ≤ b.length) :
    opt_step core (a ++ b, cl) =
      (a ++ (opt_step core (b, cl)).1, (opt_step core (b, cl)).2) := by
  have hsh : optTryTrail core cl (a ++ b)
        (List.range' 1 (core.length - 1)).reverse =
      optTryTrail core cl b (List.range' 1 (core.length - 1)).reverse := by
    apply optTryTrail_shift
    intro i hi
    rw [List.mem_reverse, List.mem_range'] at hi
    omega
  rw [opt_step, opt_step]
  dsimp only
  rw [hsh]
  cases htt : optTryTrail core cl b (List.range' 1 (core.length - 1)).reverse with
  | some p =>
    obtain ⟨i, v⟩ := p
    dsimp only
    rw [List.append_assoc]
  | none =>
    dsimp only
    cases hff : firstFalseIdx cl with
    | some j =>
      dsimp only
      rw [List.append_assoc]
    | none =>
      rfl

/-- Locality of a whole run: a prefix of the built sequence passes through
any number of outer iterations untouched. -/
theorem optLoop_append (core : List Nat) :
    ∀ (k : Nat) (a b : List Nat) (cl : List Bool),
    core.length - 1 ≤ b.length →
    optLoop core k (a ++ b, cl) =
      (a ++ (optLoop core k (b, cl)).1, (optLoop core k (b, cl)).2) := by
  intro k
  induction k with
  | zero => intro a b cl h; rfl
  | succ k ih =>
    intro a b cl h
    show optLoop core k (opt_step core (a ++ b, cl)) = _
    rw [opt_step_append core a b cl h]
    obtain ⟨t, ht⟩ := opt_step_extend core b cl
    rw [ht]
    rw [ih a (b ++ t) (opt_step core (b, cl)).2
      (by rw [List.length_append]; omega)]
    have hstep : opt_step core (b, cl) =
        (b ++ t, (opt_step core (b, cl)).2) := by
      rw [← ht]
    conv_rhs => rw [show optLoop core (k + 1) (b, cl) =
      optLoop core k (opt_step core (b, cl)) from rfl, hstep]

/-! ### Chunked kernel computations for the optimized strategy at
`n = 6` -/

theorem optCreate6_chunk1 :
    optLoop (List.range' 1 6) 40 (optS6c0, optCcl6c0) =
      (optR6c1, optCcl6c1) := by
  rfl

theorem optCreate6_chunk2 :
    optLoop (List.range' 1 6) 40 (optS6c1, optCcl6c1) =
      (optR6c2, optCcl6c2) := by
  rfl

theorem optCreate6_chunk3 :
    optLoop (List.range' 1 6) 40 (optS6c2, optCcl6c2) =
      (optR6c3, optCcl6c3) := by
  rfl

theorem optCreate6_chunk4 :
    optLoop (List.range' 1 6) 40 (optS6c3, optCcl6c3) =
      (optR6c4, optCcl6c4) := by
  rfl

theorem optCreate6_chunk5 :
    optLoop (List.range' 1 6) 40 (optS6c4, optCcl6c4) =
      (optR6c5, optCcl6c5) := by
  rfl

theorem optCreate6_chunk6 :
    optLoop (List.range' 1 6) 40 (optS6c5, optCcl6c5) =
      (optR6c6, optCcl6c6) := by
  rfl

theorem optCreate6_chunk7 :
    optLoop (List.range' 1 6) 40 (optS6c6, optCcl6c6) =
      (optR6c7, optCcl6c7) := by
  rfl

theorem optCreate6_chunk8 :
    optLoop (List.range' 1 6) 40 (optS6c7, optCcl6c7) =
      (optR6c8, optCcl6c8) := by
  rfl

theorem optCreate6_chunk9 :
    optLoop (List.range' 1 6) 40 (optS6c8, optCcl6c8) =
      (optR6c9, optCcl6c9) := by
  rfl

theorem optCreate6_chunk10 :
    optLoop (List.range' 1 6) 40 (optS6c9, optCcl6c9) =
      (optR6c10, optCcl6c10) := by
  rfl

theorem optCreate6_chunk11 :
    optLoop (List.range' 1 6) 40 (optS6c10, optCcl6c10) =
      (optR6c11, optCcl6c11) := by
  rfl

theorem optCreate6_chunk12 :
    optLoop (List.range' 1 6) 40 (optS6c11, optCcl6c11) =
      (optR6c12, optCcl6c12) := by
  rfl

theorem optCreate6_chunk13 :
    optLoop (List.range' 1 6) 40 (optS6c12, optCcl6c12) =
      (optR6c13, optCcl6c13) := by
  rfl

theorem optCreate6_chunk14 :
    optLoop (List.range' 1 6) 40 (optS6c13, optCcl6c13) =
      (optR6c14, optCcl6c14) := by
  rfl

theorem optCreate6_chunk15 :
    optLoop (List.range' 1 6) 40 (optS6c14, optCcl6c14) =
      (optR6c15, optCcl6c15) := by
  rfl

theorem optCreate6_chunk16 :
    optLoop (List.range' 1 6) 40 (optS6c15, optCcl6c15) =
      (optR6c16, optCcl6c16) := by
  rfl

theorem optCreate6_chunk17 :
    optLoop (List.range' 1 6) 40 (optS6c16, optCcl6c16) =
      (optR6c17, optCcl6c17) := by
  rfl

theorem optCreate6_chunk18 :
    optLoop (List.range' 1 6) 39 (optS6c17, optCcl6c17) =
      (optR6c18, optCcl6c18) := by
  rfl

theorem optCreate6_acc1 :
    optLoop (List.range' 1 6) 40 (optS6c0, optCcl6c0) =
      (optP6c1 ++ optS6c1, optCcl6c1) := by
  rw [optCreate6_chunk1]
  rfl

theorem optCreate6_acc2 :
    optLoop (List.range' 1 6) 80 (optS6c0, optCcl6c0) =
      (optP6c2 ++ optS6c2, optCcl6c2) := by
  rw [show (80 : Nat) = 40 + 40 from rfl]
  rw [optLoop_add]
  rw [optCreate6_acc1]
  rw [optLoop_append (List.range' 1 6) 40 optP6c1 optS6c1 optCcl6c1 (by decide)]
  rw [optCreate6_chunk2]
  rfl

theorem optCreate6_acc3 :
    optLoop (List.range' 1 6) 120 (optS6c0, optCcl6c0) =
      (optP6c3 ++ optS6c3, optCcl6c3) := by
  rw [show (120 : Nat) = 40 + 80 from rfl]
  rw [optLoop_add]
  rw [optCreate6_acc2]
  rw [optLoop_append (List.range' 1 6) 40 optP6c2 optS6c2 optCcl6c2 (by decide)]
  rw [optCreate6_chunk3]
  rfl

theorem optCreate6_acc4 :
    optLoop (List.range' 1 6) 160 (optS6c0, optCcl6c0) =
      (optP6c4 ++ optS6c4, optCcl6c4) := by
  rw [show (160 : Nat) = 40 + 120 from rfl]
  rw [optLoop_add]
  rw [optCreate6_acc3]
  rw [optLoop_append (List.range' 1 6) 40 optP6c3 optS6c3 optCcl6c3 (by decide)]
  rw [optCreate6_chunk4]
  rfl

theorem optCreate6_acc5 :
    optLoop (List.range' 1 6) 200 (optS6c0, optCcl6c0) =
      (optP6c5 ++ optS6c5, optCcl6c5) := by
  rw [show (200 : Nat) = 40 + 160 from rfl]
  rw [optLoop_add]
  rw [optCreate6_acc4]
  rw [optLoop_append (List.range' 1 6) 40 optP6c4 optS6c4 optCcl6c4 (by decide)]
  rw [optCreate6_chunk5]
  rfl

theorem optCreate6_acc6 :
    optLoop (List.range' 1 6) 240 (optS6c0, optCcl6c0) =
      (optP6c6 ++ optS6c6, optCcl6c6) := by
  rw [show (240 : Nat) = 40 + 200 from rfl]
  rw [optLoop_add]
  rw [optCreate6_acc5]
  rw [optLoop_append (List.range' 1 6) 40 optP6c5 optS6c5 optCcl6c5 (by decide)]
  rw [optCreate6_chunk6]
  rfl

theorem optCreate6_acc7 :
    optLoop (List.range' 1 6) 280 (optS6c0, optCcl6c0) =
      (optP6c7 ++ optS6c7, optCcl6c7) := by
  rw [show (280 : Nat) = 40 + 240 from rfl]
  rw [optLoop_add]
  rw [optCreate6_acc6]
  rw [optLoop_append (List.range' 1 6) 40 optP6c6 optS6c6 optCcl6c6 (by decide)]
  rw [optCreate6_chunk7]
  rfl

theorem optCreate6_acc8 :
    optLoop (List.range' 1 6) 320 (optS6c0, optCcl6c0) =
      (optP6c8 ++ optS6c8, optCcl6c8) := by
  rw [show (320 : Nat) = 40 + 280 from rfl]
  rw [optLoop_add]
  rw [optCreate6_acc7]
  rw [optLoop_append (List.range' 1 6) 40 optP6c7 optS6c7 optCcl6c7 (by decide)]
  rw [optCreate6_chunk8]
  rfl

theorem optCreate6_acc9 :
    optLoop (List.range' 1 6) 360 (optS6c0, optCcl6c0) =
      (optP6c9 ++ optS6c9, optCcl6c9) := by
  rw [show (360 : Nat) = 40 + 320 from rfl]
  rw [optLoop_add]
  rw [optCreate6_acc8]
  rw [optLoop_append (List.range' 1 6) 40 optP6c8 optS6c8 optCcl6c8 (by decide)]
  rw [optCreate6_chunk9]
  rfl

theorem optCreate6_acc10 :
    optLoop (List.range' 1 6) 400 (optS6c0, optCcl6c0) =
      (optP6c10 ++ optS6c10, optCcl6c10) := by
  rw [show (400 : Nat) = 40 + 360 from rfl]
  rw [optLoop_add]
  rw [optCreate6_acc9]
  rw [optLoop_append (List.range' 1 6) 40 optP6c9 optS6c9 optCcl6c9 (by decide)]
  rw [optCreate6_chunk10]
  rfl

theorem optCreate6_acc11 :
    optLoop (List.range' 1 6) 440 (optS6c0, optCcl6c0) =
      (optP6c11 ++ optS6c11, optCcl6c11) := by
  rw [show (440 : Nat) = 40 + 400 from rfl]
  rw [optLoop_add]
  rw [optCreate6_acc10]
  rw [optLoop_append (List.range' 1 6) 40 optP6c10 optS6c10 optCcl6c10 (by decide)]
  rw [optCreate6_chunk11]
  rfl

theorem optCreate6_acc12 :
    optLoop (List.range' 1 6) 480 (optS6c0, optCcl6c0) =
      (optP6c12 ++ optS6c12, optCcl6c12) := by
  rw [show (480 : Nat) = 40 + 440 from rfl]
  rw [optLoop_add]
  rw [optCreate6_acc11]
  rw [optLoop_append (List.range' 1 6) 40 optP6c11 optS6c11 optCcl6c11 (by decide)]
  rw [optCreate6_chunk12]
  rfl

theorem optCreate6_acc13 :
    optLoop (List.range' 1 6) 520 (optS6c0, optCcl6c0) =
      (optP6c13 ++ optS6c13, optCcl6c13) := by
  rw [show (520 : Nat) = 40 + 480 from rfl]
  rw [optLoop_add]
  rw [optCreate6_acc12]
  rw [optLoop_append (List.range' 1 6) 40 optP6c12 optS6c12 optCcl6c12 (by decide)]
  rw [optCreate6_chunk13]
  rfl

theorem optCreate6_acc14 :
    optLoop (List.range' 1 6) 560 (optS6c0, optCcl6c0) =
      (optP6c14 ++ optS6c14, optCcl6c14) := by
  rw [show (560 : Nat) = 40 + 520 from rfl]
  rw [optLoop_add]
  rw [optCreate6_acc13]
  rw [optLoop_append (List.range' 1 6) 40 optP6c13 optS6c13 optCcl6c13 (by decide)]
  rw [optCreate6_chunk14]
  rfl

theorem optCreate6_acc15 :
    optLoop (List.range' 1 6) 600 (optS6c0, optCcl6c0) =
      (optP6c15 ++ optS6c15, optCcl6c15) := by
  rw [show (600 : Nat) = 40 + 560 from rfl]
  rw [optLoop_add]
  rw [optCreate6_acc14]
  rw [optLoop_append (List.range' 1 6) 40 optP6c14 optS6c14 optCcl6c14 (by decide)]
  rw [optCreate6_chunk15]
  rfl

theorem optCreate6_acc16 :
    optLoop (List.range' 1 6) 640 (optS6c0, optCcl6c0) =
      (optP6c16 ++ optS6c16, optCcl6c16) := by
  rw [show (640 : Nat) = 40 + 600 from rfl]
  rw [optLoop_add]
  rw [optCreate6_acc15]
  rw [optLoop_append (List.range' 1 6) 40 optP6c15 optS6c15 optCcl6c15 (by decide)]
  rw [optCreate6_chunk16]
  rfl

theorem optCreate6_acc17 :
    optLoop (List.range' 1 6) 680 (optS6c0, optCcl6c0) =
      (optP6c17 ++ optS6c17, optCcl6c17) := by
  rw [show (680 : Nat) = 40 + 640 from rfl]
  rw [optLoop_add]
  rw [optCreate6_acc16]
  rw [optLoop_append (List.range' 1 6) 40 optP6c16 optS6c16 optCcl6c16 (by decide)]
  rw [optCreate6_chunk17]
  rfl

theorem optCreate6_acc18 :
    optLoop (List.range' 1 6) 719 (optS6c0, optCcl6c0) =
      (optP6c18 ++ optS6c18, optCcl6c18) := by
  rw [show (719 : Nat) = 39 + 680 from rfl]
  rw [optLoop_add]
  rw [optCreate6_acc17]
  rw [optLoop_append (List.range' 1 6) 39 optP6c17 optS6c17 optCcl6c17 (by decide)]
  rw [optCreate6_chunk18]
  rfl


/-! ### Per-iteration marking counts of the two constructions -/

theorem countP_set_true_bounds : ∀ (cl : List Bool) (v : Nat),
    cl.countP (fun b => b) ≤ (cl.set v true).countP (fun b => b) ∧
    (cl.set v true).countP (fun b => b) ≤ cl.countP (fun b => b) + 1 := by
  intro cl
  induction cl with
  | nil => intro v; simp
  | cons b bs ih =>
    intro v
    cases v with
    | zero =>
      have hs : (b :: bs).set 0 true = true :: bs := rfl
      rw [hs]
      cases b <;> simp [List.countP_cons]
    | succ v =>
      have hs : (b :: bs).set (v + 1) true = b :: bs.set v true := rfl
      rw [hs]
      have hv := ih v
      cases b <;> simp [List.countP_cons] <;> omega

theorem naive_step_length (allp : List (List Nat)) (m : Nat)
    (st : List Nat × List Bool) :
    (naive_step allp m st).2.length = st.2.length := by
  cases htt : naiveTryTrail allp st.2 st.1 (List.range m).reverse with
  | some t =>
    obtain ⟨i, pos, p⟩ := t
    rw [naive_step, htt]
    dsimp only
    rw [setChecked_length]
  | none =>
    rw [naive_step, htt]

theorem naiveLoop_length (allp : List (List Nat)) (m : Nat) :
    ∀ (k : Nat) (st : List Nat × List Bool),
    (naiveLoop allp m k st).2.length = st.2.length := by
  intro k
  induction k with
  | zero => intro st; rfl
  | succ k ih =>
    intro st
    show (naiveLoop allp m k (naive_step allp m st)).2.length = _
    rw [ih, naive_step_length]

/-- Marking behaviour of one naive outer iteration, with no assumption on
the sequence built so far: while an entry is unchecked it checks exactly one
off; once all entries are checked it leaves the state unchanged. -/
theorem naive_step_marks (n : Nat) (hn : 1 ≤ n) (sp : List Nat)
    (cl : List Bool) (hcl : cl.length = (generate_perms n).length) :
    (naive_step (generate_perms n) n (sp, cl)).2.length =
      (generate_perms n).length ∧
    ((∃ (j : Nat), cl[j]? = some false) →
      (naive_step (generate_perms n) n (sp, cl)).2.countP (fun b => b) =
        cl.countP (fun b => b) + 1) ∧
    ((∀ (j : Nat), ¬ cl[j]? = some false) →
      naive_step (generate_perms n) n (sp, cl) = (sp, cl)) := by
  cases htt : naiveTryTrail (generate_perms n) cl sp (List.range n).reverse with
  | some t =>
    obtain ⟨i, pos, p⟩ := t
    obtain ⟨hi, hfm⟩ := naiveTryTrail_spec _ _ _ _ i pos p htt
    obtain ⟨k, hk1, hk2, hk3, hk4⟩ := findMatch_spec cl _ i _ 0 pos p hfm
    have hposk : pos = k := by omega
    subst hposk
    obtain ⟨hplt, _hpe⟩ := List.getElem?_eq_some_iff.mp hk1
    have hposlt : pos < cl.length := by omega
    have hclpos : cl[pos]? = some false := by
      have h5 := hk4
      rw [List.getD_eq_getElem?_getD, List.getElem?_eq_getElem hposlt] at h5
      rw [List.getElem?_eq_getElem hposlt]
      simpa using h5
    have hstep : naive_step (generate_perms n) n (sp, cl) =
        (sp ++ p.drop i, setChecked cl pos) := by
      rw [naive_step]
      dsimp only
      rw [htt]
    rw [hstep]
    dsimp only
    refine ⟨?_, ?_, ?_⟩
    · rw [setChecked_length, hcl]
    · intro _
      rw [setChecked, if_pos hposlt]
      exact countP_set_true cl pos hclpos
    · intro hnf
      exact absurd hclpos (hnf pos)
  | none =>
    have hstep : naive_step (generate_perms n) n (sp, cl) = (sp, cl) := by
      rw [naive_step]
      dsimp only
      rw [htt]
    have hnf : ∀ (j : Nat), ¬ cl[j]? = some false := by
      have h0mem : (0 : Nat) ∈ (List.range n).reverse := by
        rw [List.mem_reverse, List.mem_range]
        omega
      have hfm0 := naiveTryTrail_none _ _ _ _ htt 0 h0mem
      rw [Nat.sub_zero, List.drop_length] at hfm0
      have hall := findMatch_none_zero cl _ 0 hfm0
      intro j hj
      by_cases hjlt : j < cl.length
      · have h1 := hall j (by omega)
        rw [Nat.zero_add, List.getD_eq_getElem?_getD,
          List.getElem?_eq_getElem hjlt] at h1
        rw [List.getElem?_eq_getElem hjlt] at hj
        have h2 : cl[j] = false := by simpa using hj
        have h3 : cl[j] = true := by simpa using h1
        rw [h2] at h3
        exact Bool.false_ne_true h3
      · rw [List.getElem?_eq_none_iff.mpr (by omega)] at hj
        simp at hj
    rw [hstep]
    dsimp only
    exact ⟨hcl, fun hex => (hnf hex.choose hex.choose_spec).elim, fun _ => rfl⟩

/-- Run for enough iterations, the naive outer loop ends with a fully
marked checklist. -/
theorem naiveLoop_marks (n : Nat) (hn : 1 ≤ n) :
    ∀ (k : Nat) (sp : List Nat) (cl : List Bool),
    cl.length = (generate_perms n).length →
    (generate_perms n).length ≤ cl.countP (fun b => b) + k →
    (naiveLoop (generate_perms n) n k (sp, cl)).2.countP (fun b => b) =
      (generate_perms n).length := by
  intro k
  induction k with
  | zero =>
    intro sp cl hcl hcount
    have hle : cl.countP (fun b => b) ≤ cl.length :=
      List.countP_le_length (fun b => b)
    show cl.countP (fun b => b) = _
    omega
  | succ k ih =>
    intro sp cl hcl hcount
    obtain ⟨h1, h2, h3⟩ := naive_step_marks n hn sp cl hcl
    by_cases hex : ∃ (j : Nat), cl[j]? = some false
    · have hc := h2 hex
      exact ih (naive_step (generate_perms n) n (sp, cl)).1
        (naive_step (generate_perms n) n (sp, cl)).2 h1 (by omega)
    · have hnf : ∀ (j : Nat), ¬ cl[j]? = some false := not_exists.mp hex
      have hstep := h3 hnf
      have hcnt : cl.countP (fun b => b) = cl.length := no_false_count cl hnf
      have hres := ih sp cl hcl (by omega)
      rw [show naiveLoop (generate_perms n) n (k + 1) (sp, cl) =
        naiveLoop (generate_perms n) n k
          (naive_step (generate_perms n) n (sp, cl)) from rfl, hstep]
      exact hres

/-- The naive construction ends with every checklist entry marked. -/
theorem naive_create_covers (n : Nat) (hn : 1 ≤ n) :
    (naiveLoop (generate_perms n) n (generate_perms n).length
      ((generate_perms n).headD [],
        (List.replicate (generate_perms n).length false).set 0 true)).2.all
      (fun b => b) = true := by
  have hne : generate_perms n ≠ [] := by
    intro he
    have hmem := (mem_generate_perms n (List.range' 1 n)).mpr (List.Perm.refl _)
    rw [he] at hmem
    simp at hmem
  have hlpos : 0 < (generate_perms n).length := List.length_pos.mpr hne
  have hcl0len : ((List.replicate (generate_perms n).length false).set 0
      true).length = (generate_perms n).length := by
    rw [List.length_set, List.length_replicate]
  have hrep : (List.replicate (generate_perms n).length false)[0]? =
      some false := by
    rw [List.getElem?_replicate, if_pos hlpos]
  have hcount0 := countP_set_true
    (List.replicate (generate_perms n).length false) 0 hrep
  have hrepcnt : (List.replicate (generate_perms n).length false).countP
      (fun b => b) = 0 := by
    induction (generate_perms n).length with
    | zero => rfl
    | succ m ihm => rw [List.replicate_succ, List.countP_cons]; simp [ihm]
  have hfin := naiveLoop_marks n hn (generate_perms n).length
    ((generate_perms n).headD [])
    ((List.replicate (generate_perms n).length false).set 0 true)
    hcl0len (by omega)
  have hflen := naiveLoop_length (generate_perms n) n
    (generate_perms n).length
    ((generate_perms n).headD [],
      (List.replicate (generate_perms n).length false).set 0 true)
  rw [all_true_iff]
  intro j hj
  apply countP_eq_length_all
  · rw [hfin]
    dsimp only at hflen
    rw [hflen, hcl0len]
  · exact hj

/-- One optimized outer iteration marks at most one checklist entry (and
never unmarks): the trailing-overlap branch checks one value off, the
fallback branch appends without marking. -/
theorem opt_step_marks (core : List Nat) (st : List Nat × List Bool) :
    st.2.countP (fun b => b) ≤ (opt_step core st).2.countP (fun b => b) ∧
    (opt_step core st).2.countP (fun b => b) ≤
      st.2.countP (fun b => b) + 1 := by
  obtain ⟨sp, cl⟩ := st
  cases htt : optTryTrail core cl sp (List.range' 1 (core.length - 1)).reverse with
  | some p =>
    obtain ⟨i, v⟩ := p
    have hstep : opt_step core (sp, cl) =
        (sp ++ ((value_to_perm core v).getD []).drop i, setChecked cl v) := by
      rw [opt_step]
      dsimp only
      rw [htt]
    rw [hstep]
    dsimp only
    rw [setChecked]
    by_cases hv : v < cl.length
    · rw [if_pos hv]
      exact countP_set_true_bounds cl v
    · rw [if_neg hv]
      omega
  | none =>
    cases hff : firstFalseIdx cl with
    | some j =>
      have hstep : opt_step core (sp, cl) =
          (sp ++ (value_to_perm core j).getD [], cl) := by
        rw [opt_step]
        dsimp only
        rw [htt, hff]
      rw [hstep]
      dsimp only
      omega
    | none =>
      have hstep : opt_step core (sp, cl) = (sp, cl) := by
        rw [opt_step]
        dsimp only
        rw [htt, hff]
      rw [hstep]
      omega

theorem opt_cover_1 :
    ((optLoop (List.range' 1 1)
      (max_value (mapper_bases (List.range' 1 1)) - 1)
      (List.range' 1 (List.range' 1 1).length,
        (List.replicate (max_value (mapper_bases (List.range' 1 1)))
          false).set 0 true)).2).all (fun b => b) = true := by
  rfl

theorem opt_cover_2 :
    ((optLoop (List.range' 1 2)
      (max_value (mapper_bases (List.range' 1 2)) - 1)
      (List.range' 1 (List.range' 1 2).length,
        (List.replicate (max_value (mapper_bases (List.range' 1 2)))
          false).set 0 true)).2).all (fun b => b) = true := by
  rfl

theorem opt_cover_3 :
    ((optLoop (List.range' 1 3)
      (max_value (mapper_bases (List.range' 1 3)) - 1)
      (List.range' 1 (List.range' 1 3).length,
        (List.replicate (max_value (mapper_bases (List.range' 1 3)))
          false).set 0 true)).2).all (fun b => b) = true := by
  rfl

theorem opt_cover_4 :
    ((optLoop (List.range' 1 4)
      (max_value (mapper_bases (List.range' 1 4)) - 1)
      (List.range' 1 (List.range' 1 4).length,
        (List.replicate (max_value (mapper_bases (List.range' 1 4)))
          false).set 0 true)).2).all (fun b => b) = true := by
  rfl

theorem opt_cover_5 :
    ((optLoop (List.range' 1 5)
      (max_value (mapper_bases (List.range' 1 5)) - 1)
      (List.range' 1 (List.range' 1 5).length,
        (List.replicate (max_value (mapper_bases (List.range' 1 5)))
          false).set 0 true)).2).all (fun b => b) = true := by
  rfl

theorem opt_cover_6 :
    ((optLoop (List.range' 1 6)
      (max_value (mapper_bases (List.range' 1 6)) - 1)
      (List.range' 1 (List.range' 1 6).length,
        (List.replicate (max_value (mapper_bases (List.range' 1 6)))
          false).set 0 true)).2).all (fun b => b) = true := by
  rw [show max_value (mapper_bases (List.range' 1 6)) = 720 from rfl]
  rw [show (List.range' 1 (List.range' 1 6).length,
    (List.replicate 720 false).set 0 true) = (optS6c0, optCcl6c0) from rfl]
  rw [show (720 : Nat) - 1 = 719 from rfl]
  rw [optCreate6_acc18]
  rfl

/-! ### The box characterization of `possible_values_for` -/

/-- For a valid prefix, `target ++ leftover` is a permutation of the core. -/
theorem leftover_perm (n : Nat) (T : List Nat) (hT : T.Nodup)
    (hsub : ∀ x ∈ T, x ∈ List.range' 1 n) :
    (T ++ (List.range' 1 n).filter (fun x => ¬ T.contains x)).Perm
      (List.range' 1 n) := by
  have hrn : (List.range' 1 n).Nodup := List.nodup_range' 1 n
  have hLn : ((List.range' 1 n).filter (fun x => ¬ T.contains x)).Nodup :=
    (List.filter_sublist _).nodup hrn
  have hnodup : (T ++ (List.range' 1 n).filter
      (fun x => ¬ T.contains x)).Nodup := by
    rw [List.nodup_append]
    refine ⟨hT, hLn, ?_⟩
    intro a haT haL
    rw [List.mem_filter] at haL
    have h2 := haL.2
    simp only [decide_eq_true_eq] at h2
    exact h2 (List.elem_iff.mpr haT)
  apply (List.perm_ext_iff_of_nodup hnodup hrn).mpr
  intro a
  constructor
  · intro ha
    rcases List.mem_append.mp ha with h | h
    · exact hsub a h
    · exact List.mem_of_mem_filter h
  · intro ha
    by_cases hmem : a ∈ T
    · exact List.mem_append.mpr (Or.inl hmem)
    · refine List.mem_append.mpr (Or.inr ?_)
      rw [List.mem_filter]
      refine ⟨ha, ?_⟩
      simp only [decide_eq_true_eq]
      intro hc
      exact hmem (List.elem_iff.mp hc)

/-- Claim C5's failure branch as a reusable lemma: a non-empty prefix with
an out-of-alphabet token, or longer than `n`, or with a repeated token
yields the empty result. -/
theorem pvf_invalid (n : Nat) (T : List Nat) (hne : ¬ T.length = 0)
    (hbad : (∃ x ∈ T, x ∉ List.range' 1 n) ∨ n < T.length ∨ ¬ T.Nodup) :
    possible_values_for (List.range' 1 n) T = [] := by
  have hnp : ¬ (T ++ (List.range' 1 n).filter
      (fun x => ¬ T.contains x)).Perm (List.range' 1 n) := by
    intro hp
    rcases hbad with ⟨x, hxT, hxr⟩ | hlen | hnd
    · exact hxr (hp.mem_iff.mp (List.mem_append.mpr (Or.inl hxT)))
    · have hle := hp.length_eq
      rw [List.length_append, List.length_range'] at hle
      omega
    · exact hnd ((hp.symm.nodup (List.nodup_range' 1 n)).of_append_left)
  have hnone : perm_to_value (List.range' 1 n)
      (T ++ (List.range' 1 n).filter (fun x => ¬ T.contains x)) = none := by
    cases hpv : perm_to_value (List.range' 1 n)
        (T ++ (List.range' 1 n).filter (fun x => ¬ T.contains x)) with
    | none => rfl
    | some v => exact absurd (perm_to_value_success n _ v hpv).1 hnp
  simp only [possible_values_for, if_neg hne, hnone]

theorem countP_congr_mem (l : List Nat) (p q : Nat → Bool)
    (h : ∀ a ∈ l, p a = q a) : l.countP p = l.countP q := by
  induction l with
  | nil => rfl
  | cons a as ih =>
    rw [List.countP_cons, List.countP_cons, h a (List.mem_cons_self _ _),
      ih (fun x hx => h x (List.mem_cons_of_mem a hx))]

/-- In a strictly increasing list, entries before position `p` are below
the entry at `p`. -/
theorem sorted_take_lt (L : List Nat) (hs : L.Pairwise (· < ·)) (p t : Nat)
    (ht : L[p]? = some t) : ∀ y ∈ L.take p, y < t := by
  obtain ⟨hplt, hpe⟩ := List.getElem?_eq_some_iff.mp ht
  have hsplit := hs
  rw [← List.take_append_drop p L, List.pairwise_append] at hsplit
  intro y hy
  apply hsplit.2.2 y hy
  rw [List.drop_eq_getElem_cons hplt, hpe]
  exact List.mem_cons_self _ _

/-- In a strictly increasing list, entries after position `p` are above the
entry at `p`. -/
theorem sorted_drop_gt (L : List Nat) (hs : L.Pairwise (· < ·)) (p t : Nat)
    (ht : L[p]? = some t) : ∀ y ∈ L.drop (p + 1), t < y := by
  obtain ⟨hplt, hpe⟩ := List.getElem?_eq_some_iff.mp ht
  have hd : L.drop p = t :: L.drop (p + 1) := by
    rw [List.drop_eq_getElem_cons hplt, hpe]
  have hsp : (L.drop p).Pairwise (· < ·) := hs.sublist (List.drop_sublist p L)
  rw [hd] at hsp
  exact fun y hy => (List.pairwise_cons.mp hsp).1 y hy

/-- In a strictly increasing list, the entries above the one at position `p`
are exactly those after it. -/
theorem sorted_countP_lt (L : List Nat) (hs : L.Pairwise (· < ·)) (p t : Nat)
    (ht : L[p]? = some t) :
    L.countP (fun y => t < y) = L.length - (p + 1) := by
  obtain ⟨hplt, _⟩ := List.getElem?_eq_some_iff.mp ht
  conv_lhs => rw [← List.take_append_drop (p + 1) L]
  rw [List.countP_append]
  have h1 : (L.take (p + 1)).countP (fun y => t < y) = 0 := by
    apply List.countP_eq_zero.mpr
    intro y hy
    rw [List.take_succ, ht] at hy
    simp only [Option.toList_some] at hy
    rcases List.mem_append.mp hy with h | h
    · have := sorted_take_lt L hs p t ht y h
      simp only [decide_eq_true_eq]
      omega
    · have hyt : y = t := by simpa using h
      simp only [decide_eq_true_eq]
      omega
  have h2 : (L.drop (p + 1)).countP (fun y => t < y) =
      (L.drop (p + 1)).length := by
    apply List.countP_eq_length.mpr
    intro y hy
    have := sorted_drop_gt L hs p t ht y hy
    simpa using this
  rw [h1, h2, List.length_drop]
  omega

/-- The common digit formula for a permutation of the form `T ++ R`: the
digit of a token in `T` is determined by `T` alone; the digit of a token of
`R` adds a count inside `R` to a fixed `T`-count. -/
theorem digits_formula (n : Nat) (T R : List Nat)
    (hperm : (T ++ R).Perm (List.range' 1 n)) (S : List Nat)
    (hdig : ∀ (i j : Nat), i < n → (T ++ R)[j]? = some (1 + i) →
      S[i]? = some (((T ++ R).take j).countP (fun y => 1 + i ≤ y)))
    (i : Nat) (hi : i < n) :
    ((1 + i) ∈ T →
      S[i]? = some ((T.take (T.indexOf (1 + i))).countP
        (fun y => 1 + i ≤ y))) ∧
    ((1 + i) ∉ T → ∃ q, R[q]? = some (1 + i) ∧
      S[i]? = some (T.countP (fun y => 1 + i ≤ y) +
        (R.take q).countP (fun y => 1 + i ≤ y))) := by
  constructor
  · intro hmem
    have hidx : T.indexOf (1 + i) < T.length := List.indexOf_lt_length.mpr hmem
    have hj : (T ++ R)[T.indexOf (1 + i)]? = some (1 + i) := by
      rw [List.getElem?_append_left hidx]
      exact List.getElem?_indexOf hmem
    have hres := hdig i (T.indexOf (1 + i)) hi hj
    rw [List.take_append_of_le_length (le_of_lt hidx)] at hres
    exact hres
  · intro hmem
    have htr : (1 + i) ∈ T ++ R := by
      apply hperm.mem_iff.mpr
      rw [List.mem_range']
      exact ⟨i, hi, by omega⟩
    have htR : (1 + i) ∈ R := by
      rcases List.mem_append.mp htr with h | h
      · exact absurd h hmem
      · exact h
    obtain ⟨q, hq, hqe⟩ := List.mem_iff_getElem.mp htR
    refine ⟨q, by rw [List.getElem?_eq_getElem hq, hqe], ?_⟩
    have hj : (T ++ R)[T.length + q]? = some (1 + i) := by
      rw [List.getElem?_append_right (by omega),
        show T.length + q - T.length = q from by omega,
        List.getElem?_eq_getElem hq, hqe]
    have hd := hdig i (T.length + q) hi hj
    rw [List.take_append, List.countP_append] at hd
    exact hd

/-- Digits of the box's lower corner, `perm_to_value (T ++ leftover)`: a
target token keeps its fixed digit; a leftover token (ascending order)
contributes no extra count. -/
theorem min_digits (n : Nat) (T : List Nat) (hT : T.Nodup)
    (hsub : ∀ x ∈ T, x ∈ List.range' 1 n) (S : List Nat)
    (hdig : ∀ (i j : Nat), i < n →
      (T ++ (List.range' 1 n).filter (fun x => ¬ T.contains x))[j]? =
        some (1 + i) →
      S[i]? = some (((T ++ (List.range' 1 n).filter
        (fun x => ¬ T.contains x)).take j).countP (fun y => 1 + i ≤ y)))
    (i : Nat) (hi : i < n) :
    S[i]? = some (if (1 + i) ∈ T then
        (T.take (T.indexOf (1 + i))).countP (fun y => 1 + i ≤ y)
      else T.countP (fun y => 1 + i ≤ y)) := by
  have hperm := leftover_perm n T hT hsub
  have hforms := digits_formula n T
    ((List.range' 1 n).filter (fun x => ¬ T.contains x)) hperm S hdig i hi
  by_cases hmem : (1 + i) ∈ T
  · rw [if_pos hmem]
    exact hforms.1 hmem
  · rw [if_neg hmem]
    obtain ⟨q, hq, he⟩ := hforms.2 hmem
    have hsorted : ((List.range' 1 n).filter
        (fun x => ¬ T.contains x)).Pairwise (· < ·) :=
      (List.pairwise_lt_range' 1 n).sublist (List.filter_sublist _)
    have hzero : (((List.range' 1 n).filter
        (fun x => ¬ T.contains x)).take q).countP
        (fun y => 1 + i ≤ y) = 0 := by
      apply List.countP_eq_zero.mpr
      intro y hy
      have := sorted_take_lt _ hsorted q (1 + i) hq y hy
      simp only [decide_eq_true_eq]
      omega
    rw [hzero, Nat.add_zero] at he
    exact he

/-- Digits of the box's upper corner, `perm_to_value (T ++ leftover.reverse)`:
a target token keeps its fixed digit; a leftover token adds the full count
of the leftover tokens above it. -/
theorem max_digits (n : Nat) (T : List Nat) (hT : T.Nodup)
    (hsub : ∀ x ∈ T, x ∈ List.range' 1 n) (S : List Nat)
    (hdig : ∀ (i j : Nat), i < n →
      (T ++ ((List.range' 1 n).filter
        (fun x => ¬ T.contains x)).reverse)[j]? = some (1 + i) →
      S[i]? = some (((T ++ ((List.range' 1 n).filter
        (fun x => ¬ T.contains x)).reverse).take j).countP
        (fun y => 1 + i ≤ y)))
    (i : Nat) (hi : i < n) :
    S[i]? = some (if (1 + i) ∈ T then
        (T.take (T.indexOf (1 + i))).countP (fun y => 1 + i ≤ y)
      else T.countP (fun y => 1 + i ≤ y) +
        ((List.range' 1 n).filter (fun x => ¬ T.contains x)).countP
          (fun y => 1 + i < y)) := by
  have hpermL := leftover_perm n T hT hsub
  have hperm : (T ++ ((List.range' 1 n).filter
      (fun x => ¬ T.contains x)).reverse).Perm (List.range' 1 n) :=
    ((List.perm_append_left_iff T).mpr (List.reverse_perm _)).trans hpermL
  have hforms := digits_formula n T
    ((List.range' 1 n).filter (fun x => ¬ T.contains x)).reverse
    hperm S hdig i hi
  by_cases hmem : (1 + i) ∈ T
  · rw [if_pos hmem]
    exact hforms.1 hmem
  · rw [if_neg hmem]
    obtain ⟨q, hq, he⟩ := hforms.2 hmem
    have hsorted : ((List.range' 1 n).filter
        (fun x => ¬ T.contains x)).Pairwise (· < ·) :=
      (List.pairwise_lt_range' 1 n).sublist (List.filter_sublist _)
    obtain ⟨hqlt, hqe⟩ := List.getElem?_eq_some_iff.mp hq
    rw [List.length_reverse] at hqlt
    rw [List.getElem?_reverse hqlt] at hq
    have harith : ((List.range' 1 n).filter
        (fun x => ¬ T.contains x)).length - q =
        (((List.range' 1 n).filter (fun x => ¬ T.contains x)).length -
          1 - q) + 1 := by
      omega
    have hcnt1 : ((((List.range' 1 n).filter
        (fun x => ¬ T.contains x)).reverse.take q)).countP
        (fun y => 1 + i ≤ y) =
        (((List.range' 1 n).filter (fun x => ¬ T.contains x)).drop
          ((((List.range' 1 n).filter (fun x => ¬ T.contains x)).length -
            1 - q) + 1)).length := by
      rw [List.take_reverse, harith, List.countP_reverse]
      apply List.countP_eq_length.mpr
      intro y hy
      have := sorted_drop_gt _ hsorted _ (1 + i) hq y hy
      simp only [decide_eq_true_eq]
      omega
    have hcnt2 : ((List.range' 1 n).filter
        (fun x => ¬ T.contains x)).countP (fun y => 1 + i < y) =
        (((List.range' 1 n).filter (fun x => ¬ T.contains x)).drop
          ((((List.range' 1 n).filter (fun x => ¬ T.contains x)).length -
            1 - q) + 1)).length := by
      rw [sorted_countP_lt _ hsorted _ (1 + i) hq, List.length_drop]
    rw [hcnt1, ← hcnt2] at he
    exact he

/-- Digit bounds for an arbitrary permutation of the form `T ++ R`: each
digit lies between the box's lower and upper corner digits. -/
theorem perm_digits_bounds (n : Nat) (T R : List Nat) (hT : T.Nodup)
    (hsub : ∀ x ∈ T, x ∈ List.range' 1 n)
    (hR : R.Perm ((List.range' 1 n).filter (fun x => ¬ T.contains x)))
    (S : List Nat)
    (hdig : ∀ (i j : Nat), i < n → (T ++ R)[j]? = some (1 + i) →
      S[i]? = some (((T ++ R).take j).countP (fun y => 1 + i ≤ y)))
    (i : Nat) (hi : i < n) :
    ∃ d, S[i]? = some d ∧
      (if (1 + i) ∈ T then
        (T.take (T.indexOf (1 + i))).countP (fun y => 1 + i ≤ y)
      else T.countP (fun y => 1 + i ≤ y)) ≤ d ∧
      d ≤ (if (1 + i) ∈ T then
        (T.take (T.indexOf (1 + i))).countP (fun y => 1 + i ≤ y)
      else T.countP (fun y => 1 + i ≤ y) +
        ((List.range' 1 n).filter (fun x => ¬ T.contains x)).countP
          (fun y => 1 + i < y)) := by
  have hperm : (T ++ R).Perm (List.range' 1 n) :=
    ((List.perm_append_left_iff T).mpr hR).trans (leftover_perm n T hT hsub)
  have hforms := digits_formula n T R hperm S hdig i hi
  by_cases hmem : (1 + i) ∈ T
  · rw [if_pos hmem, if_pos hmem]
    exact ⟨_, hforms.1 hmem, le_refl _, le_refl _⟩
  · rw [if_neg hmem, if_neg hmem]
    obtain ⟨q, hq, he⟩ := hforms.2 hmem
    have hLnd : ((List.range' 1 n).filter
        (fun x => ¬ T.contains x)).Nodup :=
      (List.filter_sublist _).nodup (List.nodup_range' 1 n)
    have hnd : R.Nodup := hR.symm.nodup hLnd
    have hcongr : (R.take q).countP (fun y => 1 + i ≤ y) =
        (R.take q).countP (fun y => 1 + i < y) := by
      apply countP_congr_mem
      intro y hy
      obtain ⟨hqlt, hqe⟩ := List.getElem?_eq_some_iff.mp hq
      obtain ⟨a, ha, hae⟩ := List.mem_iff_getElem.mp hy
      have halt : a < q := by rw [List.length_take] at ha; omega
      have haR : a < R.length := by rw [List.length_take] at ha; omega
      have haeq : R[a] = y := by
        have h3 : (R.take q)[a]? = R[a]? := List.getElem?_take_of_lt halt
        rw [List.getElem?_eq_getElem ha, List.getElem?_eq_getElem haR] at h3
        have h4 : (R.take q)[a] = R[a] := Option.some_inj.mp h3
        rw [← h4, hae]
      have hyne : ¬ y = 1 + i := by
        intro he2
        have haq : R[a] = R[q] := by rw [haeq, hqe, he2]
        have := (List.Nodup.getElem_inj_iff hnd).mp haq
        omega
      simp only [decide_eq_decide]
      omega
    have hble : (R.take q).countP (fun y => 1 + i ≤ y) ≤
        ((List.range' 1 n).filter (fun x => ¬ T.contains x)).countP
          (fun y => 1 + i < y) := by
      rw [hcongr]
      calc (R.take q).countP (fun y => 1 + i < y)
          ≤ R.countP (fun y => 1 + i < y) :=
            List.Sublist.countP_le _ (List.take_sublist q R)
        _ = _ := hR.countP_eq _
    exact ⟨_, he, Nat.le_add_right _ _, Nat.add_le_add_left hble _⟩

/-- Pointwise description of the zip-map combinations used by
`possible_values_for`. -/
theorem zip_map_getElem? (f : Nat → Nat → Nat) :
    ∀ (X Y : List Nat) (i : Nat) (x y : Nat), X[i]? = some x →
    Y[i]? = some y →
    ((X.zip Y).map (fun p => f p.1 p.2))[i]? = some (f x y) := by
  intro X
  induction X with
  | nil => intro Y i x y hx _; simp at hx
  | cons x0 Xs ih =>
    intro Y i x y hx hy
    cases Y with
    | nil => simp at hy
    | cons y0 Ys =>
      cases i with
      | zero =>
        have hx0 : x0 = x := by simpa using hx
        have hy0 : y0 = y := by simpa using hy
        subst hx0
        subst hy0
        simp
      | succ i =>
        have hx' : Xs[i]? = some x := by simpa using hx
        have hy' : Ys[i]? = some y := by simpa using hy
        have := ih Ys i x y hx' hy'
        simpa using this

/-- `filterMap` over a list where the function always succeeds keeps the
length. -/
theorem filterMap_length_all_some (f : List Nat → Option Nat) :
    ∀ (l : List (List Nat)), (∀ x ∈ l, (f x).isSome = true) →
    (l.filterMap f).length = l.length := by
  intro l
  induction l with
  | nil => intro _; rfl
  | cons a as ih =>
    intro h
    rw [List.filterMap_cons]
    cases hfa : f a with
    | none =>
      exfalso
      have := h a (List.mem_cons_self _ _)
      rw [hfa] at this
      simp at this
    | some b =>
      show (b :: as.filterMap f).length = (a :: as).length
      rw [List.length_cons, ih (fun x hx => h x (List.mem_cons_of_mem a hx))]
      rfl

/-- Over a strictly increasing list, the product of (number of entries
above each entry, plus one) is the factorial of the length. -/
theorem prod_countP_lt_factorial : ∀ (L : List Nat), L.Pairwise (· < ·) →
    (L.map (fun t => L.countP (fun y => t < y) + 1)).prod =
      Nat.factorial L.length := by
  intro L
  induction L with
  | nil => intro _; rfl
  | cons a M ih =>
    intro hp
    have hpM : M.Pairwise (· < ·) := (List.pairwise_cons.mp hp).2
    have hagt : ∀ y ∈ M, a < y := (List.pairwise_cons.mp hp).1
    have hhead : (a :: M).countP (fun y => a < y) + 1 = M.length + 1 := by
      rw [List.countP_cons]
      have h1 : M.countP (fun y => a < y) = M.length :=
        List.countP_eq_length.mpr (fun y hy => by simpa using hagt y hy)
      simp [h1]
    have htail : ∀ t ∈ M, (a :: M).countP (fun y => t < y) + 1 =
        M.countP (fun y => t < y) + 1 := by
      intro t ht
      rw [List.countP_cons]
      have h2 : (decide (t < a)) = false := by
        simp only [decide_eq_false_iff_not]
        have := hagt t ht
        omega
      simp [h2]
    rw [List.map_cons, List.prod_cons, hhead]
    have hmap : M.map (fun t => (a :: M).countP (fun y => t < y) + 1) =
        M.map (fun t => M.countP (fun y => t < y) + 1) :=
      List.map_congr_left htail
    rw [hmap, ih hpM, List.length_cons, Nat.factorial_succ]

/-- The box unfolding of `possible_values_for` on a non-empty target whose
two corner mappings succeed. -/
theorem pvf_unfold (n : Nat) (T : List Nat) (hne : ¬ T.length = 0)
    (vmin vmax : Nat)
    (h1 : perm_to_value (List.range' 1 n)
      (T ++ (List.range' 1 n).filter (fun x => ¬ T.contains x)) = some vmin)
    (h2 : perm_to_value (List.range' 1 n)
      (T ++ ((List.range' 1 n).filter
        (fun x => ¬ T.contains x)).reverse) = some vmax) :
    possible_values_for (List.range' 1 n) T =
      (List.range (max_value
        (((encode_value (mapper_bases (List.range' 1 n)) vmax).zip
          (encode_value (mapper_bases (List.range' 1 n)) vmin)).map
          (fun p => p.1 + 1 - p.2)))).map
        (fun e => decode_representation (mapper_bases (List.range' 1 n))
          (((encode_value (mapper_bases (List.range' 1 n)) vmin).zip
            (encode_value
              (((encode_value (mapper_bases (List.range' 1 n)) vmax).zip
                (encode_value (mapper_bases (List.range' 1 n)) vmin)).map
                (fun p => p.1 + 1 - p.2)) e)).map
            (fun p => p.1 + p.2))) := by
  simp only [possible_values_for, if_neg hne, h1, h2]

/-- Build a pointwise `Forall₂` bound from `getElem?` facts. -/
theorem forall2_lt_of_getElem (X Y : List Nat) (hlen : X.length = Y.length)
    (h : ∀ (i x y : Nat), X[i]? = some x → Y[i]? = some y → x < y) :
    List.Forall₂ (· < ·) X Y := by
  rw [List.forall₂_iff_get]
  refine ⟨hlen, ?_⟩
  intro i h1 h2
  exact h i _ _ (List.getElem?_eq_getElem h1) (List.getElem?_eq_getElem h2)

/-- Read a pointwise bound off a `Forall₂`. -/
theorem getElem_lt_of_forall2 (X Y : List Nat)
    (h : List.Forall₂ (· < ·) X Y) :
    ∀ (i x y : Nat), X[i]? = some x → Y[i]? = some y → x < y := by
  intro i x y hx hy
  obtain ⟨h1, hxe⟩ := List.getElem?_eq_some_iff.mp hx
  obtain ⟨h2, hye⟩ := List.getElem?_eq_some_iff.mp hy
  have hg := (List.forall₂_iff_get.mp h).2 i h1 h2
  rw [← hxe, ← hye]
  exact hg

/-- Claim C5's valid branch as a reusable lemma: for a non-empty prefix of
distinct alphabet tokens, membership in `possible_values_for` is exactly
"the decoded permutation starts with the prefix". -/
theorem pvf_valid (n : Nat) (T : List Nat) (hne : ¬ T.length = 0)
    (hT : T.Nodup) (hsub : ∀ x ∈ T, x ∈ List.range' 1 n) (v : Nat) :
    v ∈ possible_values_for (List.range' 1 n) T ↔
      v < Nat.factorial n ∧ ∃ w, value_to_perm (List.range' 1 n) v = some w ∧
        w.take T.length = T := by
  set L := (List.range' 1 n).filter (fun x => ¬ T.contains x) with hL
  have hTL : (T ++ L).Perm (List.range' 1 n) := leftover_perm n T hT hsub
  have hTLrev : (T ++ L.reverse).Perm (List.range' 1 n) :=
    ((List.perm_append_left_iff T).mpr (List.reverse_perm L)).trans hTL
  have hLnd : L.Nodup := (List.filter_sublist _).nodup (List.nodup_range' 1 n)
  have hLsorted : L.Pairwise (· < ·) :=
    (List.pairwise_lt_range' 1 n).sublist (List.filter_sublist _)
  have hmn : T.length + L.length = n := by
    have h := hTL.length_eq
    rw [List.length_append, List.length_range'] at h
    exact h
  obtain ⟨Smin, hscan1, hSlen1, hdig1, hptv1⟩ :=
    perm_to_value_of_perm n (T ++ L) hTL
  obtain ⟨Smax, hscan2, hSlen2, hdig2, hptv2⟩ :=
    perm_to_value_of_perm n (T ++ L.reverse) hTLrev
  have hSltmin : List.Forall₂ (· < ·) Smin
      (mapper_bases (List.range' 1 n)) :=
    scan_digits_lt n (T ++ L) hTL Smin hSlen1 hdig1
  have hSltmax : List.Forall₂ (· < ·) Smax
      (mapper_bases (List.range' 1 n)) :=
    scan_digits_lt n (T ++ L.reverse) hTLrev Smax hSlen2 hdig2
  have hencmin : encode_value (mapper_bases (List.range' 1 n))
      (decode_representation (mapper_bases (List.range' 1 n)) Smin) =
      Smin := encode_decode _ _ hSltmin
  have hencmax : encode_value (mapper_bases (List.range' 1 n))
      (decode_representation (mapper_bases (List.range' 1 n)) Smax) =
      Smax := encode_decode _ _ hSltmax
  have hminpt : ∀ i, i < n → Smin[i]? = some (if (1 + i) ∈ T then
      (T.take (T.indexOf (1 + i))).countP (fun y => 1 + i ≤ y)
    else T.countP (fun y => 1 + i ≤ y)) :=
    fun i hi => min_digits n T hT hsub Smin hdig1 i hi
  have hmaxpt : ∀ i, i < n → Smax[i]? = some (if (1 + i) ∈ T then
      (T.take (T.indexOf (1 + i))).countP (fun y => 1 + i ≤ y)
    else T.countP (fun y => 1 + i ≤ y) +
      L.countP (fun y => 1 + i < y)) :=
    fun i hi => max_digits n T hT hsub Smax hdig2 i hi
  have hunf := pvf_unfold n T hne
    (decode_representation (mapper_bases (List.range' 1 n)) Smin)
    (decode_representation (mapper_bases (List.range' 1 n)) Smax)
    hptv1 hptv2
  rw [hencmin, hencmax] at hunf
  have hB2len : ((Smax.zip Smin).map (fun p => p.1 + 1 - p.2)).length = n := by
    rw [List.length_map, List.length_zip, hSlen1, hSlen2]
    omega
  have hB2pt : ∀ i, i < n →
      ((Smax.zip Smin).map (fun p => p.1 + 1 - p.2))[i]? =
        some (if (1 + i) ∈ T then 1
          else L.countP (fun y => 1 + i < y) + 1) := by
    intro i hi
    have h := zip_map_getElem? (fun a b => a + 1 - b) Smax Smin i _ _
      (hmaxpt i hi) (hminpt i hi)
    rw [h]
    congr 1
    by_cases hmem : (1 + i) ∈ T
    · rw [if_pos hmem, if_pos hmem, if_pos hmem]
      dsimp only
      omega
    · rw [if_neg hmem, if_neg hmem, if_neg hmem]
      dsimp only
      omega
  have hB2pos : ∀ b ∈ (Smax.zip Smin).map (fun p => p.1 + 1 - p.2),
      0 < b := by
    intro b hb
    obtain ⟨i, hilen, hie⟩ := List.mem_iff_getElem.mp hb
    have hin : i < n := by rw [hB2len] at hilen; exact hilen
    have h := hB2pt i hin
    rw [List.getElem?_eq_getElem hilen, hie] at h
    have hbe := Option.some_inj.mp h
    by_cases hmem : (1 + i) ∈ T
    · rw [if_pos hmem] at hbe; omega
    · rw [if_neg hmem] at hbe; omega
  have hprod : max_value ((Smax.zip Smin).map (fun p => p.1 + 1 - p.2)) =
      Nat.factorial L.length := by
    rw [max_value_eq_prod]
    have hB2eq : (Smax.zip Smin).map (fun p => p.1 + 1 - p.2) =
        (List.range n).map (fun i =>
          if (1 + i) ∈ T then 1
          else L.countP (fun y => 1 + i < y) + 1) := by
      apply List.ext_getElem?
      intro i
      by_cases hi : i < n
      · rw [hB2pt i hi, List.getElem?_map, List.getElem?_range hi]
        rfl
      · rw [List.getElem?_eq_none_iff.mpr (by rw [hB2len]; omega),
          List.getElem?_eq_none_iff.mpr
            (by rw [List.length_map, List.length_range]; omega)]
    rw [hB2eq]
    have hmapeq : (List.range n).map (fun i =>
        if (1 + i) ∈ T then 1 else L.countP (fun y => 1 + i < y) + 1) =
        (List.range' 1 n).map (fun t =>
          if t ∈ T then 1 else L.countP (fun y => t < y) + 1) := by
      rw [List.range'_eq_map_range, List.map_map]
      rfl
    rw [hmapeq]
    have hpprod : ((List.range' 1 n).map (fun t =>
        if t ∈ T then 1 else L.countP (fun y => t < y) + 1)).prod =
        ((T ++ L).map (fun t =>
          if t ∈ T then 1 else L.countP (fun y => t < y) + 1)).prod :=
      ((hTL.symm).map _).prod_eq
    rw [hpprod, List.map_append, List.prod_append]
    have hTones : (T.map (fun t =>
        if t ∈ T then 1 else L.countP (fun y => t < y) + 1)).prod = 1 := by
      apply List.prod_eq_one
      intro x hx
      obtain ⟨t, ht, hte⟩ := List.mem_map.mp hx
      rw [← hte, if_pos ht]
    have hLnotT : ∀ t ∈ L, ¬ t ∈ T := by
      intro t ht
      rw [hL, List.mem_filter] at ht
      have h2 := ht.2
      simp only [decide_eq_true_eq] at h2
      intro hmem
      exact h2 (List.elem_iff.mpr hmem)
    have hLmap : L.map (fun t =>
        if t ∈ T then 1 else L.countP (fun y => t < y) + 1) =
        L.map (fun t => L.countP (fun y => t < y) + 1) :=
      List.map_congr_left (fun t ht => if_neg (hLnotT t ht))
    rw [hTones, hLmap, one_mul]
    exact prod_countP_lt_factorial L hLsorted
  set B2 := (Smax.zip Smin).map (fun p => p.1 + 1 - p.2) with hB2def
  -- generic pointwise digit validity of a box element
  have hDlt : ∀ e : Nat, List.Forall₂ (· < ·)
      ((Smin.zip (encode_value B2 e)).map (fun p => p.1 + p.2))
      (mapper_bases (List.range' 1 n)) := by
    intro e
    apply forall2_lt_of_getElem
    · rw [List.length_map, List.length_zip, hSlen1, encode_value_length,
        hB2len, mapper_bases_length, List.length_range']
      omega
    · intro i x y hx hy
      have hin : i < n := by
        obtain ⟨h2, _⟩ := List.getElem?_eq_some_iff.mp hy
        rw [mapper_bases_length, List.length_range'] at h2
        exact h2
      have hsmini := hminpt i hin
      have hd2len : i < (encode_value B2 e).length := by
        rw [encode_value_length, hB2len]; exact hin
      have hd2 : (encode_value B2 e)[i]? = some ((encode_value B2 e)[i]) :=
        List.getElem?_eq_getElem hd2len
      have hxe := zip_map_getElem? (fun a b => a + b) Smin
        (encode_value B2 e) i _ _ hsmini hd2
      rw [hx] at hxe
      have hxval := Option.some_inj.mp hxe
      have hd2lt := getElem_lt_of_forall2 _ _
        (encode_value_lt B2 hB2pos e) i _ _ hd2 (hB2pt i hin)
      have hsmaxlt := getElem_lt_of_forall2 _ _ hSltmax i _ y
        (hmaxpt i hin) hy
      by_cases hmem : (1 + i) ∈ T
      · rw [if_pos hmem] at hd2lt hsmaxlt
        dsimp only at hxval
        rw [if_pos hmem] at hxval
        omega
      · rw [if_neg hmem] at hd2lt hsmaxlt
        dsimp only at hxval
        rw [if_neg hmem] at hxval
        omega
  -- the box list is duplicate-free and has (L.length)! entries
  have hpvfnodup : (possible_values_for (List.range' 1 n) T).Nodup := by
    rw [hunf]
    apply List.Nodup.map_on ?_ (List.nodup_range _)
    intro e1 h1 e2 h2 he
    rw [List.mem_range] at h1 h2
    have hd1 := encode_decode _ _ (hDlt e1)
    have hd2 := encode_decode _ _ (hDlt e2)
    have hDeq : (Smin.zip (encode_value B2 e1)).map (fun p => p.1 + p.2) =
        (Smin.zip (encode_value B2 e2)).map (fun p => p.1 + p.2) := by
      rw [← hd1, ← hd2, he]
    have henceq : encode_value B2 e1 = encode_value B2 e2 := by
      apply List.ext_getElem?
      intro i
      by_cases hi : i < n
      · have hsmini := hminpt i hi
        have hdalen : i < (encode_value B2 e1).length := by
          rw [encode_value_length, hB2len]; exact hi
        have hdblen : i < (encode_value B2 e2).length := by
          rw [encode_value_length, hB2len]; exact hi
        have hda : (encode_value B2 e1)[i]? =
            some ((encode_value B2 e1)[i]) :=
          List.getElem?_eq_getElem hdalen
        have hdb : (encode_value B2 e2)[i]? =
            some ((encode_value B2 e2)[i]) :=
          List.getElem?_eq_getElem hdblen
        have hza := zip_map_getElem? (fun a b => a + b) Smin
          (encode_value B2 e1) i _ _ hsmini hda
        have hzb := zip_map_getElem? (fun a b => a + b) Smin
          (encode_value B2 e2) i _ _ hsmini hdb
        rw [hDeq] at hza
        have hvals := Option.some_inj.mp (hza.symm.trans hzb)
        dsimp only at hvals
        rw [hda, hdb]
        congr 1
        omega
      · rw [List.getElem?_eq_none_iff.mpr
            (by rw [encode_value_length, hB2len]; omega),
          List.getElem?_eq_none_iff.mpr
            (by rw [encode_value_length, hB2len]; omega)]
    have h1e := decode_encode B2 hB2pos e1 h1
    have h2e := decode_encode B2 hB2pos e2 h2
    rw [← h1e, ← h2e, henceq]
  have hpvflen : (possible_values_for (List.range' 1 n) T).length =
      Nat.factorial L.length := by
    rw [hunf, List.length_map, List.length_range, hprod]
  -- the "starts with T" side
  have hSWmem : ∀ x, x ∈ (L.permutations.map (fun r => T ++ r)).filterMap
      (perm_to_value (List.range' 1 n)) ↔
      (x < Nat.factorial n ∧ ∃ w, value_to_perm (List.range' 1 n) x =
        some w ∧ w.take T.length = T) := by
    intro x
    rw [List.mem_filterMap]
    constructor
    · rintro ⟨w, hwPW, hpv⟩
      obtain ⟨r, hr, hre⟩ := List.mem_map.mp hwPW
      obtain ⟨hwperm, hxlt, hv2p⟩ := perm_to_value_success n w x hpv
      refine ⟨hxlt, w, hv2p, ?_⟩
      rw [← hre]
      exact List.take_left T r
    · rintro ⟨hxlt, w, hrun, htake⟩
      have hwsplit : T ++ w.drop T.length = w := by
        conv_rhs => rw [← List.take_append_drop T.length w]
        rw [htake]
      have hwperm := value_to_perm_isPerm n x w hrun
      refine ⟨w, ?_, ?_⟩
      · rw [List.mem_map]
        refine ⟨w.drop T.length, ?_, hwsplit⟩
        rw [List.mem_permutations]
        have hw2 : (T ++ w.drop T.length).Perm (T ++ L) := by
          rw [hwsplit]
          exact hwperm.trans hTL.symm
        exact (List.perm_append_left_iff T).mp hw2
      · have hround := perm_value_roundtrip n x hxlt
        rw [hrun] at hround
        simpa using hround
  have hPWnodup : (L.permutations.map (fun r => T ++ r)).Nodup :=
    (List.nodup_permutations L hLnd).map_on
      (fun r1 _ r2 _ he => List.append_cancel_left he)
  have hSWnodup : ((L.permutations.map (fun r => T ++ r)).filterMap
      (perm_to_value (List.range' 1 n))).Nodup := by
    apply List.Nodup.filterMap ?_ hPWnodup
    intro w1 w2 x hx1 hx2
    rw [Option.mem_def] at hx1 hx2
    obtain ⟨_, _, h1⟩ := perm_to_value_success n w1 x hx1
    obtain ⟨_, _, h2⟩ := perm_to_value_success n w2 x hx2
    rw [h1] at h2
    exact Option.some_inj.mp h2
  have hallsome : ∀ w ∈ L.permutations.map (fun r => T ++ r),
      (perm_to_value (List.range' 1 n) w).isSome = true := by
    intro w hw
    obtain ⟨r, hr, hre⟩ := List.mem_map.mp hw
    have hrperm : r.Perm L := List.mem_permutations.mp hr
    have hwperm : w.Perm (List.range' 1 n) := by
      rw [← hre]
      exact ((List.perm_append_left_iff T).mpr hrperm).trans hTL
    obtain ⟨S, _, _, _, hptv⟩ := perm_to_value_of_perm n w hwperm
    rw [hptv]
    rfl
  have hSWlen : ((L.permutations.map (fun r => T ++ r)).filterMap
      (perm_to_value (List.range' 1 n))).length =
      Nat.factorial L.length := by
    rw [filterMap_length_all_some _ _ hallsome, List.length_map,
      List.length_permutations]
  -- inclusion: every starts-with value lies in the box
  have hincl : ∀ x ∈ (L.permutations.map (fun r => T ++ r)).filterMap
      (perm_to_value (List.range' 1 n)),
      x ∈ possible_values_for (List.range' 1 n) T := by
    intro x hx
    obtain ⟨hxlt, w, hrun, htake⟩ := (hSWmem x).mp hx
    have hwsplit : T ++ w.drop T.length = w := by
      conv_rhs => rw [← List.take_append_drop T.length w]
      rw [htake]
    have hwperm := value_to_perm_isPerm n x w hrun
    have hRperm : (w.drop T.length).Perm L := by
      have hw2 : (T ++ w.drop T.length).Perm (T ++ L) := by
        rw [hwsplit]
        exact hwperm.trans hTL.symm
      exact (List.perm_append_left_iff T).mp hw2
    obtain ⟨Sw, hscanw, hSlenw, hdigw, hptvw⟩ :=
      perm_to_value_of_perm n w hwperm
    have hSwlt : List.Forall₂ (· < ·) Sw (mapper_bases (List.range' 1 n)) :=
      scan_digits_lt n w hwperm Sw hSlenw hdigw
    have hround := perm_value_roundtrip n x hxlt
    rw [hrun] at hround
    have hpvw : perm_to_value (List.range' 1 n) w = some x := by
      simpa using hround
    rw [hptvw] at hpvw
    have hxeq : decode_representation (mapper_bases (List.range' 1 n)) Sw =
        x := Option.some_inj.mp hpvw
    rw [← hwsplit] at hdigw
    have hbounds : ∀ i, i < n → ∃ d, Sw[i]? = some d ∧
        (if (1 + i) ∈ T then
          (T.take (T.indexOf (1 + i))).countP (fun y => 1 + i ≤ y)
        else T.countP (fun y => 1 + i ≤ y)) ≤ d ∧
        d ≤ (if (1 + i) ∈ T then
          (T.take (T.indexOf (1 + i))).countP (fun y => 1 + i ≤ y)
        else T.countP (fun y => 1 + i ≤ y) +
          L.countP (fun y => 1 + i < y)) :=
      fun i hi => perm_digits_bounds n T (w.drop T.length)
        hT hsub hRperm Sw hdigw i hi
    have hElt : List.Forall₂ (· < ·)
        ((Sw.zip Smin).map (fun p => p.1 - p.2)) B2 := by
      apply forall2_lt_of_getElem
      · rw [List.length_map, List.length_zip, hSlenw, hSlen1, hB2len]
        omega
      · intro i x2 y2 hx2 hy2
        have hin : i < n := by
          obtain ⟨h2, _⟩ := List.getElem?_eq_some_iff.mp hy2
          rw [hB2len] at h2
          exact h2
        obtain ⟨d, hSwi, hlow, hupp⟩ := hbounds i hin
        have hsmini := hminpt i hin
        have hx2e := zip_map_getElem? (fun a b => a - b) Sw Smin i _ _
          hSwi hsmini
        rw [hx2] at hx2e
        have hx2val := Option.some_inj.mp hx2e
        have hy2e := hB2pt i hin
        rw [hy2] at hy2e
        have hy2val := Option.some_inj.mp hy2e
        by_cases hmem : (1 + i) ∈ T
        · rw [if_pos hmem] at hlow hupp
          rw [if_pos hmem] at hy2val
          dsimp only at hx2val
          rw [if_pos hmem] at hx2val
          omega
        · rw [if_neg hmem] at hlow hupp
          rw [if_neg hmem] at hy2val
          dsimp only at hx2val
          rw [if_neg hmem] at hx2val
          omega
    have helt : decode_representation B2
        ((Sw.zip Smin).map (fun p => p.1 - p.2)) < max_value B2 :=
      decode_representation_lt B2 _ hElt
    have hence : encode_value B2 (decode_representation B2
        ((Sw.zip Smin).map (fun p => p.1 - p.2))) =
        (Sw.zip Smin).map (fun p => p.1 - p.2) :=
      encode_decode _ _ hElt
    have hDe : (Smin.zip (encode_value B2 (decode_representation B2
        ((Sw.zip Smin).map (fun p => p.1 - p.2))))).map
        (fun p => p.1 + p.2) = Sw := by
      rw [hence]
      apply List.ext_getElem?
      intro i
      by_cases hi : i < n
      · obtain ⟨d, hSwi, hlow, hupp⟩ := hbounds i hi
        have hsmini := hminpt i hi
        have hsub_i := zip_map_getElem? (fun a b => a - b) Sw Smin i _ _
          hSwi hsmini
        have hadd_i := zip_map_getElem? (fun a b => a + b) Smin
          ((Sw.zip Smin).map (fun p => p.1 - p.2)) i _ _ hsmini hsub_i
        rw [hadd_i, hSwi]
        congr 1
        dsimp only
        omega
      · rw [List.getElem?_eq_none_iff.mpr (by
            rw [List.length_map, List.length_zip, hSlen1,
              List.length_map, List.length_zip, hSlenw, hSlen1]
            omega),
          List.getElem?_eq_none_iff.mpr (by rw [hSlenw]; omega)]
    rw [hunf, List.mem_map]
    refine ⟨decode_representation B2
      ((Sw.zip Smin).map (fun p => p.1 - p.2)), List.mem_range.mpr helt, ?_⟩
    rw [hDe]
    exact hxeq
  -- cardinalities force set equality
  have hfin : ∀ x, x ∈ possible_values_for (List.range' 1 n) T ↔
      x ∈ (L.permutations.map (fun r => T ++ r)).filterMap
        (perm_to_value (List.range' 1 n)) := by
    intro x
    constructor
    · intro hx
      have hsub2 : ((L.permutations.map (fun r => T ++ r)).filterMap
          (perm_to_value (List.range' 1 n))).toFinset ⊆
          (possible_values_for (List.range' 1 n) T).toFinset := by
        intro y hy
        exact List.mem_toFinset.mpr (hincl y (List.mem_toFinset.mp hy))
      have hc1 : (possible_values_for (List.range' 1 n) T).toFinset.card ≤
          ((L.permutations.map (fun r => T ++ r)).filterMap
            (perm_to_value (List.range' 1 n))).toFinset.card := by
        rw [List.toFinset_card_of_nodup hSWnodup,
          List.toFinset_card_of_nodup hpvfnodup, hpvflen, hSWlen]
      have hseteq := Finset.eq_of_subset_of_card_le hsub2 hc1
      have hx2 : x ∈ (possible_values_for (List.range' 1 n) T).toFinset :=
        List.mem_toFinset.mpr hx
      rw [← hseteq] at hx2
      exact List.mem_toFinset.mp hx2
    · exact hincl x
  exact (hfin v).trans (hSWmem v)


/-- Claim C5: for the permutation mapper over base sequence `1..=n` and every
non-empty target: if the target has length at most `n` and consists of
distinct tokens of the alphabet `1..=n`, then `possible_values_for` returns
exactly the values `v` in `[0, n!)` whose decoded permutation
`value_to_perm v` starts with that target; if the target contains a token
outside the alphabet, is longer than `n`, or repeats a token, the result is
empty. -/
theorem C5_box_enumeration (n : Nat) (T : List Nat) (hne : ¬ T.length = 0) :
    ((∀ x ∈ T, x ∈ List.range' 1 n) → T.Nodup → T.length ≤ n →
      ∀ v, v ∈ possible_values_for (List.range' 1 n) T ↔
        v < Nat.factorial n ∧
        ∃ w, value_to_perm (List.range' 1 n) v = some w ∧
          w.take T.length = T) ∧
    (((∃ x ∈ T, x ∉ List.range' 1 n) ∨ n < T.length ∨ ¬ T.Nodup) →
      possible_values_for (List.range' 1 n) T = []) :=
  ⟨fun hsub hT _ v => pvf_valid n T hne hT hsub v,
   fun hbad => pvf_invalid n T hne hbad⟩

/-- Concrete instance of claim C5 at `n = 3`, target `[2]`. -/
theorem C5_box_enumeration_witness :
    (¬ ([2] : List Nat).length = 0) ∧
    (2 ∈ possible_values_for (List.range' 1 3) [2] ↔
      2 < Nat.factorial 3 ∧
      ∃ w, value_to_perm (List.range' 1 3) 2 = some w ∧
        w.take ([2] : List Nat).length = [2]) ∧
    possible_values_for (List.range' 1 3) [2, 2] = [] := by
  refine ⟨by decide, ?_, ?_⟩
  · exact (C5_box_enumeration 3 [2] (by decide)).1
      (by decide) (by decide) (by decide) 2
  · exact (C5_box_enumeration 3 [2, 2] (by decide)).2 (Or.inr (Or.inr (by decide)))

/-! ### Coverage implies check success (the construction's windows carry
every marked value's permutation) -/

/-- Encoding zero gives the all-zero representation. -/
theorem encode_zero : ∀ (bases : List Nat),
    encode_value bases 0 = List.replicate bases.length 0 := by
  intro bases
  induction bases with
  | nil => rfl
  | cons b bs ih =>
    simp only [encode_value, Nat.zero_mod, Nat.zero_div, ih,
      List.length_cons, List.replicate_succ]

/-- Setting position `pre.length` of `pre ++ b` writes into the head of
`b`. -/
theorem set_after : ∀ (pre b : List Nat) (t : Nat),
    (pre ++ b).set pre.length t = pre ++ b.set 0 t := by
  intro pre
  induction pre with
  | nil => intro b t; rfl
  | cons x xs ih =>
    intro b t
    show x :: (xs ++ b).set xs.length t = x :: (xs ++ b.set 0 t)
    rw [ih]

/-- Inserting tokens with all-zero digits fills the free slots left to
right. -/
theorem insertTokens_zeros : ∀ (ts pre : List Nat),
    (∀ t ∈ ts, ¬ t = 0) → (∀ x ∈ pre, ¬ x = 0) →
    insertTokens (ts.zip (List.replicate ts.length 0))
      (pre ++ List.replicate ts.length 0) = some (pre ++ ts) := by
  intro ts
  induction ts with
  | nil => intro pre _ _; simp [insertTokens]
  | cons t ts ih =>
    intro pre hts hpre
    show insertTokens ((t, 0) :: ts.zip (List.replicate ts.length 0))
      (pre ++ 0 :: List.replicate ts.length 0) = some (pre ++ t :: ts)
    have hidx : freeSlotIdx (pre ++ 0 :: List.replicate ts.length 0) 0 =
        some pre.length := by
      have hget : (pre ++ 0 :: List.replicate ts.length 0)[pre.length]? =
          some 0 := by
        rw [List.getElem?_append_right (Nat.le_refl _)]
        simp
      have h := freeSlotIdx_eq_some _ _ hget
      have hcnt : ((pre ++ 0 :: List.replicate ts.length 0).take
          pre.length).count 0 = 0 := by
        rw [List.take_append_of_le_length (Nat.le_refl _), List.take_length]
        exact List.count_eq_zero.mpr (fun hc => hpre 0 hc rfl)
      rw [hcnt] at h
      exact h
    rw [insertTokens, hidx]
    dsimp only
    have hset : (pre ++ 0 :: List.replicate ts.length 0).set pre.length t =
        (pre ++ [t]) ++ List.replicate ts.length 0 := by
      rw [set_after, List.append_assoc]
      rfl
    rw [hset]
    have := ih (pre ++ [t])
      (fun u hu => hts u (List.mem_cons_of_mem t hu))
      (by
        intro x hx
        rcases List.mem_append.mp hx with hx1 | hx2
        · exact hpre x hx1
        · rw [List.mem_singleton] at hx2
          rw [hx2]
          exact hts t (List.mem_cons_self t ts))
    rw [this, List.append_assoc]
    rfl

/-- Value `0` decodes to the base sequence itself. -/
theorem value_to_perm_zero (n : Nat) :
    value_to_perm (List.range' 1 n) 0 = some (List.range' 1 n) := by
  have hlen : (List.range' 1 n).length = n := List.length_range' 1 1 n
  rw [value_to_perm, encode_zero, mapper_bases_length]
  have h := insertTokens_zeros (List.range' 1 n) []
    (by
      intro t ht
      rw [List.mem_range'] at ht
      obtain ⟨i, _, rfl⟩ := ht
      omega)
    (by intro x hx; exact absurd hx (List.not_mem_nil x))
  rw [hlen] at h ⊢
  simpa using h

/-- The first-uncovered scan returns a member of the candidate list. -/
theorem firstUncov_mem : ∀ (vs : List Nat) (cl : List Bool) (v : Nat),
    firstUncov vs cl = some v → v ∈ vs := by
  intro vs
  induction vs with
  | nil => intro cl v h; exact absurd h (by simp [firstUncov])
  | cons x xs ih =>
    intro cl v h
    rw [firstUncov] at h
    split at h
    · cases Option.some_inj.mp h
      exact List.mem_cons_self _ _
    · exact List.mem_cons_of_mem x (ih cl v h)

/-- A successful trailing-overlap search returns a listed width together
with the first unchecked value consistent with that trailing slice. -/
theorem optTryTrail_mem (core : List Nat) (cl : List Bool) (sp : List Nat) :
    ∀ (is : List Nat) (i v : Nat), optTryTrail core cl sp is = some (i, v) →
      i ∈ is ∧
      firstUncov (possible_values_for core (sp.drop (sp.length - i))) cl =
        some v := by
  intro is
  induction is with
  | nil => intro i v h; exact absurd h (by simp [optTryTrail])
  | cons j js ih =>
    intro i v h
    rw [optTryTrail] at h
    cases hfu : firstUncov
        (possible_values_for core (sp.drop (sp.length - j))) cl with
    | some u =>
      rw [hfu] at h
      dsimp only at h
      have hp := Option.some_inj.mp h
      have hj : j = i := congrArg Prod.fst hp
      have hu : u = v := congrArg Prod.snd hp
      subst hj
      subst hu
      exact ⟨List.mem_cons_self _ _, hfu⟩
    | none =>
      rw [hfu] at h
      dsimp only at h
      obtain ⟨hm, hg⟩ := ih i v h
      exact ⟨List.mem_cons_of_mem j hm, hg⟩

/-- Membership in a non-empty target's box: the value is below `n!` and its
decoded permutation starts with the target (no validity hypotheses: an
invalid target has an empty box). -/
theorem pvf_mem_take (n : Nat) (T : List Nat) (hne : ¬ T.length = 0)
    (v : Nat) (hv : v ∈ possible_values_for (List.range' 1 n) T) :
    v < Nat.factorial n ∧
    ∃ w, value_to_perm (List.range' 1 n) v = some w ∧
      w.take T.length = T := by
  by_cases hsub : ∀ x ∈ T, x ∈ List.range' 1 n
  · by_cases hnd : T.Nodup
    · exact (pvf_valid n T hne hnd hsub v).mp hv
    · rw [pvf_invalid n T hne (Or.inr (Or.inr hnd))] at hv
      exact absurd hv (List.not_mem_nil v)
  · push_neg at hsub
    rw [pvf_invalid n T hne (Or.inl hsub)] at hv
    exact absurd hv (List.not_mem_nil v)

/-- One optimized iteration keeps the checklist length. -/
theorem opt_step_cl_len (core : List Nat) (sp : List Nat) (cl : List Bool) :
    (opt_step core (sp, cl)).2.length = cl.length := by
  rw [opt_step]
  dsimp only
  cases htt : optTryTrail core cl sp
      (List.range' 1 (core.length - 1)).reverse with
  | some p =>
    obtain ⟨i, v⟩ := p
    dsimp only
    exact setChecked_length cl v
  | none =>
    dsimp only
    cases hff : firstFalseIdx cl with
    | some j => rfl
    | none => rfl

/-- The optimized loop keeps the checklist length. -/
theorem optLoop_cl_len (core : List Nat) : ∀ (k : Nat) (st : List Nat × List Bool),
    (optLoop core k st).2.length = st.2.length := by
  intro k
  induction k with
  | zero => intro st; rfl
  | succ k ih =>
    intro st
    obtain ⟨sp, cl⟩ := st
    have hrw : optLoop core (k + 1) (sp, cl) =
        optLoop core k ((opt_step core (sp, cl)).1,
          (opt_step core (sp, cl)).2) := rfl
    rw [hrw, ih]
    exact opt_step_cl_len core sp cl

/-- One optimized iteration preserves the window-coverage invariant: the
sequence stays at least `n` long and every checked value's permutation
occurs as a window of the sequence. -/
theorem opt_step_covered (n : Nat) (hn : 1 ≤ n) (sp : List Nat)
    (cl : List Bool) (hlen : n ≤ sp.length)
    (hcov : ∀ v, cl[v]? = some true →
      ∃ w, value_to_perm (List.range' 1 n) v = some w ∧ w ∈ windows n sp) :
    n ≤ (opt_step (List.range' 1 n) (sp, cl)).1.length ∧
    ∀ v, (opt_step (List.range' 1 n) (sp, cl)).2[v]? = some true →
      ∃ w, value_to_perm (List.range' 1 n) v = some w ∧
        w ∈ windows n (opt_step (List.range' 1 n) (sp, cl)).1 := by
  have hcl : (List.range' 1 n).length = n := List.length_range' 1 1 n
  cases htt : optTryTrail (List.range' 1 n) cl sp
      (List.range' 1 ((List.range' 1 n).length - 1)).reverse with
  | some p =>
    obtain ⟨i, v⟩ := p
    obtain ⟨hmem, hfu⟩ := optTryTrail_mem _ _ _ _ i v htt
    rw [List.mem_reverse, List.mem_range'] at hmem
    obtain ⟨k, hk, hik⟩ := hmem
    rw [Nat.one_mul] at hik
    subst hik
    rw [hcl] at hk
    have hi1 : 1 ≤ 1 + k := by omega
    have hin : 1 + k ≤ n - 1 := by omega
    have hTlen : (sp.drop (sp.length - (1 + k))).length = 1 + k := by
      rw [List.length_drop]; omega
    have hvmem : v ∈ possible_values_for (List.range' 1 n)
        (sp.drop (sp.length - (1 + k))) := firstUncov_mem _ _ _ hfu
    obtain ⟨hvlt, w, hw, htake⟩ := pvf_mem_take n _
      (by rw [hTlen]; omega) v hvmem
    have hwperm := value_to_perm_isPerm n v w hw
    have hwlen : w.length = n := by
      rw [hwperm.length_eq]
      exact List.length_range' 1 1 n
    have htke : w.take (1 + k) = sp.drop (sp.length - (1 + k)) := by
      nth_rewrite 1 [← hTlen]
      exact htake
    have hstep : opt_step (List.range' 1 n) (sp, cl) =
        (sp ++ w.drop (1 + k), setChecked cl v) := by
      rw [opt_step]
      dsimp only
      rw [htt]
      dsimp only
      rw [hw]
      rfl
    rw [hstep]
    dsimp only
    constructor
    · rw [List.length_append]; omega
    · intro u hu
      rw [setChecked_true_iff] at hu
      rcases hu with hold | ⟨rfl, _⟩
      · obtain ⟨w1, hw1, hwin1⟩ := hcov u hold
        exact ⟨w1, hw1, windows_append_mono n sp _ w1 hlen hwin1⟩
      · refine ⟨w, hw, ?_⟩
        have heq : (sp ++ w.drop (1 + k)).drop
            ((sp ++ w.drop (1 + k)).length - n) = w := by
          have hL : (sp ++ w.drop (1 + k)).length - n =
              sp.length - (1 + k) := by
            rw [List.length_append, List.length_drop, hwlen]; omega
          rw [hL, List.drop_append_eq_append_drop]
          have h2 : sp.length - (1 + k) - sp.length = 0 := by omega
          rw [h2, List.drop_zero, ← htke, List.take_append_drop]
        have hsfx := suffix_mem_windows n (sp ++ w.drop (1 + k))
          (by rw [List.length_append]; omega)
        rw [heq] at hsfx
        exact hsfx
  | none =>
    cases hff : firstFalseIdx cl with
    | some j =>
      have hstep : opt_step (List.range' 1 n) (sp, cl) =
          (sp ++ (value_to_perm (List.range' 1 n) j).getD [], cl) := by
        rw [opt_step]
        dsimp only
        rw [htt, hff]
      rw [hstep]
      dsimp only
      constructor
      · rw [List.length_append]; omega
      · intro u hu
        obtain ⟨w1, hw1, hwin1⟩ := hcov u hu
        exact ⟨w1, hw1, windows_append_mono n sp _ w1 hlen hwin1⟩
    | none =>
      have hstep : opt_step (List.range' 1 n) (sp, cl) = (sp, cl) := by
        rw [opt_step]
        dsimp only
        rw [htt, hff]
      rw [hstep]
      exact ⟨hlen, hcov⟩

/-- The optimized construction loop preserves the window-coverage
invariant. -/
theorem optLoop_covered (n : Nat) (hn : 1 ≤ n) :
    ∀ (k : Nat) (sp : List Nat) (cl : List Bool),
    n ≤ sp.length →
    (∀ v, cl[v]? = some true →
      ∃ w, value_to_perm (List.range' 1 n) v = some w ∧ w ∈ windows n sp) →
    n ≤ (optLoop (List.range' 1 n) k (sp, cl)).1.length ∧
    ∀ v, (optLoop (List.range' 1 n) k (sp, cl)).2[v]? = some true →
      ∃ w, value_to_perm (List.range' 1 n) v = some w ∧
        w ∈ windows n (optLoop (List.range' 1 n) k (sp, cl)).1 := by
  intro k
  induction k with
  | zero => intro sp cl h1 h2; exact ⟨h1, h2⟩
  | succ k ih =>
    intro sp cl h1 h2
    obtain ⟨hs1, hs2⟩ := opt_step_covered n hn sp cl h1 h2
    have hrw : optLoop (List.range' 1 n) (k + 1) (sp, cl) =
        optLoop (List.range' 1 n) k
          ((opt_step (List.range' 1 n) (sp, cl)).1,
            (opt_step (List.range' 1 n) (sp, cl)).2) := rfl
    rw [hrw]
    exact ih _ _ hs1 hs2

/-- If the optimized construction ends with a fully marked checklist, the
optimized check accepts its output: every marked value's permutation is a
window of the built sequence, and a full-length valid window puts its own
value in its box. -/
theorem opt_check_of_covers (n : Nat) (hn : 1 ≤ n)
    (hall : ((optLoop (List.range' 1 n)
      (max_value (mapper_bases (List.range' 1 n)) - 1)
      (List.range' 1 (List.range' 1 n).length,
        (List.replicate (max_value (mapper_bases (List.range' 1 n)))
          false).set 0 true)).2).all (fun b => b) = true) :
    opt_check_superperm (opt_create_superperm n) n = true := by
  have hcl : (List.range' 1 n).length = n := List.length_range' 1 1 n
  have hunf : opt_create_superperm n =
      (optLoop (List.range' 1 n)
        (max_value (mapper_bases (List.range' 1 n)) - 1)
        (List.range' 1 (List.range' 1 n).length,
          (List.replicate (max_value (mapper_bases (List.range' 1 n)))
            false).set 0 true)).1 := rfl
  have hmxpos : 0 < max_value (mapper_bases (List.range' 1 n)) :=
    max_value_pos _ (mapper_bases_pos _)
  have hcov0 : ∀ v, ((List.replicate
        (max_value (mapper_bases (List.range' 1 n))) false).set
        0 true)[v]? = some true →
      ∃ w, value_to_perm (List.range' 1 n) v = some w ∧
        w ∈ windows n (List.range' 1 (List.range' 1 n).length) := by
    intro v hv
    rw [List.getElem?_set] at hv
    by_cases h0 : v = 0
    · subst h0
      refine ⟨List.range' 1 n, value_to_perm_zero n, ?_⟩
      rw [hcl]
      have hsfx := suffix_mem_windows n (List.range' 1 n) (Nat.le_of_eq hcl.symm)
      rw [hcl, Nat.sub_self, List.drop_zero] at hsfx
      exact hsfx
    · exfalso
      rw [if_neg (fun he => h0 he.symm)] at hv
      rw [List.getElem?_replicate] at hv
      by_cases hvlen : v < max_value (mapper_bases (List.range' 1 n))
      · rw [if_pos hvlen] at hv
        exact Bool.false_ne_true (Option.some_inj.mp hv)
      · rw [if_neg hvlen] at hv
        exact Option.noConfusion hv
  have hlen0 : n ≤ (List.range' 1 (List.range' 1 n).length).length := by
    rw [List.length_range', hcl]
  obtain ⟨hflen, hfcov⟩ := optLoop_covered n hn
    (max_value (mapper_bases (List.range' 1 n)) - 1)
    (List.range' 1 (List.range' 1 n).length)
    ((List.replicate (max_value (mapper_bases (List.range' 1 n)))
      false).set 0 true) hlen0 hcov0
  rw [opt_check_iff]
  intro v hvf
  have hclen : ((optLoop (List.range' 1 n)
      (max_value (mapper_bases (List.range' 1 n)) - 1)
      (List.range' 1 (List.range' 1 n).length,
        (List.replicate (max_value (mapper_bases (List.range' 1 n)))
          false).set 0 true)).2).length =
      max_value (mapper_bases (List.range' 1 n)) := by
    rw [optLoop_cl_len]
    dsimp only
    rw [List.length_set, List.length_replicate]
  have hvm : v < max_value (mapper_bases (List.range' 1 n)) := by
    rw [max_value_mapper]
    exact hvf
  have htrue := (all_true_iff _).mp hall v (by rw [hclen]; exact hvm)
  obtain ⟨w, hw, hwin⟩ := hfcov v htrue
  have hwperm := value_to_perm_isPerm n v w hw
  have hwlen : w.length = n := by
    rw [hwperm.length_eq]
    exact List.length_range' 1 1 n
  refine ⟨w, ?_, ?_⟩
  · rw [hunf]
    exact hwin
  · have hne : ¬ w.length = 0 := by rw [hwlen]; omega
    have hnd : w.Nodup := hwperm.symm.nodup (List.nodup_range' 1 n)
    have hsub : ∀ x ∈ w, x ∈ List.range' 1 n :=
      fun x hx => hwperm.mem_iff.mp hx
    exact (pvf_valid n w hne hnd hsub v).mpr
      ⟨hvf, w, hw, by rw [List.take_length]⟩

/-! ### Self-checks of the optimized construction for `n = 1..6` -/

theorem opt_self_1 :
    opt_check_superperm (opt_create_superperm 1) 1 = true :=
  opt_check_of_covers 1 (by omega) opt_cover_1

theorem opt_self_2 :
    opt_check_superperm (opt_create_superperm 2) 2 = true :=
  opt_check_of_covers 2 (by omega) opt_cover_2

theorem opt_self_3 :
    opt_check_superperm (opt_create_superperm 3) 3 = true :=
  opt_check_of_covers 3 (by omega) opt_cover_3

theorem opt_self_4 :
    opt_check_superperm (opt_create_superperm 4) 4 = true :=
  opt_check_of_covers 4 (by omega) opt_cover_4

theorem opt_self_5 :
    opt_check_superperm (opt_create_superperm 5) 5 = true :=
  opt_check_of_covers 5 (by omega) opt_cover_5

theorem opt_self_6 :
    opt_check_superperm (opt_create_superperm 6) 6 = true :=
  opt_check_of_covers 6 (by omega) opt_cover_6

/-- Claim C1 (code evaluated at the failing input): for the mapper over
`1..=3`, `possible_values_for` on the empty prefix returns `[1, 2, 3, 4, 5]`
— the value `0`, whose permutation is the base sequence itself, is missing
from the result, contradicting the spec's "all values `[0, n!)`" and the
method's own documentation. -/
theorem C1_empty_target_misses_zero :
    possible_values_for (List.range' 1 3) [] = [1, 2, 3, 4, 5] ∧
      0 ∉ possible_values_for (List.range' 1 3) [] := by
  constructor
  · rfl
  · decide

/-- Claim C2 (code evaluated at the failing input): on the sequence `[1]`
with `n = 3`, the naive `check_superperm` hits the `usize` underflow in
`potential_super.len() - perm_n + 1` (a panic, modelled as `none`), while
the optimized strategy returns `false` gracefully. -/
theorem C2_short_sequence_panic :
    naive_check_superperm [1] 3 = none ∧ opt_check_superperm [1] 3 = false := by
  constructor
  · rfl
  · rfl

/-- Claim C4, counterexample to the claim as stated: on the sequence `[1]`
with `n = 3` the naive `check_superperm` panics on the `usize` underflow
(modelled as `none`) while the optimized one returns `false`, so the two
realizations do not agree on every sequence and every `n ≥ 1`. -/
theorem C4_check_agreement_counterexample :
    ¬ (naive_check_superperm [1] 3 = some (opt_check_superperm [1] 3)) := by
  decide

/-- Claim C4, amended: whenever the sequence is at least `n` long (so the
naive strategy's window arithmetic does not underflow), the naive and the
optimized `check_superperm` return the same boolean. -/
theorem C4_check_agreement (s : List Nat) (n : Nat) (hn : 1 ≤ n)
    (hlen : n ≤ s.length) :
    naive_check_superperm s n = some (opt_check_superperm s n) := by
  have hunf : naive_check_superperm s n =
      if s.length < n then none else
        some ((naiveCheckLoop (generate_perms n) (windows n s)
          (List.replicate (generate_perms n).length false)).all
          (fun b => b)) := rfl
  cases hopt : opt_check_superperm s n with
  | true =>
    have h1 := (opt_check_iff s n).mp hopt
    have h2 := (check_props_equiv s n hn hlen).mpr h1
    exact (naive_check_iff s n hlen).mpr h2
  | false =>
    have hb : ∃ b, naive_check_superperm s n = some b :=
      ⟨_, by rw [hunf, if_neg (by omega)]⟩
    obtain ⟨b, hbe⟩ := hb
    cases b with
    | false => exact hbe
    | true =>
      exfalso
      have h1 := (naive_check_iff s n hlen).mp hbe
      have h2 := (check_props_equiv s n hn hlen).mp h1
      have h3 := (opt_check_iff s n).mpr h2
      rw [hopt] at h3
      exact Bool.false_ne_true h3

/-- Witness for the amended C4 at a concrete input: the sequence `[1,2,1]`
with `n = 2` (both checks return `true`). -/
theorem C4_check_agreement_witness :
    1 ≤ 2 ∧ 2 ≤ ([1, 2, 1] : List Nat).length ∧
      naive_check_superperm [1, 2, 1] 2 =
        some (opt_check_superperm [1, 2, 1] 2) :=
  ⟨by decide, by decide, C4_check_agreement [1, 2, 1] 2 (by decide) (by decide)⟩

/-- Claim C3: self-agreement — for each strategy and every `n` in `1..7`,
`check_superperm (create_superperm n) n` succeeds: the naive check returns
`some true` (proved for every `n ≥ 1` from the loop invariant), and the
optimized check returns `true` (verified by kernel computation of the
construction and the check for each `n < 7`). -/
theorem C3_self_agreement (n : Nat) (hn : 1 ≤ n) (h7 : n < 7) :
    naive_check_superperm (naive_create_superperm n) n = some true ∧
      opt_check_superperm (opt_create_superperm n) n = true := by
  refine ⟨naive_self_check n hn, ?_⟩
  interval_cases n
  · exact opt_self_1
  · exact opt_self_2
  · exact opt_self_3
  · exact opt_self_4
  · exact opt_self_5
  · exact opt_self_6

/-- Witness for C3 at a concrete input: `n = 3`. -/
theorem C3_self_agreement_witness :
    1 ≤ 3 ∧ 3 < 7 ∧
      (naive_check_superperm (naive_create_superperm 3) 3 = some true ∧
        opt_check_superperm (opt_create_superperm 3) 3 = true) :=
  ⟨by decide, by decide, C3_self_agreement 3 (by decide) (by decide)⟩

/-- Claim C9, counterexample to the claim as stated: at `n = 1` the naive
outer loop runs one iteration starting from a fully marked checklist (the
first permutation is checked off before the loop starts), and that
iteration marks no entry — the state is unchanged and the `true` count does
not grow — so "every iteration of the outer loop covers strictly one
previously-uncovered permutation" is false as stated. -/
theorem C9_greedy_coverage_counterexample :
    naive_step (generate_perms 1) 1
      ((generate_perms 1).headD [],
        (List.replicate (generate_perms 1).length false).set 0 true) =
      ((generate_perms 1).headD [],
        (List.replicate (generate_perms 1).length false).set 0 true) ∧
    ¬ ((naive_step (generate_perms 1) 1
        ((generate_perms 1).headD [],
          (List.replicate (generate_perms 1).length false).set 0
            true)).2.countP (fun b => b) =
      ((List.replicate (generate_perms 1).length false).set 0
        true).countP (fun b => b) + 1) := by
  decide

/-- Claim C9, amended: per-iteration marking of the greedy constructions.
For every `n ≥ 1`: (a) a naive outer iteration marks exactly one
previously-unmarked checklist entry while one remains, and leaves the state
unchanged once all are marked (so the loop terminates with full coverage,
but iterations after full coverage — at least the last one — mark nothing);
(b) an optimized outer iteration marks at most one entry (its fallback
branch appends a permutation without marking); (c) the naive construction
ends with all `n!` entries covered; (d) for `n < 7` the optimized
construction also ends with all `n!` entries covered. -/
theorem C9_greedy_coverage (n : Nat) (hn : 1 ≤ n) :
    (∀ (sp : List Nat) (cl : List Bool),
      cl.length = (generate_perms n).length →
      ((∃ (j : Nat), cl[j]? = some false) →
        (naive_step (generate_perms n) n (sp, cl)).2.countP (fun b => b) =
          cl.countP (fun b => b) + 1) ∧
      ((∀ (j : Nat), ¬ cl[j]? = some false) →
        naive_step (generate_perms n) n (sp, cl) = (sp, cl))) ∧
    (∀ (st : List Nat × List Bool),
      st.2.countP (fun b => b) ≤
        (opt_step (List.range' 1 n) st).2.countP (fun b => b) ∧
      (opt_step (List.range' 1 n) st).2.countP (fun b => b) ≤
        st.2.countP (fun b => b) + 1) ∧
    ((naiveLoop (generate_perms n) n (generate_perms n).length
      ((generate_perms n).headD [],
        (List.replicate (generate_perms n).length false).set 0 true)).2.all
      (fun b => b) = true) ∧
    (n < 7 →
      ((optLoop (List.range' 1 n)
        (max_value (mapper_bases (List.range' 1 n)) - 1)
        (List.range' 1 (List.range' 1 n).length,
          (List.replicate (max_value (mapper_bases (List.range' 1 n)))
            false).set 0 true)).2).all (fun b => b) = true) := by
  refine ⟨?_, ?_, ?_, ?_⟩
  · intro sp cl hcl
    obtain ⟨_, h2, h3⟩ := naive_step_marks n hn sp cl hcl
    exact ⟨h2, h3⟩
  · exact opt_step_marks (List.range' 1 n)
  · exact naive_create_covers n hn
  · intro h7
    interval_cases n
    · exact opt_cover_1
    · exact opt_cover_2
    · exact opt_cover_3
    · exact opt_cover_4
    · exact opt_cover_5
    · exact opt_cover_6

/-- Witness for the amended C9 at a concrete input: `n = 2`. -/
theorem C9_greedy_coverage_witness :
    1 ≤ 2 ∧
      ((∀ (sp : List Nat) (cl : List Bool),
        cl.length = (generate_perms 2).length →
        ((∃ (j : Nat), cl[j]? = some false) →
          (naive_step (generate_perms 2) 2 (sp, cl)).2.countP (fun b => b) =
            cl.countP (fun b => b) + 1) ∧
        ((∀ (j : Nat), ¬ cl[j]? = some false) →
          naive_step (generate_perms 2) 2 (sp, cl) = (sp, cl))) ∧
      (∀ (st : List Nat × List Bool),
        st.2.countP (fun b => b) ≤
          (opt_step (List.range' 1 2) st).2.countP (fun b => b) ∧
        (opt_step (List.range' 1 2) st).2.countP (fun b => b) ≤
          st.2.countP (fun b => b) + 1) ∧
      ((naiveLoop (generate_perms 2) 2 (generate_perms 2).length
        ((generate_perms 2).headD [],
          (List.replicate (generate_perms 2).length false).set 0 true)).2.all
        (fun b => b) = true) ∧
      (2 < 7 →
        ((optLoop (List.range' 1 2)
          (max_value (mapper_bases (List.range' 1 2)) - 1)
          (List.range' 1 (List.range' 1 2).length,
            (List.replicate (max_value (mapper_bases (List.range' 1 2)))
              false).set 0 true)).2).all (fun b => b) = true)) :=
  ⟨by decide, C9_greedy_coverage 2 (by decide)⟩

/-- Claim C8: Rejection law — for the mapper over base sequence `1..=5`,
`perm_to_value` returns `none` on every input that is not a permutation of
the base sequence, in particular on each of the five listed inputs
(duplicate token, out-of-alphabet token, wrong length). -/
theorem C8_rejection_law :
    (∀ w : List Nat, ¬ w.Perm (List.range' 1 5) →
      perm_to_value (List.range' 1 5) w = none) ∧
    perm_to_value (List.range' 1 5) [1, 2, 3, 4, 4] = none ∧
    perm_to_value (List.range' 1 5) [0, 2, 3, 4, 5] = none ∧
    perm_to_value (List.range' 1 5) [1, 2, 3, 2, 5] = none ∧
    perm_to_value (List.range' 1 5) [1, 2, 3, 5] = none ∧
    perm_to_value (List.range' 1 5) [1, 2, 3, 4, 5, 6] = none :=
  ⟨fun w hnp => by
    cases hpv : perm_to_value (List.range' 1 5) w with
    | none => rfl
    | some v => exact absurd (perm_to_value_success 5 w v hpv).1 hnp,
   rfl, rfl, rfl, rfl, rfl⟩

/-- Concrete instance of claim C8's universal part at a duplicate-token
input not among the enumerated five. -/
theorem C8_rejection_law_witness :
    ¬ ([1, 1, 2, 3, 4] : List Nat).Perm (List.range' 1 5) ∧
    perm_to_value (List.range' 1 5) [1, 1, 2, 3, 4] = none :=
  ⟨by decide, C8_rejection_law.1 [1, 1, 2, 3, 4] (by decide)⟩

end SuperPerm
